import Mathlib

/-!
# RISC-V SBI client layer of edk2-platforms

A shallow embedding of `Silicon/RISC-V/ProcessorPkg/Library/RiscVEdk2SbiLib/RiscVOpenSbiLib.c`:
the call primitive `sbi_call`, the error translator `TranslateError` and the `Sbi*` wrappers
of the Base, HSM, Timer, IPI, Remote-Fence, Vendor and Firmware extensions; and of the
`PeiOpenSbi*` wrappers of `Platform/RISC-V/PlatformPkg/Universal/Sec/RiscVOpenSbiPpi.c`
(namespace `Ppi`).

Conventions of the embedding

* `UINTN`, `UINT64` and pointers are natural numbers (register words, `XLEN = 64`);
  `long` and `INTN` are integers.  The two conversions between them are `toUINTN`
  and `toLong`, both with the explicit reduction modulo `2 ^ XLEN`.
* A C function is a function `World → Outcome α`: it either returns a value in a
  new world or control does not come back (an `ASSERT` that halts, or an `ecall`
  from which the lower layer never returns).
* An `OUT` pointer parameter is passed as the old content of the location it
  points to, and the new content of that location is part of the returned value.
* The translation follows the program as gcc compiles it wherever C alone does not
  fix the behaviour: an input operand of an `asm` statement keeps the value it had
  before the statement (`sbi_call`), and the operands of one call are evaluated last
  to first (`SbiVendorCall`).
* The memory of the lower layer is one flat address space of register words in
  which an address may be unmapped; dereferencing an unmapped address is a fault,
  and control does not come back from it.
-/

namespace RiscVOpenSbi

/-! ## Machine words -/

/-- Register width of the RV64 target: `UINTN`, `long` and pointers have `XLEN` bits. -/
def XLEN : Nat := 64

/-- Conversion `(UINTN) x` of a signed `long`: reduction modulo `2 ^ XLEN`. -/
def toUINTN (x : Int) : Nat := (x % (2 ^ XLEN : Int)).toNat

/-- Conversion of a register word to the signed type `long` (two-complement reading). -/
def toLong (x : Nat) : Int :=
  if x % 2 ^ XLEN < 2 ^ (XLEN - 1) then ((x % 2 ^ XLEN : Nat) : Int)
  else ((x % 2 ^ XLEN : Nat) : Int) - (2 ^ XLEN : Int)

/-! ## Constants of headers that are not part of the translated files -/

/-- Modelled from the spec: `SBI_SUCCESS` of the OpenSBI header `sbi/sbi_error.h`
(the code `SUCCESS` of the spec); the wrappers test it as `!ret.error`, hence zero. -/
def SBI_SUCCESS : Int := 0
/-- Modelled from the spec: `SBI_ERR_FAILED` (the `FAILED`), `-1` in `sbi/sbi_error.h`. -/
def SBI_ERR_FAILED : Int := -1
/-- Modelled from the spec: `SBI_ERR_NOT_SUPPORTED` (the `NOT_SUPPORTED`), `-2`. -/
def SBI_ERR_NOT_SUPPORTED : Int := -2
/-- Modelled from the spec: `SBI_ERR_INVALID_PARAM` (the `INVALID_PARAM`), `-3`. -/
def SBI_ERR_INVALID_PARAM : Int := -3
/-- Modelled from the spec: `SBI_ERR_DENIED` (the `DENIED`), `-4`. -/
def SBI_ERR_DENIED : Int := -4
/-- Modelled from the spec: `SBI_ERR_INVALID_ADDRESS` (the `INVALID_ADDRESS`), `-5`. -/
def SBI_ERR_INVALID_ADDRESS : Int := -5
/-- Modelled from the spec: `SBI_ERR_ALREADY_AVAILABLE` (the `ALREADY_AVAILABLE`), `-6`. -/
def SBI_ERR_ALREADY_AVAILABLE : Int := -6

/-- The type `EFI_STATUS` is `UINTN`. -/
abbrev EFI_STATUS := Nat

/-- Modelled from the spec: `MAX_BIT` of `Base.h`, the top bit of a `UINTN`. -/
def MAX_BIT : Nat := 2 ^ (XLEN - 1)
/-- Modelled from the spec: `ENCODE_ERROR (StatusCode)` of `Base.h`, `MAX_BIT | StatusCode`. -/
def ENCODE_ERROR (StatusCode : Nat) : EFI_STATUS := MAX_BIT ||| StatusCode
/-- Modelled from the spec: `EFI_SUCCESS` (the `Ok`), zero. -/
def EFI_SUCCESS : EFI_STATUS := 0
/-- Modelled from the spec: `EFI_LOAD_ERROR` (the `LoadError`). -/
def EFI_LOAD_ERROR : EFI_STATUS := ENCODE_ERROR 1
/-- Modelled from the spec: `EFI_INVALID_PARAMETER` (the `InvalidParameter`). -/
def EFI_INVALID_PARAMETER : EFI_STATUS := ENCODE_ERROR 2
/-- Modelled from the spec: `EFI_UNSUPPORTED` (the `Unsupported`). -/
def EFI_UNSUPPORTED : EFI_STATUS := ENCODE_ERROR 3
/-- Modelled from the spec: `EFI_DEVICE_ERROR` (the `DeviceError`). -/
def EFI_DEVICE_ERROR : EFI_STATUS := ENCODE_ERROR 7
/-- Modelled from the spec: `EFI_ACCESS_DENIED` (the `AccessDenied`). -/
def EFI_ACCESS_DENIED : EFI_STATUS := ENCODE_ERROR 15
/-- Modelled from the spec: `EFI_ALREADY_STARTED` (the `AlreadyStarted`). -/
def EFI_ALREADY_STARTED : EFI_STATUS := ENCODE_ERROR 20
/-- Modelled from the spec: `EFI_ERROR (Status)` of `Base.h`, true when the status read as a
signed `INTN` is negative, that is when it is a failure status. -/
def EFI_ERROR (Status : EFI_STATUS) : Bool := decide (toLong Status < 0)

/-- Modelled from the spec: Base extension id, `Base=0x10`. -/
def SBI_BASE_EXT : Nat := 0x10
/-- Modelled from the spec: Timer extension id (the `Time`), value of the SBI standard. -/
def SBI_TIME_EXT : Nat := 0x54494D45
/-- Modelled from the spec: IPI extension id (the `IPI`), value of the SBI standard. -/
def SBI_IPI_EXT : Nat := 0x735049
/-- Modelled from the spec: Remote-Fence extension id (the `RFENCE`). -/
def SBI_RFNC_EXT : Nat := 0x52464E43
/-- Modelled from the spec: Hart-State-Management extension id (the `HSM`). -/
def SBI_HSM_EXT : Nat := 0x48534D
/-- Modelled from the spec: Firmware extension id, `Firmware=0x46574654`. -/
def SBI_FW_EXT : Nat := 0x46574654

/-- Modelled from the spec: function id of the spec-version query in the Base extension. -/
def SBI_GET_SPEC_VERSION_FUNC : Nat := 0
/-- Modelled from the spec: function id of the implementation-id query. -/
def SBI_GET_IMPL_ID_FUNC : Nat := 1
/-- Modelled from the spec: function id of the implementation-version query. -/
def SBI_GET_IMPL_VERSION_FUNC : Nat := 2
/-- Modelled from the spec: function id of the extension probe. -/
def SBI_PROBE_EXTENSION_FUNC : Nat := 3
/-- Modelled from the spec: function id of the `mvendorid` query. -/
def SBI_GET_MVENDORID_FUNC : Nat := 4
/-- Modelled from the spec: function id of the `marchid` query. -/
def SBI_GET_MARCHID_FUNC : Nat := 5
/-- Modelled from the spec: function id of the `mimpid` query. -/
def SBI_GET_MIMPID_FUNC : Nat := 6
/-- Modelled from the spec: function id of hart start in the HSM extension. -/
def SBI_HART_START_FUNC : Nat := 0
/-- Modelled from the spec: function id of hart stop in the HSM extension. -/
def SBI_HART_STOP_FUNC : Nat := 1
/-- Modelled from the spec: function id of the hart status query in the HSM extension. -/
def SBI_HART_GET_STATUS_FUNC : Nat := 2
/-- Modelled from the spec: function id of the scratch query of the calling hart
(`RiscVOpenSbiPpi.c` writes it as the literal `0x0`). -/
def SBI_EXT_FW_MSCRATCH_FUNC : Nat := 0
/-- Modelled from the spec: function id of the scratch query of a given hart
(`RiscVOpenSbiPpi.c` writes it as the literal `0x1`). -/
def SBI_EXT_FW_MSCRATCH_HARTID_FUNC : Nat := 1

/-! ## State -/

/-- One privilege transition: the eight registers committed by `sbi_call` at the `ecall`.
Slots `a0 .. a5` carry the arguments, `a6` the function id and `a7` the extension id. -/
structure Transition where
  a0 : Nat
  a1 : Nat
  a2 : Nat
  a3 : Nat
  a4 : Nat
  a5 : Nat
  a6 : Nat
  a7 : Nat
deriving DecidableEq, Repr

/-- Argument slot `i` of a transition (`0` for an index that is no argument slot). -/
def Transition.arg (t : Transition) (i : Nat) : Nat :=
  match i with
  | 0 => t.a0
  | 1 => t.a1
  | 2 => t.a2
  | 3 => t.a3
  | 4 => t.a4
  | 5 => t.a5
  | _ => 0

/-- Modelled from the spec: byte offset of the field `platform_addr` in the per-hart
scratch space `struct sbi_scratch` of the OpenSBI header `sbi/sbi_scratch.h`
(`SBI_SCRATCH_PLATFORM_ADDR_OFFSET`): the seventh pointer-sized field, behind `fw_start`,
`fw_size`, `next_arg1`, `next_addr`, `next_mode` and `warmboot_addr`. -/
def SBI_SCRATCH_PLATFORM_ADDR_OFFSET : Nat := 6 * (XLEN / 8)

/-- Modelled from the spec: byte offset of the field `firmware_context` in the platform
descriptor `struct sbi_platform` of the OpenSBI header `sbi/sbi_platform.h`
(`SBI_PLATFORM_FIRMWARE_CONTEXT_OFFSET`): the pointer-sized field behind
`platform_ops_addr`, which stands at `0x60`. -/
def SBI_PLATFORM_FIRMWARE_CONTEXT_OFFSET : Nat := 0x60 + XLEN / 8

/-- Memory owned by the lower layer that the wrappers reach through pointers: one flat
address space.  `mem a` is the register word stored at byte address `a`, or `none` when
nothing is mapped at `a`.  Scratch spaces and platform descriptors are ranges of this one
address space: nothing keeps a field of one from lying at the address of a field of
another. -/
structure Heap where
  mem : Nat → Option Nat

/-- The `ASSERT` statements of the two files: `ASSERT (FALSE)` in `TranslateError` and the
range assertion in `SbiVendorCall` of `RiscVOpenSbiLib.c`, and their copies in
`TranslateError` and `PeiOpenSbiVendorCall` of `RiscVOpenSbiPpi.c`. -/
inductive AssertSite where
  | TranslateError_FALSE
  | SbiVendorCall_ExtensionId
  | PeiTranslateError_FALSE
  | PeiOpenSbiVendorCall_ExtensionId
deriving DecidableEq, Repr

/-- State threaded through the wrappers.

* `ecall` is the lower layer: given the transitions performed so far, the memory and the
  registers committed now, it answers with the registers `a0`, `a1` it leaves behind, or
  with `none` when it never returns control to the caller.
* `AssertAborts` tells whether a failed `ASSERT` halts (as `DebugAssert` does when it is
  configured to dead-loop or break) or execution continues behind it.
* `trace` lists the transitions performed so far, oldest first.
* `violations` lists the `ASSERT` statements reached with a false expression. -/
structure World where
  ecall : List Transition → Heap → Transition → Option (Nat × Nat)
  AssertAborts : Bool
  trace : List Transition
  heap : Heap
  violations : List AssertSite

/-- The answer of the lower layer to transition `t` performed in world `w`. -/
def World.answer (w : World) (t : Transition) : Option (Nat × Nat) :=
  w.ecall w.trace w.heap t

/-- The world after transition `t` has been performed: `t` is appended to the trace. -/
def World.after (w : World) (t : Transition) : World :=
  { w with trace := w.trace ++ [t] }

/-- The world after the `ASSERT` at `site` has been reached with a false expression. -/
def World.violated (w : World) (site : AssertSite) : World :=
  { w with violations := w.violations ++ [site] }

/-- Why control does not come back to the caller. -/
inductive Halt where
  | assertFailed
  | noReturn
  | fault
deriving DecidableEq, Repr

/-- Result of running a C function: it returns `a` in world `w`, or it halts in world `w`. -/
inductive Outcome (α : Type) where
  | ret (a : α) (w : World)
  | halt (why : Halt) (w : World)

/-- The world in which a run ended. -/
def Outcome.world {α : Type} : Outcome α → World
  | .ret _ w => w
  | .halt _ w => w

/-- The value a run returned, if it returned. -/
def Outcome.value {α : Type} : Outcome α → Option α
  | .ret a _ => some a
  | .halt _ _ => none

/-- Apply `f` to the returned value. -/
def Outcome.map {α β : Type} (f : α → β) : Outcome α → Outcome β
  | .ret a w => .ret (f a) w
  | .halt why w => .halt why w

/-- A C function body over the state `World`. -/
def SBI (α : Type) : Type := World → Outcome α

/-- Sequencing of statements: the second runs in the world the first returned in. -/
def SBI.bind {α β : Type} (m : SBI α) (f : α → SBI β) : SBI β := fun w =>
  match m w with
  | .ret a w1 => f a w1
  | .halt why w1 => .halt why w1

instance : Monad SBI where
  pure a := fun w => .ret a w
  bind := SBI.bind

/-- Modelled from the spec: the `ASSERT (Expression)` of `DebugLib.h`.  A true expression
does nothing.  A false one is the contract-violation point: it is recorded, and the run
halts there when assertions abort and continues otherwise. -/
def ASSERT (site : AssertSite) (Expression : Bool) : SBI Unit := fun w =>
  if Expression then .ret () w
  else if w.AssertAborts then .halt .assertFailed (w.violated site)
  else .ret () (w.violated site)

/-! ## `RiscVOpenSbiLib.c` -/

/-- The `struct sbiret` of the file: two signed words. -/
structure sbiret where
  error : Int
  value : Int
deriving DecidableEq, Repr

/-- The function `TranslateError`: the `switch` over the seven case labels (each label
converted to the `UINTN` type of the controlled expression), then `ASSERT (FALSE)` and
`return EFI_UNSUPPORTED`. -/
def TranslateError (SbiError : Nat) : SBI EFI_STATUS :=
  if SbiError = toUINTN SBI_SUCCESS then pure EFI_SUCCESS
  else if SbiError = toUINTN SBI_ERR_FAILED then pure EFI_DEVICE_ERROR
  else if SbiError = toUINTN SBI_ERR_NOT_SUPPORTED then pure EFI_UNSUPPORTED
  else if SbiError = toUINTN SBI_ERR_INVALID_PARAM then pure EFI_INVALID_PARAMETER
  else if SbiError = toUINTN SBI_ERR_DENIED then pure EFI_ACCESS_DENIED
  else if SbiError = toUINTN SBI_ERR_INVALID_ADDRESS then pure EFI_LOAD_ERROR
  else if SbiError = toUINTN SBI_ERR_ALREADY_AVAILABLE then pure EFI_ALREADY_STARTED
  else do
    -- Reaches here only if SBI has defined a new error type
    ASSERT .TranslateError_FALSE false
    pure EFI_UNSUPPORTED

/-- The function `sbi_call`: commits `arg0 .. arg5` to `a0 .. a5`, `func_id` to `a6` and
`ext_id` to `a7`, executes `ecall`, and returns `{ a0, a1 }`, read as two `long`.

The `asm` statement has one output operand, `"+r" (a0)`: the variable `a0` is read back
from the register after the `ecall`.  The variable `a1` is among the input operands
(`"r" (a1)`), which the statement is taken to leave as they were, so the `a1` of
`struct sbiret ret = { a0, a1 }` is the value it was initialised with, `arg1`; the word the
lower layer leaves in register `a1` is not read.  (Code generated without any optimisation
keeps `a1` in the register and so happens to return what the lower layer left there;
nothing in the source asks for that, and optimised code returns `arg1`.) -/
def sbi_call (ext_id func_id arg0 arg1 arg2 arg3 arg4 arg5 : Nat) : SBI sbiret := fun w =>
  let t : Transition := ⟨arg0, arg1, arg2, arg3, arg4, arg5, func_id, ext_id⟩
  match w.answer t with
  | some (a0, _) => .ret ⟨toLong a0, toLong arg1⟩ (w.after t)
  | none => .halt .noReturn (w.after t)

/-- The call `sbi_call_0 (ext_id, func_id)`. -/
def sbi_call_0 (ext_id func_id : Nat) : SBI sbiret :=
  sbi_call ext_id func_id 0 0 0 0 0 0
/-- The call `sbi_call_1 (ext_id, func_id, arg0)`. -/
def sbi_call_1 (ext_id func_id arg0 : Nat) : SBI sbiret :=
  sbi_call ext_id func_id arg0 0 0 0 0 0
/-- The call `sbi_call_2 (ext_id, func_id, arg0, arg1)`. -/
def sbi_call_2 (ext_id func_id arg0 arg1 : Nat) : SBI sbiret :=
  sbi_call ext_id func_id arg0 arg1 0 0 0 0
/-- The call `sbi_call_3 (ext_id, func_id, arg0, arg1, arg2)`. -/
def sbi_call_3 (ext_id func_id arg0 arg1 arg2 : Nat) : SBI sbiret :=
  sbi_call ext_id func_id arg0 arg1 arg2 0 0 0
/-- The call `sbi_call_4 (ext_id, func_id, arg0, arg1, arg2, arg3)`. -/
def sbi_call_4 (ext_id func_id arg0 arg1 arg2 arg3 : Nat) : SBI sbiret :=
  sbi_call ext_id func_id arg0 arg1 arg2 arg3 0 0
/-- The call `sbi_call_5 (ext_id, func_id, arg0, arg1, arg2, arg3, arg4)`. -/
def sbi_call_5 (ext_id func_id arg0 arg1 arg2 arg3 arg4 : Nat) : SBI sbiret :=
  sbi_call ext_id func_id arg0 arg1 arg2 arg3 arg4 0
/-- The call `sbi_call_6 (ext_id, func_id, arg0, arg1, arg2, arg3, arg4, arg5)`. -/
def sbi_call_6 (ext_id func_id arg0 arg1 arg2 arg3 arg4 arg5 : Nat) : SBI sbiret :=
  sbi_call ext_id func_id arg0 arg1 arg2 arg3 arg4 arg5

/-! ### Base extension -/

/-- The function `SbiGetSpecVersion`; the argument is the old content of `*SpecVersion`,
the result its new content. -/
def SbiGetSpecVersion (SpecVersion : Nat) : SBI Nat := do
  let ret ← sbi_call_0 SBI_BASE_EXT SBI_GET_SPEC_VERSION_FUNC
  if ret.error = 0 then
    pure (toUINTN ret.value)
  else
    pure SpecVersion

/-- The function `SbiGetImplId`; the result is the new content of `*ImplId`. -/
def SbiGetImplId (_ImplId : Nat) : SBI Nat := do
  let ret ← sbi_call_0 SBI_BASE_EXT SBI_GET_IMPL_ID_FUNC
  pure (toUINTN ret.value)

/-- The function `SbiGetImplVersion`; the result is the new content of `*ImplVersion`. -/
def SbiGetImplVersion (_ImplVersion : Nat) : SBI Nat := do
  let ret ← sbi_call_0 SBI_BASE_EXT SBI_GET_IMPL_VERSION_FUNC
  pure (toUINTN ret.value)

/-- The function `SbiProbeExtension`; `ProbeResult` points to an `INTN`, so the stored
`(UINTN) ret.value` is read back as a signed word.  The body calls `sbi_call_0`: the
parameter `ExtensionId` is not used. -/
def SbiProbeExtension (_ExtensionId : Int) (_ProbeResult : Int) : SBI Int := do
  let ret ← sbi_call_0 SBI_BASE_EXT SBI_PROBE_EXTENSION_FUNC
  pure (toLong (toUINTN ret.value))

/-- The function `SbiGetMvendorId`; the result is the new content of `*MvendorId`. -/
def SbiGetMvendorId (_MvendorId : Nat) : SBI Nat := do
  let ret ← sbi_call_0 SBI_BASE_EXT SBI_GET_MVENDORID_FUNC
  pure (toUINTN ret.value)

/-- The function `SbiGetMarchId`; the result is the new content of `*MarchId`. -/
def SbiGetMarchId (_MarchId : Nat) : SBI Nat := do
  let ret ← sbi_call_0 SBI_BASE_EXT SBI_GET_MARCHID_FUNC
  pure (toUINTN ret.value)

/-- The function `SbiGetMimpId`; the result is the new content of `*MimpId`. -/
def SbiGetMimpId (_MimpId : Nat) : SBI Nat := do
  let ret ← sbi_call_0 SBI_BASE_EXT SBI_GET_MIMPID_FUNC
  pure (toUINTN ret.value)

/-! ### Hart state management extension -/

/-- The function `SbiHartStart`. -/
def SbiHartStart (HartId StartAddr Priv : Nat) : SBI EFI_STATUS := do
  let ret ← sbi_call_3 SBI_HSM_EXT SBI_HART_START_FUNC HartId StartAddr Priv
  TranslateError (toUINTN ret.error)

/-- The function `SbiHartStop`. -/
def SbiHartStop : SBI EFI_STATUS := do
  let Ret ← sbi_call_0 SBI_HSM_EXT SBI_HART_STOP_FUNC
  TranslateError (toUINTN Ret.error)

/-- The function `SbiHartGetStatus`; the second argument is the old content of
`*HartStatus`, the second component of the result its new content. -/
def SbiHartGetStatus (HartId : Nat) (HartStatus : Nat) : SBI (EFI_STATUS × Nat) := do
  let ret ← sbi_call_1 SBI_HSM_EXT SBI_HART_GET_STATUS_FUNC HartId
  let HartStatus := if ret.error = 0 then toUINTN ret.value else HartStatus
  let Status ← TranslateError (toUINTN ret.error)
  pure (Status, HartStatus)

/-! ### Timer and IPI extensions -/

/-- The function `SbiSetTimer`: the result of the call is dropped. -/
def SbiSetTimer (StimeValue : Nat) : SBI Unit := do
  let _ ← sbi_call_1 SBI_TIME_EXT 0 StimeValue
  pure ()

/-- The function `SbiSendIpi`; `HartMask` is the pointer value `(UINTN) HartMask`. -/
def SbiSendIpi (HartMask HartMaskBase : Nat) : SBI EFI_STATUS := do
  let ret ← sbi_call_2 SBI_IPI_EXT 0 HartMask HartMaskBase
  TranslateError (toUINTN ret.error)

/-! ### Remote fence extension -/

/-- The function `SbiRemoteFenceI`. -/
def SbiRemoteFenceI (HartMask HartMaskBase : Nat) : SBI EFI_STATUS := do
  let ret ← sbi_call_2 SBI_RFNC_EXT 0 HartMask HartMaskBase
  TranslateError (toUINTN ret.error)

/-- The function `SbiRemoteSfenceVma`. -/
def SbiRemoteSfenceVma (HartMask HartMaskBase StartAddr Size : Nat) : SBI EFI_STATUS := do
  let ret ← sbi_call_4 SBI_RFNC_EXT 1 HartMask HartMaskBase StartAddr Size
  TranslateError (toUINTN ret.error)

/-- The function `SbiRemoteSfenceVmaAsid`. -/
def SbiRemoteSfenceVmaAsid (HartMask HartMaskBase StartAddr Size Asid : Nat) :
    SBI EFI_STATUS := do
  let ret ← sbi_call_5 SBI_RFNC_EXT 2 HartMask HartMaskBase StartAddr Size Asid
  TranslateError (toUINTN ret.error)

/-- The function `SbiRemoteHFenceGvmaVmid`. -/
def SbiRemoteHFenceGvmaVmid (HartMask HartMaskBase StartAddr Size Vmid : Nat) :
    SBI EFI_STATUS := do
  let ret ← sbi_call_5 SBI_RFNC_EXT 3 HartMask HartMaskBase StartAddr Size Vmid
  TranslateError (toUINTN ret.error)

/-- The function `SbiRemoteHFenceGvma`. -/
def SbiRemoteHFenceGvma (HartMask HartMaskBase StartAddr Size : Nat) : SBI EFI_STATUS := do
  let ret ← sbi_call_4 SBI_RFNC_EXT 4 HartMask HartMaskBase StartAddr Size
  TranslateError (toUINTN ret.error)

/-- The function `SbiRemoteHFenceVvmaAsid`. -/
def SbiRemoteHFenceVvmaAsid (HartMask HartMaskBase StartAddr Size Asid : Nat) :
    SBI EFI_STATUS := do
  let ret ← sbi_call_5 SBI_RFNC_EXT 5 HartMask HartMaskBase StartAddr Size Asid
  TranslateError (toUINTN ret.error)

/-- The function `SbiRemoteHFenceVvma`. -/
def SbiRemoteHFenceVvma (HartMask HartMaskBase StartAddr Size : Nat) : SBI EFI_STATUS := do
  let ret ← sbi_call_4 SBI_RFNC_EXT 6 HartMask HartMaskBase StartAddr Size
  TranslateError (toUINTN ret.error)

/-! ### Vendor extension -/

/-- The variable argument list `VA_LIST` of a variadic call: the words the caller passed
after the named parameters, first argument first. -/
abbrev VA_LIST := List Nat

/-- The macro `VA_ARG (Args, UINTN)`: yields the next argument and advances the list.
Reading past the arguments that were passed is undefined in C; the model yields `0`. -/
def VA_ARG (Args : VA_LIST) : Nat × VA_LIST := (Args.headD 0, Args.tail)

/-- The function `SbiVendorCall`; `Args` are the variadic arguments.

Each `case k` passes `k` operands `VA_ARG (Args, UINTN)` to one `sbi_call_k`.  C does not
fix the order in which the operands of a call are evaluated, and gcc evaluates them last
to first: the operand written last performs the first read of `Args`.  `x0 .. x5` are the
reads in the order they are performed; the operand written first, which goes to slot
`a0`, therefore receives the last read `x(k-1)` and the operand written last receives
`x0`. -/
def SbiVendorCall (ExtensionId FunctionId NumArgs : Nat) (Args : VA_LIST) :
    SBI EFI_STATUS := do
  ASSERT .SbiVendorCall_ExtensionId
    (decide (ExtensionId ≥ 0x09000000) && decide (ExtensionId ≤ 0x09FFFFFF))
  let x0 := VA_ARG Args
  let x1 := VA_ARG x0.2
  let x2 := VA_ARG x1.2
  let x3 := VA_ARG x2.2
  let x4 := VA_ARG x3.2
  let x5 := VA_ARG x4.2
  match NumArgs with
  | 0 => do
    let ret ← sbi_call_0 ExtensionId FunctionId
    TranslateError (toUINTN ret.error)
  | 1 => do
    let ret ← sbi_call_1 ExtensionId FunctionId x0.1
    TranslateError (toUINTN ret.error)
  | 2 => do
    let ret ← sbi_call_2 ExtensionId FunctionId x1.1 x0.1
    TranslateError (toUINTN ret.error)
  | 3 => do
    let ret ← sbi_call_3 ExtensionId FunctionId x2.1 x1.1 x0.1
    TranslateError (toUINTN ret.error)
  | 4 => do
    let ret ← sbi_call_4 ExtensionId FunctionId x3.1 x2.1 x1.1 x0.1
    TranslateError (toUINTN ret.error)
  | 5 => do
    let ret ← sbi_call_5 ExtensionId FunctionId x4.1 x3.1 x2.1 x1.1 x0.1
    TranslateError (toUINTN ret.error)
  | 6 => do
    let ret ← sbi_call_6 ExtensionId FunctionId x5.1 x4.1 x3.1 x2.1 x1.1 x0.1
    TranslateError (toUINTN ret.error)
  | _ =>
    -- Too many args.
    pure EFI_INVALID_PARAMETER

/-! ### Firmware extension -/

/-- The address of the field that stands `Offset` bytes behind `Base`. -/
def fieldAddress (Base Offset : Nat) : Nat := (Base + Offset) % 2 ^ XLEN

/-- Modelled from the spec: the macro `sbi_platform_ptr` of `sbi/sbi_platform.h`, the read
`ScratchSpace->platform_addr`: the address of the platform descriptor, loaded from the
scratch space at `ScratchSpace`.  The load faults when the field is not mapped. -/
def sbi_platform_ptr (ScratchSpace : Nat) : SBI Nat := fun w =>
  match w.heap.mem (fieldAddress ScratchSpace SBI_SCRATCH_PLATFORM_ADDR_OFFSET) with
  | some SbiPlatform => .ret SbiPlatform w
  | none => .halt .fault w

/-- The read `SbiPlatform->firmware_context`; it faults when the field is not mapped. -/
def load_firmware_context (SbiPlatform : Nat) : SBI Nat := fun w =>
  match w.heap.mem (fieldAddress SbiPlatform SBI_PLATFORM_FIRMWARE_CONTEXT_OFFSET) with
  | some Context => .ret Context w
  | none => .halt .fault w

/-- The write `SbiPlatform->firmware_context = Value`: one word of memory changes; the
write faults when the field is not mapped. -/
def store_firmware_context (SbiPlatform : Nat) (Value : Nat) : SBI Unit := fun w =>
  match w.heap.mem (fieldAddress SbiPlatform SBI_PLATFORM_FIRMWARE_CONTEXT_OFFSET) with
  | some _ =>
    .ret () { w with heap := ⟨Function.update w.heap.mem
      (fieldAddress SbiPlatform SBI_PLATFORM_FIRMWARE_CONTEXT_OFFSET) (some Value)⟩ }
  | none => .halt .fault w

/-- The function `SbiGetMscratch`; the argument is the old content of `*ScratchSpace`,
the second component of the result its new content. -/
def SbiGetMscratch (ScratchSpace : Nat) : SBI (EFI_STATUS × Nat) := do
  let ret ← sbi_call_0 SBI_FW_EXT SBI_EXT_FW_MSCRATCH_FUNC
  if ret.error = 0 then
    pure (EFI_SUCCESS, toUINTN ret.value)
  else
    pure (EFI_SUCCESS, ScratchSpace)

/-- The function `SbiGetMscratchHartid`. -/
def SbiGetMscratchHartid (HartId : Nat) (ScratchSpace : Nat) : SBI (EFI_STATUS × Nat) := do
  let ret ← sbi_call_1 SBI_FW_EXT SBI_EXT_FW_MSCRATCH_HARTID_FUNC HartId
  if ret.error = 0 then
    pure (EFI_SUCCESS, toUINTN ret.value)
  else
    pure (EFI_SUCCESS, ScratchSpace)

/-- The function `SbiGetFirmwareContext`; the argument is the old content of
`*FirmwareContext`, the second component of the result its new content. -/
def SbiGetFirmwareContext (FirmwareContext : Nat) : SBI (EFI_STATUS × Nat) := do
  let ret ← sbi_call_0 SBI_FW_EXT SBI_EXT_FW_MSCRATCH_FUNC
  if ret.error = 0 then
    let ScratchSpace := toUINTN ret.value
    let SbiPlatform ← sbi_platform_ptr ScratchSpace
    let Context ← load_firmware_context SbiPlatform
    pure (EFI_SUCCESS, Context)
  else
    pure (EFI_SUCCESS, FirmwareContext)

/-- The function `SbiSetFirmwareContext`; `FirmwareContext` is the pointer value. -/
def SbiSetFirmwareContext (FirmwareContext : Nat) : SBI EFI_STATUS := do
  let ret ← sbi_call_0 SBI_FW_EXT SBI_EXT_FW_MSCRATCH_FUNC
  if ret.error = 0 then
    let ScratchSpace := toUINTN ret.value
    let SbiPlatform ← sbi_platform_ptr ScratchSpace
    store_firmware_context SbiPlatform FirmwareContext
    pure EFI_SUCCESS
  else
    pure EFI_SUCCESS

/-! ## `RiscVOpenSbiPpi.c` -/

namespace Ppi

/-- The copy of `TranslateError` in `RiscVOpenSbiPpi.c`: the same `switch`, then the
`ASSERT (FALSE)` of this file and `return EFI_UNSUPPORTED`. -/
def TranslateError (SbiError : Nat) : SBI EFI_STATUS :=
  if SbiError = toUINTN SBI_SUCCESS then pure EFI_SUCCESS
  else if SbiError = toUINTN SBI_ERR_FAILED then pure EFI_DEVICE_ERROR
  else if SbiError = toUINTN SBI_ERR_NOT_SUPPORTED then pure EFI_UNSUPPORTED
  else if SbiError = toUINTN SBI_ERR_INVALID_PARAM then pure EFI_INVALID_PARAMETER
  else if SbiError = toUINTN SBI_ERR_DENIED then pure EFI_ACCESS_DENIED
  else if SbiError = toUINTN SBI_ERR_INVALID_ADDRESS then pure EFI_LOAD_ERROR
  else if SbiError = toUINTN SBI_ERR_ALREADY_AVAILABLE then pure EFI_ALREADY_STARTED
  else do
    -- Reaches here only if SBI has defined a new error type
    ASSERT .PeiTranslateError_FALSE false
    pure EFI_UNSUPPORTED

/-- Modelled from the spec: `sbi_call_new_0`, which no file under `src/` defines, taken to
perform the same transition as `sbi_call_0`. -/
def sbi_call_new_0 (ext_id func_id : Nat) : SBI sbiret :=
  sbi_call_0 ext_id func_id
/-- Modelled from the spec: `sbi_call_new_1`, taken to perform the transition of `sbi_call_1`. -/
def sbi_call_new_1 (ext_id func_id arg0 : Nat) : SBI sbiret :=
  sbi_call_1 ext_id func_id arg0
/-- Modelled from the spec: `sbi_call_new_2`, taken to perform the transition of `sbi_call_2`. -/
def sbi_call_new_2 (ext_id func_id arg0 arg1 : Nat) : SBI sbiret :=
  sbi_call_2 ext_id func_id arg0 arg1
/-- Modelled from the spec: `sbi_call_new_3`, taken to perform the transition of `sbi_call_3`. -/
def sbi_call_new_3 (ext_id func_id arg0 arg1 arg2 : Nat) : SBI sbiret :=
  sbi_call_3 ext_id func_id arg0 arg1 arg2
/-- Modelled from the spec: `sbi_call_new_4`, taken to perform the transition of `sbi_call_4`. -/
def sbi_call_new_4 (ext_id func_id arg0 arg1 arg2 arg3 : Nat) : SBI sbiret :=
  sbi_call_4 ext_id func_id arg0 arg1 arg2 arg3
/-- Modelled from the spec: `sbi_call_new_5`, taken to perform the transition of `sbi_call_5`. -/
def sbi_call_new_5 (ext_id func_id arg0 arg1 arg2 arg3 arg4 : Nat) : SBI sbiret :=
  sbi_call_5 ext_id func_id arg0 arg1 arg2 arg3 arg4
/-- Modelled from the spec: `sbi_call_new_6`, taken to perform the transition of `sbi_call_6`. -/
def sbi_call_new_6 (ext_id func_id arg0 arg1 arg2 arg3 arg4 arg5 : Nat) : SBI sbiret :=
  sbi_call_6 ext_id func_id arg0 arg1 arg2 arg3 arg4 arg5

/-- The function `PeiOpenSbiGetSpecVersion`; `PeiServices` and `This` are pointer values. -/
def PeiOpenSbiGetSpecVersion (_PeiServices _This : Nat) (SpecVersion : Nat) : SBI Nat := do
  let ret ← sbi_call_new_0 SBI_BASE_EXT SBI_GET_SPEC_VERSION_FUNC
  if ret.error = 0 then
    pure (toUINTN ret.value)
  else
    pure SpecVersion

/-- The function `PeiOpenSbiGetImplId`. -/
def PeiOpenSbiGetImplId (_PeiServices _This : Nat) (_ImplId : Nat) : SBI Nat := do
  let ret ← sbi_call_new_0 SBI_BASE_EXT SBI_GET_IMPL_ID_FUNC
  pure (toUINTN ret.value)

/-- The function `PeiOpenSbiGetImplVersion`. -/
def PeiOpenSbiGetImplVersion (_PeiServices _This : Nat) (_ImplVersion : Nat) : SBI Nat := do
  let ret ← sbi_call_new_0 SBI_BASE_EXT SBI_GET_IMPL_VERSION_FUNC
  pure (toUINTN ret.value)

/-- The function `PeiOpenSbiProbeExtension`; it calls `sbi_call_new_0`, the parameter
`ExtensionId` is not used. -/
def PeiOpenSbiProbeExtension (_PeiServices _This : Nat) (_ExtensionId : Int)
    (_ProbeResult : Int) : SBI Int := do
  let ret ← sbi_call_new_0 SBI_BASE_EXT SBI_PROBE_EXTENSION_FUNC
  pure (toLong (toUINTN ret.value))

/-- The function `PeiOpenSbiGetMvendorId`. -/
def PeiOpenSbiGetMvendorId (_PeiServices _This : Nat) (_MvendorId : Nat) : SBI Nat := do
  let ret ← sbi_call_new_0 SBI_BASE_EXT SBI_GET_MVENDORID_FUNC
  pure (toUINTN ret.value)

/-- The function `PeiOpenSbiGetMarchId`. -/
def PeiOpenSbiGetMarchId (_PeiServices _This : Nat) (_MarchId : Nat) : SBI Nat := do
  let ret ← sbi_call_new_0 SBI_BASE_EXT SBI_GET_MARCHID_FUNC
  pure (toUINTN ret.value)

/-- The function `PeiOpenSbiGetMimpId`. -/
def PeiOpenSbiGetMimpId (_PeiServices _This : Nat) (_MimpId : Nat) : SBI Nat := do
  let ret ← sbi_call_new_0 SBI_BASE_EXT SBI_GET_MIMPID_FUNC
  pure (toUINTN ret.value)

/-- The function `PeiOpenSbiLegacySetTimer`: its body is the comment `// TODO` followed by
the commented-out call `// sbi_call_new_1(SBI_SET_TIMER_EXT, 0, StimeValue);`. -/
def PeiOpenSbiLegacySetTimer (_PeiServices _This : Nat) (_StimeValue : Nat) : SBI Unit :=
  pure ()

/-- The function `PeiOpenSbiHartStart`. -/
def PeiOpenSbiHartStart (_PeiServices _This : Nat) (HartId StartAddr Priv : Nat) :
    SBI EFI_STATUS := do
  let ret ← sbi_call_new_3 SBI_HSM_EXT SBI_HART_START_FUNC HartId StartAddr Priv
  TranslateError (toUINTN ret.error)

/-- The function `PeiOpenSbiHartStop`. -/
def PeiOpenSbiHartStop (_PeiServices _This : Nat) : SBI EFI_STATUS := do
  let ret ← sbi_call_new_0 SBI_HSM_EXT SBI_HART_STOP_FUNC
  TranslateError (toUINTN ret.error)

/-- The function `PeiOpenSbiHartGetStatus`. -/
def PeiOpenSbiHartGetStatus (_PeiServices _This : Nat) (HartId : Nat) (HartStatus : Nat) :
    SBI (EFI_STATUS × Nat) := do
  let ret ← sbi_call_new_1 SBI_HSM_EXT SBI_HART_GET_STATUS_FUNC HartId
  let HartStatus := if ret.error = 0 then toUINTN ret.value else HartStatus
  let Status ← TranslateError (toUINTN ret.error)
  pure (Status, HartStatus)

/-- The function `PeiOpenSbiSetTimer`. -/
def PeiOpenSbiSetTimer (_PeiServices _This : Nat) (StimeValue : Nat) : SBI Unit := do
  let _ ← sbi_call_new_1 SBI_TIME_EXT 0 StimeValue
  pure ()

/-- The function `PeiOpenSbiSendIpi`. -/
def PeiOpenSbiSendIpi (_PeiServices _This : Nat) (HartMask HartMaskBase : Nat) :
    SBI EFI_STATUS := do
  let ret ← sbi_call_new_2 SBI_IPI_EXT 0 HartMask HartMaskBase
  TranslateError (toUINTN ret.error)

/-- The function `PeiOpenSbiRemoteFenceI`. -/
def PeiOpenSbiRemoteFenceI (_PeiServices _This : Nat) (HartMask HartMaskBase : Nat) :
    SBI EFI_STATUS := do
  let ret ← sbi_call_new_2 SBI_RFNC_EXT 0 HartMask HartMaskBase
  TranslateError (toUINTN ret.error)

/-- The function `PeiOpenSbiRemoteSfenceVma`. -/
def PeiOpenSbiRemoteSfenceVma (_PeiServices _This : Nat)
    (HartMask HartMaskBase StartAddr Size : Nat) : SBI EFI_STATUS := do
  let ret ← sbi_call_new_4 SBI_RFNC_EXT 1 HartMask HartMaskBase StartAddr Size
  TranslateError (toUINTN ret.error)

/-- The function `PeiOpenSbiRemoteSfenceVmaAsid`. -/
def PeiOpenSbiRemoteSfenceVmaAsid (_PeiServices _This : Nat)
    (HartMask HartMaskBase StartAddr Size Asid : Nat) : SBI EFI_STATUS := do
  let ret ← sbi_call_new_5 SBI_RFNC_EXT 2 HartMask HartMaskBase StartAddr Size Asid
  TranslateError (toUINTN ret.error)

/-- The function `PeiOpenSbiRemoteHFenceGvmaVmid`. -/
def PeiOpenSbiRemoteHFenceGvmaVmid (_PeiServices _This : Nat)
    (HartMask HartMaskBase StartAddr Size Vmid : Nat) : SBI EFI_STATUS := do
  let ret ← sbi_call_new_5 SBI_RFNC_EXT 3 HartMask HartMaskBase StartAddr Size Vmid
  TranslateError (toUINTN ret.error)

/-- The function `PeiOpenSbiRemoteHFenceGvma`. -/
def PeiOpenSbiRemoteHFenceGvma (_PeiServices _This : Nat)
    (HartMask HartMaskBase StartAddr Size : Nat) : SBI EFI_STATUS := do
  let ret ← sbi_call_new_4 SBI_RFNC_EXT 4 HartMask HartMaskBase StartAddr Size
  TranslateError (toUINTN ret.error)

/-- The function `PeiOpenSbiRemoteHFenceVvmaAsid`. -/
def PeiOpenSbiRemoteHFenceVvmaAsid (_PeiServices _This : Nat)
    (HartMask HartMaskBase StartAddr Size Asid : Nat) : SBI EFI_STATUS := do
  let ret ← sbi_call_new_5 SBI_RFNC_EXT 5 HartMask HartMaskBase StartAddr Size Asid
  TranslateError (toUINTN ret.error)

/-- The function `PeiOpenSbiRemoteHFenceVvma`. -/
def PeiOpenSbiRemoteHFenceVvma (_PeiServices _This : Nat)
    (HartMask HartMaskBase StartAddr Size : Nat) : SBI EFI_STATUS := do
  let ret ← sbi_call_new_4 SBI_RFNC_EXT 6 HartMask HartMaskBase StartAddr Size
  TranslateError (toUINTN ret.error)

/-- The function `PeiOpenSbiVendorCall`; `Args` are the variadic arguments, and
`x0 .. x5` the reads of `Args` in the order they are performed, the operand written last
first, as in `SbiVendorCall`. -/
def PeiOpenSbiVendorCall (_PeiServices _This : Nat) (ExtensionId FunctionId NumArgs : Nat)
    (Args : VA_LIST) : SBI EFI_STATUS := do
  ASSERT .PeiOpenSbiVendorCall_ExtensionId
    (decide (ExtensionId ≥ 0x09000000) && decide (ExtensionId ≤ 0x09FFFFFF))
  let x0 := VA_ARG Args
  let x1 := VA_ARG x0.2
  let x2 := VA_ARG x1.2
  let x3 := VA_ARG x2.2
  let x4 := VA_ARG x3.2
  let x5 := VA_ARG x4.2
  match NumArgs with
  | 0 => do
    let ret ← sbi_call_new_0 ExtensionId FunctionId
    TranslateError (toUINTN ret.error)
  | 1 => do
    let ret ← sbi_call_new_1 ExtensionId FunctionId x0.1
    TranslateError (toUINTN ret.error)
  | 2 => do
    let ret ← sbi_call_new_2 ExtensionId FunctionId x1.1 x0.1
    TranslateError (toUINTN ret.error)
  | 3 => do
    let ret ← sbi_call_new_3 ExtensionId FunctionId x2.1 x1.1 x0.1
    TranslateError (toUINTN ret.error)
  | 4 => do
    let ret ← sbi_call_new_4 ExtensionId FunctionId x3.1 x2.1 x1.1 x0.1
    TranslateError (toUINTN ret.error)
  | 5 => do
    let ret ← sbi_call_new_5 ExtensionId FunctionId x4.1 x3.1 x2.1 x1.1 x0.1
    TranslateError (toUINTN ret.error)
  | 6 => do
    let ret ← sbi_call_new_6 ExtensionId FunctionId x5.1 x4.1 x3.1 x2.1 x1.1 x0.1
    TranslateError (toUINTN ret.error)
  | _ =>
    -- Too many args.
    pure EFI_INVALID_PARAMETER

/-- The function `PeiOpenSbiGetMscratch`; the function id is the literal `0x0`. -/
def PeiOpenSbiGetMscratch (_PeiServices _This : Nat) (ScratchSpace : Nat) :
    SBI (EFI_STATUS × Nat) := do
  let ret ← sbi_call_new_0 SBI_FW_EXT 0x0
  if ret.error = 0 then
    pure (EFI_SUCCESS, toUINTN ret.value)
  else
    pure (EFI_SUCCESS, ScratchSpace)

/-- The function `PeiOpenSbiGetMscratchHartid`; the function id is the literal `0x1`. -/
def PeiOpenSbiGetMscratchHartid (_PeiServices _This : Nat) (HartId : Nat) (ScratchSpace : Nat) :
    SBI (EFI_STATUS × Nat) := do
  let ret ← sbi_call_new_1 SBI_FW_EXT 0x1 HartId
  if ret.error = 0 then
    pure (EFI_SUCCESS, toUINTN ret.value)
  else
    pure (EFI_SUCCESS, ScratchSpace)

end Ppi

/-! ## Definitions used to state the properties -/

/-- The seven codes `TranslateError` has a case label for. -/
def KnownSbiErrors : List Int :=
  [SBI_SUCCESS, SBI_ERR_FAILED, SBI_ERR_NOT_SUPPORTED, SBI_ERR_INVALID_PARAM, SBI_ERR_DENIED,
    SBI_ERR_INVALID_ADDRESS, SBI_ERR_ALREADY_AVAILABLE]

/-- A wrapper body of the shape `ret = sbi_call (t); return TranslateError (ret.error);`,
written out on the answer of the lower layer: the value word of the answer is not used. -/
def callThenTranslate (t : Transition) : SBI EFI_STATUS := fun w =>
  match w.answer t with
  | some r => TranslateError (toUINTN (toLong r.1)) (w.after t)
  | none => .halt .noReturn (w.after t)

/-- The registers `SbiVendorCall` commits for `NumArgs ≤ 6`: the first `NumArgs` variadic
arguments in the slots `0 .. NumArgs - 1` in reversed order (slot `i` holds variadic
argument `NumArgs - 1 - i`), zero in the remaining slots. -/
def VendorTransition (ExtensionId FunctionId NumArgs : Nat) (Args : VA_LIST) : Transition :=
  let slot (i : Nat) : Nat := if i < NumArgs then Args.getD (NumArgs - 1 - i) 0 else 0
  ⟨slot 0, slot 1, slot 2, slot 3, slot 4, slot 5, FunctionId, ExtensionId⟩

/-- A lower layer that answers every transition with the same two registers. -/
def constantFirmware (a0 a1 : Nat) : List Transition → Heap → Transition → Option (Nat × Nat) :=
  fun _ _ _ => some (a0, a1)

/-- A memory in which every address is mapped and holds the word zero. -/
def zeroHeap : Heap := ⟨fun _ => some 0⟩

/-- A world before any transition: the lower layer answers `(a0, a1)` to everything. -/
def startWorld (a0 a1 : Nat) (AssertAborts : Bool) : World :=
  ⟨constantFirmware a0 a1, AssertAborts, [], zeroHeap, []⟩

/-- A lower layer in which exactly the HSM extension is present: it answers the Base
probe with error `0` and value `1` when slot `a0` holds `SBI_HSM_EXT` and value `0` for any
other probed id, and every other transition with `SBI_ERR_NOT_SUPPORTED`. -/
def hsmOnlyFirmware : List Transition → Heap → Transition → Option (Nat × Nat) :=
  fun _ _ t =>
    if t.a7 = SBI_BASE_EXT ∧ t.a6 = SBI_PROBE_EXTENSION_FUNC then
      some (0, if t.a0 = SBI_HSM_EXT then 1 else 0)
    else some (toUINTN SBI_ERR_NOT_SUPPORTED, 0)

/-- A memory in which nothing is mapped. -/
def emptyHeap : Heap := ⟨fun _ => none⟩

/-- A memory that holds one scratch space at `0x1000`, whose field `platform_addr` points to
the platform descriptor at `0x2000`, whose field `firmware_context` holds `0x11`.  Nothing
else is mapped, in particular nothing at address `0`. -/
def scratchHeap : Heap :=
  ⟨fun a =>
    if a = fieldAddress 0x1000 SBI_SCRATCH_PLATFORM_ADDR_OFFSET then some 0x2000
    else if a = fieldAddress 0x2000 SBI_PLATFORM_FIRMWARE_CONTEXT_OFFSET then some 0x11
    else none⟩

/-- A world before any transition over the memory `Memory`: the lower layer answers
`(a0, a1)` to everything. -/
def worldOver (Memory : Heap) (a0 a1 : Nat) : World :=
  ⟨constantFirmware a0 a1, true, [], Memory, []⟩

/-- The assertion of `RiscVOpenSbiLib.c` that an assertion is, or is the copy of. -/
def AssertSite.inLib : AssertSite → AssertSite
  | .PeiTranslateError_FALSE => .TranslateError_FALSE
  | .PeiOpenSbiVendorCall_ExtensionId => .SbiVendorCall_ExtensionId
  | site => site

/-- Two worlds with the same lower layer, assertion policy, transitions and memory, whose
recorded violations are the same once every assertion of `RiscVOpenSbiPpi.c` is read as
the assertion of `RiscVOpenSbiLib.c` it copies. -/
def World.sameUpToSite (w1 w2 : World) : Prop :=
  w1.ecall = w2.ecall ∧ w1.AssertAborts = w2.AssertAborts ∧ w1.trace = w2.trace ∧
    w1.heap = w2.heap ∧
    w1.violations.map AssertSite.inLib = w2.violations.map AssertSite.inLib

/-- Two runs that return the same value, or halt for the same reason, in worlds that are
the same up to the file an assertion stands in. -/
def Outcome.sameUpToSite {α : Type} : Outcome α → Outcome α → Prop
  | .ret a w1, .ret b w2 => a = b ∧ w1.sameUpToSite w2
  | .halt why1 w1, .halt why2 w2 => why1 = why2 ∧ w1.sameUpToSite w2
  | _, _ => False

/-- The mapping of the error translator as the spec lists it, on the signed code: the status
of each of the seven listed codes, `none` for any other number. -/
def listedStatus (e : Int) : Option EFI_STATUS :=
  if e = SBI_SUCCESS then some EFI_SUCCESS
  else if e = SBI_ERR_FAILED then some EFI_DEVICE_ERROR
  else if e = SBI_ERR_NOT_SUPPORTED then some EFI_UNSUPPORTED
  else if e = SBI_ERR_INVALID_PARAM then some EFI_INVALID_PARAMETER
  else if e = SBI_ERR_DENIED then some EFI_ACCESS_DENIED
  else if e = SBI_ERR_INVALID_ADDRESS then some EFI_LOAD_ERROR
  else if e = SBI_ERR_ALREADY_AVAILABLE then some EFI_ALREADY_STARTED
  else none

/-- The error translator applied to the error as a signed number: the listed status of a
listed code; for any other number the contract-violation point, then `EFI_UNSUPPORTED`. -/
def TranslateSigned (e : Int) : SBI EFI_STATUS :=
  match listedStatus e with
  | some Status => pure Status
  | none => do
    ASSERT .TranslateError_FALSE false
    pure EFI_UNSUPPORTED

/-! ## Basic facts about the embedding -/

theorem pure_run {α : Type} (a : α) (w : World) : (pure a : SBI α) w = .ret a w := rfl

theorem bind_run {α β : Type} (m : SBI α) (f : α → SBI β) (w : World) :
    (m >>= f) w = match m w with
      | .ret a w1 => f a w1
      | .halt why w1 => .halt why w1 := rfl

theorem toUINTN_toLong (x : Nat) : toUINTN (toLong x) = x % 2 ^ XLEN := by
  unfold toUINTN toLong XLEN
  norm_num
  split <;> omega

theorem sbi_call_run (ext_id func_id arg0 arg1 arg2 arg3 arg4 arg5 : Nat) (w : World) :
    sbi_call ext_id func_id arg0 arg1 arg2 arg3 arg4 arg5 w =
      match w.answer ⟨arg0, arg1, arg2, arg3, arg4, arg5, func_id, ext_id⟩ with
      | some r => .ret ⟨toLong r.1, toLong arg1⟩
          (w.after ⟨arg0, arg1, arg2, arg3, arg4, arg5, func_id, ext_id⟩)
      | none => .halt .noReturn (w.after ⟨arg0, arg1, arg2, arg3, arg4, arg5, func_id, ext_id⟩) := by
  unfold sbi_call
  dsimp only
  rcases w.answer ⟨arg0, arg1, arg2, arg3, arg4, arg5, func_id, ext_id⟩ with _ | ⟨a0, a1⟩ <;> rfl

theorem sbi_call_translate (ext_id func_id arg0 arg1 arg2 arg3 arg4 arg5 : Nat) :
    (sbi_call ext_id func_id arg0 arg1 arg2 arg3 arg4 arg5 >>= fun ret =>
      TranslateError (toUINTN ret.error)) =
      callThenTranslate ⟨arg0, arg1, arg2, arg3, arg4, arg5, func_id, ext_id⟩ := by
  funext w
  rw [bind_run, sbi_call_run]
  unfold callThenTranslate
  rcases w.answer ⟨arg0, arg1, arg2, arg3, arg4, arg5, func_id, ext_id⟩ with _ | ⟨a0, a1⟩ <;> rfl

/-! ### `TranslateError` -/

theorem TranslateError_known_run (w : World) :
    TranslateError (toUINTN SBI_SUCCESS) w = .ret EFI_SUCCESS w ∧
    TranslateError (toUINTN SBI_ERR_FAILED) w = .ret EFI_DEVICE_ERROR w ∧
    TranslateError (toUINTN SBI_ERR_NOT_SUPPORTED) w = .ret EFI_UNSUPPORTED w ∧
    TranslateError (toUINTN SBI_ERR_INVALID_PARAM) w = .ret EFI_INVALID_PARAMETER w ∧
    TranslateError (toUINTN SBI_ERR_DENIED) w = .ret EFI_ACCESS_DENIED w ∧
    TranslateError (toUINTN SBI_ERR_INVALID_ADDRESS) w = .ret EFI_LOAD_ERROR w ∧
    TranslateError (toUINTN SBI_ERR_ALREADY_AVAILABLE) w = .ret EFI_ALREADY_STARTED w :=
  ⟨rfl, rfl, rfl, rfl, rfl, rfl, rfl⟩

theorem TranslateError_unknown_run (SbiError : Nat) (w : World)
    (h : ∀ k ∈ KnownSbiErrors, SbiError ≠ toUINTN k) :
    TranslateError SbiError w =
      if w.AssertAborts then .halt .assertFailed (w.violated .TranslateError_FALSE)
      else .ret EFI_UNSUPPORTED (w.violated .TranslateError_FALSE) := by
  simp only [KnownSbiErrors, List.forall_mem_cons, List.not_mem_nil, false_imp_iff,
    implies_true, and_true] at h
  obtain ⟨h0, h1, h2, h3, h4, h5, h6⟩ := h
  simp only [TranslateError, if_neg h0, if_neg h1, if_neg h2, if_neg h3, if_neg h4, if_neg h5,
    if_neg h6]
  rw [bind_run]
  unfold ASSERT
  cases w.AssertAborts <;> rfl

theorem TranslateError_known_of_mem (SbiError : Nat) (w : World)
    (h : ∃ k ∈ KnownSbiErrors, SbiError = toUINTN k) :
    ∃ Status, TranslateError SbiError w = .ret Status w := by
  obtain ⟨k, hk, rfl⟩ := h
  simp only [KnownSbiErrors, List.mem_cons, List.mem_singleton, List.not_mem_nil,
    or_false] at hk
  rcases hk with rfl | rfl | rfl | rfl | rfl | rfl | rfl
  · exact ⟨_, (TranslateError_known_run w).1⟩
  · exact ⟨_, (TranslateError_known_run w).2.1⟩
  · exact ⟨_, (TranslateError_known_run w).2.2.1⟩
  · exact ⟨_, (TranslateError_known_run w).2.2.2.1⟩
  · exact ⟨_, (TranslateError_known_run w).2.2.2.2.1⟩
  · exact ⟨_, (TranslateError_known_run w).2.2.2.2.2.1⟩
  · exact ⟨_, (TranslateError_known_run w).2.2.2.2.2.2⟩

/-- Every run of `TranslateError` ends in the world it started in, or in that world with
one more recorded violation of its own `ASSERT`. -/
theorem TranslateError_world (SbiError : Nat) (w : World) :
    (TranslateError SbiError w).world = w ∨
      (TranslateError SbiError w).world = w.violated .TranslateError_FALSE := by
  by_cases h : ∃ k ∈ KnownSbiErrors, SbiError = toUINTN k
  · obtain ⟨s, hs⟩ := TranslateError_known_of_mem SbiError w h
    left; rw [hs]; rfl
  · right
    rw [TranslateError_unknown_run SbiError w (by
      intro k hk hc; exact h ⟨k, hk, hc⟩)]
    cases w.AssertAborts <;> rfl

theorem TranslateError_trace (SbiError : Nat) (w : World) :
    (TranslateError SbiError w).world.trace = w.trace := by
  rcases TranslateError_world SbiError w with h | h <;> simp only [h, World.violated]

theorem TranslateError_heap (SbiError : Nat) (w : World) :
    (TranslateError SbiError w).world.heap = w.heap := by
  rcases TranslateError_world SbiError w with h | h <;> simp only [h, World.violated]

/-! ### Runs of the form call, then translate -/

theorem callThenTranslate_of_answer (t : Transition) (w : World) (e v : Nat)
    (h : w.answer t = some (e, v)) :
    callThenTranslate t w = TranslateError (toUINTN (toLong e)) (w.after t) := by
  unfold callThenTranslate
  rw [h]

theorem callThenTranslate_of_noReturn (t : Transition) (w : World) (h : w.answer t = none) :
    callThenTranslate t w = .halt .noReturn (w.after t) := by
  unfold callThenTranslate
  rw [h]

theorem callThenTranslate_trace (t : Transition) (w : World) :
    (callThenTranslate t w).world.trace = w.trace ++ [t] := by
  unfold callThenTranslate
  rcases w.answer t with _ | r
  · rfl
  · exact TranslateError_trace _ _

theorem map_bind_pure {α β γ : Type} (m : SBI α) (g : α → β) (f : β → γ) (w : World) :
    ((m >>= fun a => pure (g a)) w).map f = (m w).map (fun a => f (g a)) := by
  rw [bind_run]
  cases m w <;> rfl

theorem map_id_run {α : Type} (o : Outcome α) : o.map (fun a => a) = o := by
  cases o <;> rfl

theorem SbiHartStart_eq (HartId StartAddr Priv : Nat) :
    SbiHartStart HartId StartAddr Priv =
      callThenTranslate ⟨HartId, StartAddr, Priv, 0, 0, 0, SBI_HART_START_FUNC, SBI_HSM_EXT⟩ :=
  sbi_call_translate _ _ _ _ _ _ _ _

theorem SbiHartStop_eq :
    SbiHartStop = callThenTranslate ⟨0, 0, 0, 0, 0, 0, SBI_HART_STOP_FUNC, SBI_HSM_EXT⟩ :=
  sbi_call_translate _ _ _ _ _ _ _ _

theorem SbiHartGetStatus_status (HartId HartStatus : Nat) (w : World) :
    (SbiHartGetStatus HartId HartStatus w).map Prod.fst =
      callThenTranslate ⟨HartId, 0, 0, 0, 0, 0, SBI_HART_GET_STATUS_FUNC, SBI_HSM_EXT⟩ w := by
  unfold SbiHartGetStatus sbi_call_1 callThenTranslate
  rw [bind_run, sbi_call_run]
  rcases w.answer ⟨HartId, 0, 0, 0, 0, 0, SBI_HART_GET_STATUS_FUNC, SBI_HSM_EXT⟩ with _ | r
  · rfl
  · dsimp only
    rw [map_bind_pure]
    exact map_id_run _

theorem SbiSendIpi_eq (HartMask HartMaskBase : Nat) :
    SbiSendIpi HartMask HartMaskBase =
      callThenTranslate ⟨HartMask, HartMaskBase, 0, 0, 0, 0, 0, SBI_IPI_EXT⟩ :=
  sbi_call_translate _ _ _ _ _ _ _ _

theorem SbiRemoteFenceI_eq (HartMask HartMaskBase : Nat) :
    SbiRemoteFenceI HartMask HartMaskBase =
      callThenTranslate ⟨HartMask, HartMaskBase, 0, 0, 0, 0, 0, SBI_RFNC_EXT⟩ :=
  sbi_call_translate _ _ _ _ _ _ _ _

theorem SbiRemoteSfenceVma_eq (HartMask HartMaskBase StartAddr Size : Nat) :
    SbiRemoteSfenceVma HartMask HartMaskBase StartAddr Size =
      callThenTranslate ⟨HartMask, HartMaskBase, StartAddr, Size, 0, 0, 1, SBI_RFNC_EXT⟩ :=
  sbi_call_translate _ _ _ _ _ _ _ _

theorem SbiRemoteSfenceVmaAsid_eq (HartMask HartMaskBase StartAddr Size Asid : Nat) :
    SbiRemoteSfenceVmaAsid HartMask HartMaskBase StartAddr Size Asid =
      callThenTranslate ⟨HartMask, HartMaskBase, StartAddr, Size, Asid, 0, 2, SBI_RFNC_EXT⟩ :=
  sbi_call_translate _ _ _ _ _ _ _ _

theorem SbiRemoteHFenceGvmaVmid_eq (HartMask HartMaskBase StartAddr Size Vmid : Nat) :
    SbiRemoteHFenceGvmaVmid HartMask HartMaskBase StartAddr Size Vmid =
      callThenTranslate ⟨HartMask, HartMaskBase, StartAddr, Size, Vmid, 0, 3, SBI_RFNC_EXT⟩ :=
  sbi_call_translate _ _ _ _ _ _ _ _

theorem SbiRemoteHFenceGvma_eq (HartMask HartMaskBase StartAddr Size : Nat) :
    SbiRemoteHFenceGvma HartMask HartMaskBase StartAddr Size =
      callThenTranslate ⟨HartMask, HartMaskBase, StartAddr, Size, 0, 0, 4, SBI_RFNC_EXT⟩ :=
  sbi_call_translate _ _ _ _ _ _ _ _

theorem SbiRemoteHFenceVvmaAsid_eq (HartMask HartMaskBase StartAddr Size Asid : Nat) :
    SbiRemoteHFenceVvmaAsid HartMask HartMaskBase StartAddr Size Asid =
      callThenTranslate ⟨HartMask, HartMaskBase, StartAddr, Size, Asid, 0, 5, SBI_RFNC_EXT⟩ :=
  sbi_call_translate _ _ _ _ _ _ _ _

theorem SbiRemoteHFenceVvma_eq (HartMask HartMaskBase StartAddr Size : Nat) :
    SbiRemoteHFenceVvma HartMask HartMaskBase StartAddr Size =
      callThenTranslate ⟨HartMask, HartMaskBase, StartAddr, Size, 0, 0, 6, SBI_RFNC_EXT⟩ :=
  sbi_call_translate _ _ _ _ _ _ _ _

theorem VendorTransition_VA_ARG (ExtensionId FunctionId : Nat) (Args : VA_LIST) :
    VendorTransition ExtensionId FunctionId 0 Args = ⟨0, 0, 0, 0, 0, 0, FunctionId, ExtensionId⟩ ∧
    VendorTransition ExtensionId FunctionId 1 Args =
      ⟨(VA_ARG Args).1, 0, 0, 0, 0, 0, FunctionId, ExtensionId⟩ ∧
    VendorTransition ExtensionId FunctionId 2 Args =
      ⟨(VA_ARG (VA_ARG Args).2).1, (VA_ARG Args).1, 0, 0, 0, 0, FunctionId, ExtensionId⟩ ∧
    VendorTransition ExtensionId FunctionId 3 Args =
      ⟨(VA_ARG (VA_ARG (VA_ARG Args).2).2).1, (VA_ARG (VA_ARG Args).2).1, (VA_ARG Args).1,
        0, 0, 0, FunctionId, ExtensionId⟩ ∧
    VendorTransition ExtensionId FunctionId 4 Args =
      ⟨(VA_ARG (VA_ARG (VA_ARG (VA_ARG Args).2).2).2).1, (VA_ARG (VA_ARG (VA_ARG Args).2).2).1,
        (VA_ARG (VA_ARG Args).2).1, (VA_ARG Args).1, 0, 0, FunctionId, ExtensionId⟩ ∧
    VendorTransition ExtensionId FunctionId 5 Args =
      ⟨(VA_ARG (VA_ARG (VA_ARG (VA_ARG (VA_ARG Args).2).2).2).2).1,
        (VA_ARG (VA_ARG (VA_ARG (VA_ARG Args).2).2).2).1, (VA_ARG (VA_ARG (VA_ARG Args).2).2).1,
        (VA_ARG (VA_ARG Args).2).1, (VA_ARG Args).1, 0, FunctionId, ExtensionId⟩ ∧
    VendorTransition ExtensionId FunctionId 6 Args =
      ⟨(VA_ARG (VA_ARG (VA_ARG (VA_ARG (VA_ARG (VA_ARG Args).2).2).2).2).2).1,
        (VA_ARG (VA_ARG (VA_ARG (VA_ARG (VA_ARG Args).2).2).2).2).1,
        (VA_ARG (VA_ARG (VA_ARG (VA_ARG Args).2).2).2).1, (VA_ARG (VA_ARG (VA_ARG Args).2).2).1,
        (VA_ARG (VA_ARG Args).2).1, (VA_ARG Args).1, FunctionId, ExtensionId⟩ := by
  rcases Args with _ | ⟨a, _ | ⟨b, _ | ⟨c, _ | ⟨d, _ | ⟨e, _ | ⟨f, r⟩⟩⟩⟩⟩⟩ <;>
    exact ⟨rfl, rfl, rfl, rfl, rfl, rfl, rfl⟩

theorem SbiVendorCall_run (ExtensionId FunctionId NumArgs : Nat) (Args : VA_LIST) (w : World) :
    SbiVendorCall ExtensionId FunctionId NumArgs Args w =
      match ASSERT .SbiVendorCall_ExtensionId
          (decide (ExtensionId ≥ 0x09000000) && decide (ExtensionId ≤ 0x09FFFFFF)) w with
      | .ret _ w1 =>
        if NumArgs ≤ 6 then
          callThenTranslate (VendorTransition ExtensionId FunctionId NumArgs Args) w1
        else .ret EFI_INVALID_PARAMETER w1
      | .halt why w1 => .halt why w1 := by
  have hT := VendorTransition_VA_ARG ExtensionId FunctionId Args
  obtain ⟨h0, h1, h2, h3, h4, h5, h6⟩ := hT
  simp only [SbiVendorCall, sbi_call_0, sbi_call_1, sbi_call_2, sbi_call_3, sbi_call_4,
    sbi_call_5, sbi_call_6, sbi_call_translate]
  rw [bind_run]
  cases ASSERT .SbiVendorCall_ExtensionId
      (decide (ExtensionId ≥ 0x09000000) && decide (ExtensionId ≤ 0x09FFFFFF)) w with
  | halt why w1 => rfl
  | ret u w1 =>
    dsimp only
    rcases NumArgs with _ | _ | _ | _ | _ | _ | _ | n
    · rw [h0]; rfl
    · rw [h1]; rfl
    · rw [h2]; rfl
    · rw [h3]; rfl
    · rw [h4]; rfl
    · rw [h5]; rfl
    · rw [h6]; rfl
    · rw [if_neg (by omega)]; rfl

theorem ASSERT_true (site : AssertSite) (w : World) : ASSERT site true w = .ret () w := rfl

theorem SbiVendorCall_in_range (ExtensionId FunctionId NumArgs : Nat) (Args : VA_LIST)
    (w : World) (hlo : 0x09000000 ≤ ExtensionId) (hhi : ExtensionId ≤ 0x09FFFFFF) :
    SbiVendorCall ExtensionId FunctionId NumArgs Args w =
      if NumArgs ≤ 6 then
        callThenTranslate (VendorTransition ExtensionId FunctionId NumArgs Args) w
      else .ret EFI_INVALID_PARAMETER w := by
  rw [SbiVendorCall_run]
  have hc : (decide (ExtensionId ≥ 0x09000000) && decide (ExtensionId ≤ 0x09FFFFFF)) = true := by
    simp only [ge_iff_le, Bool.and_eq_true, decide_eq_true_eq]
    exact ⟨hlo, hhi⟩
  rw [hc, ASSERT_true]

theorem SbiVendorCall_out_of_range (ExtensionId FunctionId NumArgs : Nat) (Args : VA_LIST)
    (w : World) (h : ¬ (0x09000000 ≤ ExtensionId ∧ ExtensionId ≤ 0x09FFFFFF)) :
    SbiVendorCall ExtensionId FunctionId NumArgs Args w =
      if w.AssertAborts then .halt .assertFailed (w.violated .SbiVendorCall_ExtensionId)
      else if NumArgs ≤ 6 then
        callThenTranslate (VendorTransition ExtensionId FunctionId NumArgs Args)
          (w.violated .SbiVendorCall_ExtensionId)
      else .ret EFI_INVALID_PARAMETER (w.violated .SbiVendorCall_ExtensionId) := by
  rw [SbiVendorCall_run]
  have hc : (decide (ExtensionId ≥ 0x09000000) && decide (ExtensionId ≤ 0x09FFFFFF)) = false := by
    rw [Bool.eq_false_iff]
    simp only [ge_iff_le, ne_eq, Bool.and_eq_true, decide_eq_true_eq]
    exact h
  rw [hc]
  unfold ASSERT
  cases w.AssertAborts <;> rfl

theorem world_map {α β : Type} (f : α → β) (o : Outcome α) : (o.map f).world = o.world := by
  cases o <;> rfl

theorem sbi_call_bind_trace {β : Type} (ext_id func_id arg0 arg1 arg2 arg3 arg4 arg5 : Nat)
    (f : sbiret → SBI β) (w : World) (hf : ∀ r w1, (f r w1).world.trace = w1.trace) :
    ((sbi_call ext_id func_id arg0 arg1 arg2 arg3 arg4 arg5 >>= f) w).world.trace =
      w.trace ++ [⟨arg0, arg1, arg2, arg3, arg4, arg5, func_id, ext_id⟩] := by
  rw [bind_run, sbi_call_run]
  rcases w.answer ⟨arg0, arg1, arg2, arg3, arg4, arg5, func_id, ext_id⟩ with _ | r
  · rfl
  · dsimp only
    rw [hf]
    rfl

theorem SbiGetSpecVersion_trace (SpecVersion : Nat) (w : World) :
    (SbiGetSpecVersion SpecVersion w).world.trace =
      w.trace ++ [⟨0, 0, 0, 0, 0, 0, SBI_GET_SPEC_VERSION_FUNC, SBI_BASE_EXT⟩] := by
  unfold SbiGetSpecVersion sbi_call_0
  apply sbi_call_bind_trace
  intro r w1
  split <;> rfl

theorem SbiGetImplId_trace (ImplId : Nat) (w : World) :
    (SbiGetImplId ImplId w).world.trace =
      w.trace ++ [⟨0, 0, 0, 0, 0, 0, SBI_GET_IMPL_ID_FUNC, SBI_BASE_EXT⟩] :=
  sbi_call_bind_trace _ _ _ _ _ _ _ _ _ w (fun _ _ => rfl)

theorem SbiGetImplVersion_trace (ImplVersion : Nat) (w : World) :
    (SbiGetImplVersion ImplVersion w).world.trace =
      w.trace ++ [⟨0, 0, 0, 0, 0, 0, SBI_GET_IMPL_VERSION_FUNC, SBI_BASE_EXT⟩] :=
  sbi_call_bind_trace _ _ _ _ _ _ _ _ _ w (fun _ _ => rfl)

theorem SbiProbeExtension_trace (ExtensionId ProbeResult : Int) (w : World) :
    (SbiProbeExtension ExtensionId ProbeResult w).world.trace =
      w.trace ++ [⟨0, 0, 0, 0, 0, 0, SBI_PROBE_EXTENSION_FUNC, SBI_BASE_EXT⟩] :=
  sbi_call_bind_trace _ _ _ _ _ _ _ _ _ w (fun _ _ => rfl)

theorem SbiGetMvendorId_trace (MvendorId : Nat) (w : World) :
    (SbiGetMvendorId MvendorId w).world.trace =
      w.trace ++ [⟨0, 0, 0, 0, 0, 0, SBI_GET_MVENDORID_FUNC, SBI_BASE_EXT⟩] :=
  sbi_call_bind_trace _ _ _ _ _ _ _ _ _ w (fun _ _ => rfl)

theorem SbiGetMarchId_trace (MarchId : Nat) (w : World) :
    (SbiGetMarchId MarchId w).world.trace =
      w.trace ++ [⟨0, 0, 0, 0, 0, 0, SBI_GET_MARCHID_FUNC, SBI_BASE_EXT⟩] :=
  sbi_call_bind_trace _ _ _ _ _ _ _ _ _ w (fun _ _ => rfl)

theorem SbiGetMimpId_trace (MimpId : Nat) (w : World) :
    (SbiGetMimpId MimpId w).world.trace =
      w.trace ++ [⟨0, 0, 0, 0, 0, 0, SBI_GET_MIMPID_FUNC, SBI_BASE_EXT⟩] :=
  sbi_call_bind_trace _ _ _ _ _ _ _ _ _ w (fun _ _ => rfl)

theorem SbiSetTimer_trace (StimeValue : Nat) (w : World) :
    (SbiSetTimer StimeValue w).world.trace =
      w.trace ++ [⟨StimeValue, 0, 0, 0, 0, 0, 0, SBI_TIME_EXT⟩] :=
  sbi_call_bind_trace _ _ _ _ _ _ _ _ _ w (fun _ _ => rfl)

theorem SbiHartGetStatus_trace (HartId HartStatus : Nat) (w : World) :
    (SbiHartGetStatus HartId HartStatus w).world.trace =
      w.trace ++ [⟨HartId, 0, 0, 0, 0, 0, SBI_HART_GET_STATUS_FUNC, SBI_HSM_EXT⟩] := by
  rw [← world_map Prod.fst, SbiHartGetStatus_status]
  exact callThenTranslate_trace _ w

theorem SbiGetMscratch_trace (ScratchSpace : Nat) (w : World) :
    (SbiGetMscratch ScratchSpace w).world.trace =
      w.trace ++ [⟨0, 0, 0, 0, 0, 0, SBI_EXT_FW_MSCRATCH_FUNC, SBI_FW_EXT⟩] := by
  unfold SbiGetMscratch sbi_call_0
  apply sbi_call_bind_trace
  intro r w1
  split <;> rfl

theorem SbiGetMscratchHartid_trace (HartId ScratchSpace : Nat) (w : World) :
    (SbiGetMscratchHartid HartId ScratchSpace w).world.trace =
      w.trace ++ [⟨HartId, 0, 0, 0, 0, 0, SBI_EXT_FW_MSCRATCH_HARTID_FUNC, SBI_FW_EXT⟩] := by
  unfold SbiGetMscratchHartid sbi_call_1
  apply sbi_call_bind_trace
  intro r w1
  split <;> rfl

/-- The statements of `SbiGetFirmwareContext` behind `ScratchSpace = ret.value`, written
out on the memory: the two loads, each of which may fault. -/
theorem firmware_context_read_run (ScratchSpace : Nat) (w : World) :
    (sbi_platform_ptr ScratchSpace >>= fun SbiPlatform =>
      load_firmware_context SbiPlatform >>= fun Context =>
        (pure (EFI_SUCCESS, Context) : SBI (EFI_STATUS × Nat))) w =
      match w.heap.mem (fieldAddress ScratchSpace SBI_SCRATCH_PLATFORM_ADDR_OFFSET) with
      | none => .halt .fault w
      | some SbiPlatform =>
        match w.heap.mem (fieldAddress SbiPlatform SBI_PLATFORM_FIRMWARE_CONTEXT_OFFSET) with
        | none => .halt .fault w
        | some Context => .ret (EFI_SUCCESS, Context) w := by
  rw [bind_run]
  unfold sbi_platform_ptr
  cases w.heap.mem (fieldAddress ScratchSpace SBI_SCRATCH_PLATFORM_ADDR_OFFSET) with
  | none => rfl
  | some SbiPlatform =>
    dsimp only
    rw [bind_run]
    unfold load_firmware_context
    cases w.heap.mem (fieldAddress SbiPlatform SBI_PLATFORM_FIRMWARE_CONTEXT_OFFSET) <;> rfl

/-- The statements of `SbiSetFirmwareContext` behind `ScratchSpace = ret.value`, written
out on the memory: the load of the descriptor address and the store of one word, each of
which may fault. -/
theorem firmware_context_write_run (ScratchSpace Value : Nat) (w : World) :
    (sbi_platform_ptr ScratchSpace >>= fun SbiPlatform =>
      store_firmware_context SbiPlatform Value >>= fun _ =>
        (pure EFI_SUCCESS : SBI EFI_STATUS)) w =
      match w.heap.mem (fieldAddress ScratchSpace SBI_SCRATCH_PLATFORM_ADDR_OFFSET) with
      | none => .halt .fault w
      | some SbiPlatform =>
        match w.heap.mem (fieldAddress SbiPlatform SBI_PLATFORM_FIRMWARE_CONTEXT_OFFSET) with
        | none => .halt .fault w
        | some _ => .ret EFI_SUCCESS { w with heap := ⟨Function.update w.heap.mem
            (fieldAddress SbiPlatform SBI_PLATFORM_FIRMWARE_CONTEXT_OFFSET) (some Value)⟩ } := by
  rw [bind_run]
  unfold sbi_platform_ptr
  cases w.heap.mem (fieldAddress ScratchSpace SBI_SCRATCH_PLATFORM_ADDR_OFFSET) with
  | none => rfl
  | some SbiPlatform =>
    dsimp only
    rw [bind_run]
    unfold store_firmware_context
    cases w.heap.mem (fieldAddress SbiPlatform SBI_PLATFORM_FIRMWARE_CONTEXT_OFFSET) <;> rfl

theorem firmware_context_read_trace (ScratchSpace : Nat) (w : World) :
    ((sbi_platform_ptr ScratchSpace >>= fun SbiPlatform =>
      load_firmware_context SbiPlatform >>= fun Context =>
        (pure (EFI_SUCCESS, Context) : SBI (EFI_STATUS × Nat))) w).world.trace = w.trace := by
  rw [firmware_context_read_run]
  cases w.heap.mem (fieldAddress ScratchSpace SBI_SCRATCH_PLATFORM_ADDR_OFFSET) with
  | none => rfl
  | some SbiPlatform =>
    dsimp only
    cases w.heap.mem (fieldAddress SbiPlatform SBI_PLATFORM_FIRMWARE_CONTEXT_OFFSET) <;> rfl

theorem firmware_context_write_trace (ScratchSpace Value : Nat) (w : World) :
    ((sbi_platform_ptr ScratchSpace >>= fun SbiPlatform =>
      store_firmware_context SbiPlatform Value >>= fun _ =>
        (pure EFI_SUCCESS : SBI EFI_STATUS)) w).world.trace = w.trace := by
  rw [firmware_context_write_run]
  cases w.heap.mem (fieldAddress ScratchSpace SBI_SCRATCH_PLATFORM_ADDR_OFFSET) with
  | none => rfl
  | some SbiPlatform =>
    dsimp only
    cases w.heap.mem (fieldAddress SbiPlatform SBI_PLATFORM_FIRMWARE_CONTEXT_OFFSET) <;> rfl

theorem SbiGetFirmwareContext_trace (FirmwareContext : Nat) (w : World) :
    (SbiGetFirmwareContext FirmwareContext w).world.trace =
      w.trace ++ [⟨0, 0, 0, 0, 0, 0, SBI_EXT_FW_MSCRATCH_FUNC, SBI_FW_EXT⟩] := by
  unfold SbiGetFirmwareContext sbi_call_0
  apply sbi_call_bind_trace
  intro r w1
  split
  · exact firmware_context_read_trace _ w1
  · rfl

theorem SbiSetFirmwareContext_trace (FirmwareContext : Nat) (w : World) :
    (SbiSetFirmwareContext FirmwareContext w).world.trace =
      w.trace ++ [⟨0, 0, 0, 0, 0, 0, SBI_EXT_FW_MSCRATCH_FUNC, SBI_FW_EXT⟩] := by
  unfold SbiSetFirmwareContext sbi_call_0
  apply sbi_call_bind_trace
  intro r w1
  split
  · exact firmware_context_write_trace _ _ w1
  · rfl

theorem TranslateError_vendor_violations (SbiError : Nat) (w : World) :
    (TranslateError SbiError w).world.violations.count .SbiVendorCall_ExtensionId =
      w.violations.count .SbiVendorCall_ExtensionId := by
  rcases TranslateError_world SbiError w with h | h
  · rw [h]
  · rw [h]
    simp [World.violated]

theorem callThenTranslate_vendor_violations (t : Transition) (w : World) :
    (callThenTranslate t w).world.violations.count .SbiVendorCall_ExtensionId =
      w.violations.count .SbiVendorCall_ExtensionId := by
  unfold callThenTranslate
  rcases w.answer t with _ | r
  · rfl
  · exact TranslateError_vendor_violations _ _

theorem VendorTransition_arg (ExtensionId FunctionId NumArgs : Nat) (Args : VA_LIST) (i : Nat) :
    (VendorTransition ExtensionId FunctionId NumArgs Args).arg i =
      if i < NumArgs ∧ i < 6 then Args.getD (NumArgs - 1 - i) 0 else 0 := by
  rcases i with _ | _ | _ | _ | _ | _ | i
  · simp [VendorTransition, Transition.arg]
  · simp [VendorTransition, Transition.arg]
  · simp [VendorTransition, Transition.arg]
  · simp [VendorTransition, Transition.arg]
  · simp [VendorTransition, Transition.arg]
  · simp [VendorTransition, Transition.arg]
  · simp only [VendorTransition, Transition.arg]
    rw [if_neg (by omega)]

theorem TranslateError_failure (SbiError : Nat) (w : World) (h : SbiError ≠ 0)
    (Status : EFI_STATUS) (w1 : World) (hret : TranslateError SbiError w = .ret Status w1) :
    EFI_ERROR Status = true := by
  by_cases hk : ∃ k ∈ KnownSbiErrors, SbiError = toUINTN k
  · obtain ⟨k, hk, rfl⟩ := hk
    simp only [KnownSbiErrors, List.mem_cons, List.mem_singleton, List.not_mem_nil,
      or_false] at hk
    have hrun := TranslateError_known_run w
    rcases hk with rfl | rfl | rfl | rfl | rfl | rfl | rfl
    · exact absurd rfl h
    · rw [hrun.2.1] at hret; cases hret; decide
    · rw [hrun.2.2.1] at hret; cases hret; decide
    · rw [hrun.2.2.2.1] at hret; cases hret; decide
    · rw [hrun.2.2.2.2.1] at hret; cases hret; decide
    · rw [hrun.2.2.2.2.2.1] at hret; cases hret; decide
    · rw [hrun.2.2.2.2.2.2] at hret; cases hret; decide
  · rw [TranslateError_unknown_run SbiError w (fun k hkm hc => hk ⟨k, hkm, hc⟩)] at hret
    cases ha : w.AssertAborts
    · rw [ha] at hret
      cases hret
      decide
    · rw [ha] at hret
      cases hret

theorem TranslateError_returns (SbiError : Nat) (w : World) (h : w.AssertAborts = false) :
    ∃ Status w1, TranslateError SbiError w = .ret Status w1 := by
  by_cases hk : ∃ k ∈ KnownSbiErrors, SbiError = toUINTN k
  · obtain ⟨Status, hs⟩ := TranslateError_known_of_mem SbiError w hk
    exact ⟨Status, w, hs⟩
  · rw [TranslateError_unknown_run SbiError w (fun k hkm hc => hk ⟨k, hkm, hc⟩), h]
    exact ⟨_, _, rfl⟩

/-! ### Runs on a given answer of the lower layer -/

theorem sbi_call_bind_of_answer {β : Type} (ext_id func_id arg0 arg1 arg2 arg3 arg4 arg5 : Nat)
    (f : sbiret → SBI β) (w : World) (e v : Nat)
    (h : w.answer ⟨arg0, arg1, arg2, arg3, arg4, arg5, func_id, ext_id⟩ = some (e, v)) :
    (sbi_call ext_id func_id arg0 arg1 arg2 arg3 arg4 arg5 >>= f) w =
      f ⟨toLong e, toLong arg1⟩
        (w.after ⟨arg0, arg1, arg2, arg3, arg4, arg5, func_id, ext_id⟩) := by
  rw [bind_run, sbi_call_run, h]

theorem sbi_call_bind_of_noReturn {β : Type}
    (ext_id func_id arg0 arg1 arg2 arg3 arg4 arg5 : Nat) (f : sbiret → SBI β) (w : World)
    (h : w.answer ⟨arg0, arg1, arg2, arg3, arg4, arg5, func_id, ext_id⟩ = none) :
    (sbi_call ext_id func_id arg0 arg1 arg2 arg3 arg4 arg5 >>= f) w =
      .halt .noReturn (w.after ⟨arg0, arg1, arg2, arg3, arg4, arg5, func_id, ext_id⟩) := by
  rw [bind_run, sbi_call_run, h]

/-- The value word of a call whose `arg1` is zero, converted to `UINTN`. -/
theorem value_word_of_zero : toUINTN (toLong 0) = 0 := by decide

theorem SbiGetSpecVersion_run (SpecVersion : Nat) (w : World) (e v : Nat)
    (h : w.answer ⟨0, 0, 0, 0, 0, 0, SBI_GET_SPEC_VERSION_FUNC, SBI_BASE_EXT⟩ = some (e, v)) :
    SbiGetSpecVersion SpecVersion w =
      .ret (if toLong e = 0 then 0 else SpecVersion)
        (w.after ⟨0, 0, 0, 0, 0, 0, SBI_GET_SPEC_VERSION_FUNC, SBI_BASE_EXT⟩) := by
  unfold SbiGetSpecVersion sbi_call_0
  rw [sbi_call_bind_of_answer _ _ _ _ _ _ _ _ _ w e v h]
  dsimp only
  rw [value_word_of_zero]
  split <;> rfl

theorem SbiGetImplId_run (ImplId : Nat) (w : World) (e v : Nat)
    (h : w.answer ⟨0, 0, 0, 0, 0, 0, SBI_GET_IMPL_ID_FUNC, SBI_BASE_EXT⟩ = some (e, v)) :
    SbiGetImplId ImplId w =
      .ret 0 (w.after ⟨0, 0, 0, 0, 0, 0, SBI_GET_IMPL_ID_FUNC, SBI_BASE_EXT⟩) := by
  unfold SbiGetImplId sbi_call_0
  rw [sbi_call_bind_of_answer _ _ _ _ _ _ _ _ _ w e v h]
  dsimp only
  rw [value_word_of_zero]
  rfl

theorem SbiGetImplVersion_run (ImplVersion : Nat) (w : World) (e v : Nat)
    (h : w.answer ⟨0, 0, 0, 0, 0, 0, SBI_GET_IMPL_VERSION_FUNC, SBI_BASE_EXT⟩ = some (e, v)) :
    SbiGetImplVersion ImplVersion w =
      .ret 0 (w.after ⟨0, 0, 0, 0, 0, 0, SBI_GET_IMPL_VERSION_FUNC, SBI_BASE_EXT⟩) := by
  unfold SbiGetImplVersion sbi_call_0
  rw [sbi_call_bind_of_answer _ _ _ _ _ _ _ _ _ w e v h]
  dsimp only
  rw [value_word_of_zero]
  rfl

theorem SbiProbeExtension_run (ExtensionId ProbeResult : Int) (w : World) (e v : Nat)
    (h : w.answer ⟨0, 0, 0, 0, 0, 0, SBI_PROBE_EXTENSION_FUNC, SBI_BASE_EXT⟩ = some (e, v)) :
    SbiProbeExtension ExtensionId ProbeResult w =
      .ret 0 (w.after ⟨0, 0, 0, 0, 0, 0, SBI_PROBE_EXTENSION_FUNC, SBI_BASE_EXT⟩) := by
  unfold SbiProbeExtension sbi_call_0
  rw [sbi_call_bind_of_answer _ _ _ _ _ _ _ _ _ w e v h]
  dsimp only
  rw [value_word_of_zero]
  rfl

theorem SbiGetMvendorId_run (MvendorId : Nat) (w : World) (e v : Nat)
    (h : w.answer ⟨0, 0, 0, 0, 0, 0, SBI_GET_MVENDORID_FUNC, SBI_BASE_EXT⟩ = some (e, v)) :
    SbiGetMvendorId MvendorId w =
      .ret 0 (w.after ⟨0, 0, 0, 0, 0, 0, SBI_GET_MVENDORID_FUNC, SBI_BASE_EXT⟩) := by
  unfold SbiGetMvendorId sbi_call_0
  rw [sbi_call_bind_of_answer _ _ _ _ _ _ _ _ _ w e v h]
  dsimp only
  rw [value_word_of_zero]
  rfl

theorem SbiGetMarchId_run (MarchId : Nat) (w : World) (e v : Nat)
    (h : w.answer ⟨0, 0, 0, 0, 0, 0, SBI_GET_MARCHID_FUNC, SBI_BASE_EXT⟩ = some (e, v)) :
    SbiGetMarchId MarchId w =
      .ret 0 (w.after ⟨0, 0, 0, 0, 0, 0, SBI_GET_MARCHID_FUNC, SBI_BASE_EXT⟩) := by
  unfold SbiGetMarchId sbi_call_0
  rw [sbi_call_bind_of_answer _ _ _ _ _ _ _ _ _ w e v h]
  dsimp only
  rw [value_word_of_zero]
  rfl

theorem SbiGetMimpId_run (MimpId : Nat) (w : World) (e v : Nat)
    (h : w.answer ⟨0, 0, 0, 0, 0, 0, SBI_GET_MIMPID_FUNC, SBI_BASE_EXT⟩ = some (e, v)) :
    SbiGetMimpId MimpId w =
      .ret 0 (w.after ⟨0, 0, 0, 0, 0, 0, SBI_GET_MIMPID_FUNC, SBI_BASE_EXT⟩) := by
  unfold SbiGetMimpId sbi_call_0
  rw [sbi_call_bind_of_answer _ _ _ _ _ _ _ _ _ w e v h]
  dsimp only
  rw [value_word_of_zero]
  rfl

theorem SbiSetTimer_run (StimeValue : Nat) (w : World) (e v : Nat)
    (h : w.answer ⟨StimeValue, 0, 0, 0, 0, 0, 0, SBI_TIME_EXT⟩ = some (e, v)) :
    SbiSetTimer StimeValue w = .ret () (w.after ⟨StimeValue, 0, 0, 0, 0, 0, 0, SBI_TIME_EXT⟩) :=
  sbi_call_bind_of_answer _ _ _ _ _ _ _ _ _ w e v h

theorem SbiHartGetStatus_run (HartId HartStatus : Nat) (w : World) (e v : Nat)
    (h : w.answer ⟨HartId, 0, 0, 0, 0, 0, SBI_HART_GET_STATUS_FUNC, SBI_HSM_EXT⟩ = some (e, v)) :
    SbiHartGetStatus HartId HartStatus w =
      (TranslateError (toUINTN (toLong e))
        (w.after ⟨HartId, 0, 0, 0, 0, 0, SBI_HART_GET_STATUS_FUNC, SBI_HSM_EXT⟩)).map
        (fun Status => (Status, if toLong e = 0 then 0 else HartStatus)) := by
  unfold SbiHartGetStatus sbi_call_1
  rw [sbi_call_bind_of_answer _ _ _ _ _ _ _ _ _ w e v h]
  dsimp only
  rw [bind_run, value_word_of_zero]
  cases TranslateError (toUINTN (toLong e))
    (w.after ⟨HartId, 0, 0, 0, 0, 0, SBI_HART_GET_STATUS_FUNC, SBI_HSM_EXT⟩) <;> rfl

/-! ### Firmware extension on a given answer -/

theorem SbiGetMscratch_run (ScratchSpace : Nat) (w : World) (e v : Nat)
    (h : w.answer ⟨0, 0, 0, 0, 0, 0, SBI_EXT_FW_MSCRATCH_FUNC, SBI_FW_EXT⟩ = some (e, v)) :
    SbiGetMscratch ScratchSpace w =
      .ret (EFI_SUCCESS, if toLong e = 0 then 0 else ScratchSpace)
        (w.after ⟨0, 0, 0, 0, 0, 0, SBI_EXT_FW_MSCRATCH_FUNC, SBI_FW_EXT⟩) := by
  unfold SbiGetMscratch sbi_call_0
  rw [sbi_call_bind_of_answer _ _ _ _ _ _ _ _ _ w e v h]
  dsimp only
  rw [value_word_of_zero]
  split <;> rfl

theorem SbiGetMscratchHartid_run (HartId ScratchSpace : Nat) (w : World) (e v : Nat)
    (h : w.answer ⟨HartId, 0, 0, 0, 0, 0, SBI_EXT_FW_MSCRATCH_HARTID_FUNC, SBI_FW_EXT⟩ =
      some (e, v)) :
    SbiGetMscratchHartid HartId ScratchSpace w =
      .ret (EFI_SUCCESS, if toLong e = 0 then 0 else ScratchSpace)
        (w.after ⟨HartId, 0, 0, 0, 0, 0, SBI_EXT_FW_MSCRATCH_HARTID_FUNC, SBI_FW_EXT⟩) := by
  unfold SbiGetMscratchHartid sbi_call_1
  rw [sbi_call_bind_of_answer _ _ _ _ _ _ _ _ _ w e v h]
  dsimp only
  rw [value_word_of_zero]
  split <;> rfl

/-- The run of `SbiGetFirmwareContext` on an answer of the lower layer: with error word `0`
the scratch pointer it dereferences is `ret.value`, which is `arg1 = 0`. -/
theorem SbiGetFirmwareContext_run (FirmwareContext : Nat) (w : World) (e v : Nat)
    (h : w.answer ⟨0, 0, 0, 0, 0, 0, SBI_EXT_FW_MSCRATCH_FUNC, SBI_FW_EXT⟩ = some (e, v)) :
    SbiGetFirmwareContext FirmwareContext w =
      if toLong e = 0 then
        (sbi_platform_ptr 0 >>= fun SbiPlatform =>
          load_firmware_context SbiPlatform >>= fun Context =>
            (pure (EFI_SUCCESS, Context) : SBI (EFI_STATUS × Nat)))
          (w.after ⟨0, 0, 0, 0, 0, 0, SBI_EXT_FW_MSCRATCH_FUNC, SBI_FW_EXT⟩)
      else
        .ret (EFI_SUCCESS, FirmwareContext)
          (w.after ⟨0, 0, 0, 0, 0, 0, SBI_EXT_FW_MSCRATCH_FUNC, SBI_FW_EXT⟩) := by
  unfold SbiGetFirmwareContext sbi_call_0
  rw [sbi_call_bind_of_answer _ _ _ _ _ _ _ _ _ w e v h]
  dsimp only
  rw [value_word_of_zero]
  split <;> rfl

/-- The run of `SbiSetFirmwareContext` on an answer of the lower layer: with error word `0`
the scratch pointer it dereferences is `ret.value`, which is `arg1 = 0`. -/
theorem SbiSetFirmwareContext_run (FirmwareContext : Nat) (w : World) (e v : Nat)
    (h : w.answer ⟨0, 0, 0, 0, 0, 0, SBI_EXT_FW_MSCRATCH_FUNC, SBI_FW_EXT⟩ = some (e, v)) :
    SbiSetFirmwareContext FirmwareContext w =
      if toLong e = 0 then
        (sbi_platform_ptr 0 >>= fun SbiPlatform =>
          store_firmware_context SbiPlatform FirmwareContext >>= fun _ =>
            (pure EFI_SUCCESS : SBI EFI_STATUS))
          (w.after ⟨0, 0, 0, 0, 0, 0, SBI_EXT_FW_MSCRATCH_FUNC, SBI_FW_EXT⟩)
      else
        .ret EFI_SUCCESS (w.after ⟨0, 0, 0, 0, 0, 0, SBI_EXT_FW_MSCRATCH_FUNC, SBI_FW_EXT⟩) := by
  unfold SbiSetFirmwareContext sbi_call_0
  rw [sbi_call_bind_of_answer _ _ _ _ _ _ _ _ _ w e v h]
  dsimp only
  rw [value_word_of_zero]
  split <;> rfl

theorem firmware_context_read_status (ScratchSpace : Nat) (w w1 : World) (r : EFI_STATUS × Nat)
    (hret : (sbi_platform_ptr ScratchSpace >>= fun SbiPlatform =>
      load_firmware_context SbiPlatform >>= fun Context =>
        (pure (EFI_SUCCESS, Context) : SBI (EFI_STATUS × Nat))) w = .ret r w1) :
    r.1 = EFI_SUCCESS := by
  rw [firmware_context_read_run] at hret
  cases hs : w.heap.mem (fieldAddress ScratchSpace SBI_SCRATCH_PLATFORM_ADDR_OFFSET) with
  | none => rw [hs] at hret; cases hret
  | some SbiPlatform =>
    rw [hs] at hret
    dsimp only at hret
    cases hc : w.heap.mem (fieldAddress SbiPlatform SBI_PLATFORM_FIRMWARE_CONTEXT_OFFSET) with
    | none => rw [hc] at hret; cases hret
    | some Context => rw [hc] at hret; cases hret; rfl

theorem firmware_context_write_status (ScratchSpace Value : Nat) (w w1 : World)
    (Status : EFI_STATUS)
    (hret : (sbi_platform_ptr ScratchSpace >>= fun SbiPlatform =>
      store_firmware_context SbiPlatform Value >>= fun _ =>
        (pure EFI_SUCCESS : SBI EFI_STATUS)) w = .ret Status w1) :
    Status = EFI_SUCCESS := by
  rw [firmware_context_write_run] at hret
  cases hs : w.heap.mem (fieldAddress ScratchSpace SBI_SCRATCH_PLATFORM_ADDR_OFFSET) with
  | none => rw [hs] at hret; cases hret
  | some SbiPlatform =>
    rw [hs] at hret
    dsimp only at hret
    cases hc : w.heap.mem (fieldAddress SbiPlatform SBI_PLATFORM_FIRMWARE_CONTEXT_OFFSET) with
    | none => rw [hc] at hret; cases hret
    | some Context => rw [hc] at hret; cases hret; rfl

/-! ### The wrappers of `RiscVOpenSbiPpi.c` against those of `RiscVOpenSbiLib.c` -/

theorem sameUpToSite_world_refl (w : World) : w.sameUpToSite w :=
  ⟨rfl, rfl, rfl, rfl, rfl⟩

theorem sameUpToSite_run_refl {α : Type} (o : Outcome α) : o.sameUpToSite o := by
  cases o with
  | ret a w => exact ⟨rfl, (sameUpToSite_world_refl w)⟩
  | halt why w => exact ⟨rfl, (sameUpToSite_world_refl w)⟩

theorem sameUpToSite_answer (w1 w2 : World) (h : w1.sameUpToSite w2) (t : Transition) :
    w1.answer t = w2.answer t := by
  obtain ⟨he, _, ht, hh, _⟩ := h
  unfold World.answer
  rw [he, ht, hh]

theorem sameUpToSite_after (w1 w2 : World) (h : w1.sameUpToSite w2) (t : Transition) :
    (w1.after t).sameUpToSite (w2.after t) := by
  obtain ⟨he, ha, ht, hh, hv⟩ := h
  exact ⟨he, ha, by simp only [World.after, ht], hh, hv⟩

theorem sameUpToSite_violated (w1 w2 : World) (h : w1.sameUpToSite w2) (s1 s2 : AssertSite)
    (hs : s1.inLib = s2.inLib) : (w1.violated s1).sameUpToSite (w2.violated s2) := by
  obtain ⟨he, ha, ht, hh, hv⟩ := h
  refine ⟨he, ha, ht, hh, ?_⟩
  simp only [World.violated, List.map_append, List.map_cons, List.map_nil, hv, hs]

theorem sbi_call_same (ext_id func_id arg0 arg1 arg2 arg3 arg4 arg5 : Nat) (w1 w2 : World)
    (h : w1.sameUpToSite w2) :
    (sbi_call ext_id func_id arg0 arg1 arg2 arg3 arg4 arg5 w1).sameUpToSite
      (sbi_call ext_id func_id arg0 arg1 arg2 arg3 arg4 arg5 w2) := by
  rw [sbi_call_run, sbi_call_run, sameUpToSite_answer w1 w2 h]
  rcases w2.answer ⟨arg0, arg1, arg2, arg3, arg4, arg5, func_id, ext_id⟩ with _ | r
  · exact ⟨rfl, sameUpToSite_after w1 w2 h _⟩
  · exact ⟨rfl, sameUpToSite_after w1 w2 h _⟩

theorem bind_same {α β : Type} (m1 m2 : SBI α) (f1 f2 : α → SBI β) (w1 w2 : World)
    (hm : (m1 w1).sameUpToSite (m2 w2))
    (hf : ∀ a v1 v2, v1.sameUpToSite v2 → (f1 a v1).sameUpToSite (f2 a v2)) :
    ((m1 >>= f1) w1).sameUpToSite ((m2 >>= f2) w2) := by
  rw [bind_run, bind_run]
  cases h1 : m1 w1 with
  | ret a v1 =>
    cases h2 : m2 w2 with
    | ret b v2 =>
      rw [h1, h2] at hm
      obtain ⟨rfl, hw⟩ := hm
      exact hf a v1 v2 hw
    | halt why v2 =>
      rw [h1, h2] at hm
      exact hm.elim
  | halt why v1 =>
    cases h2 : m2 w2 with
    | ret b v2 =>
      rw [h1, h2] at hm
      exact hm.elim
    | halt why2 v2 =>
      rw [h1, h2] at hm
      exact hm

theorem ASSERT_same (s1 s2 : AssertSite) (hs : s1.inLib = s2.inLib) (Expression : Bool)
    (w1 w2 : World) (h : w1.sameUpToSite w2) :
    (ASSERT s1 Expression w1).sameUpToSite (ASSERT s2 Expression w2) := by
  unfold ASSERT
  rw [h.2.1]
  cases Expression
  · cases w2.AssertAborts
    · exact ⟨rfl, sameUpToSite_violated w1 w2 h s1 s2 hs⟩
    · exact ⟨rfl, sameUpToSite_violated w1 w2 h s1 s2 hs⟩
  · exact ⟨rfl, h⟩

theorem TranslateError_same (SbiError : Nat) (w1 w2 : World) (h : w1.sameUpToSite w2) :
    (Ppi.TranslateError SbiError w1).sameUpToSite (TranslateError SbiError w2) := by
  unfold Ppi.TranslateError TranslateError
  split_ifs
  · exact ⟨rfl, h⟩
  · exact ⟨rfl, h⟩
  · exact ⟨rfl, h⟩
  · exact ⟨rfl, h⟩
  · exact ⟨rfl, h⟩
  · exact ⟨rfl, h⟩
  · exact ⟨rfl, h⟩
  · exact bind_same _ _ _ _ w1 w2 (ASSERT_same .PeiTranslateError_FALSE .TranslateError_FALSE rfl false w1 w2 h)
      (fun _ v1 v2 hv => ⟨rfl, hv⟩)

theorem call_translate_same (ext_id func_id arg0 arg1 arg2 arg3 arg4 arg5 : Nat)
    (w1 w2 : World) (h : w1.sameUpToSite w2) :
    ((sbi_call ext_id func_id arg0 arg1 arg2 arg3 arg4 arg5 >>= fun ret =>
        Ppi.TranslateError (toUINTN ret.error)) w1).sameUpToSite
      ((sbi_call ext_id func_id arg0 arg1 arg2 arg3 arg4 arg5 >>= fun ret =>
        TranslateError (toUINTN ret.error)) w2) :=
  bind_same _ _ _ _ w1 w2 (sbi_call_same _ _ _ _ _ _ _ _ w1 w2 h)
    (fun r v1 v2 hv => TranslateError_same (toUINTN r.error) v1 v2 hv)

theorem PeiOpenSbiHartGetStatus_same (PeiServices This HartId HartStatus : Nat) (w : World) :
    (Ppi.PeiOpenSbiHartGetStatus PeiServices This HartId HartStatus w).sameUpToSite
      (SbiHartGetStatus HartId HartStatus w) :=
  bind_same _ _ _ _ w w (sbi_call_same _ _ _ _ _ _ _ _ w w (sameUpToSite_world_refl w))
    (fun r v1 v2 hv => bind_same _ _ _ _ v1 v2 (TranslateError_same (toUINTN r.error) v1 v2 hv)
      (fun _ _ _ hu => ⟨rfl, hu⟩))

theorem PeiOpenSbiVendorCall_same (PeiServices This ExtensionId FunctionId NumArgs : Nat)
    (Args : VA_LIST) (w : World) :
    (Ppi.PeiOpenSbiVendorCall PeiServices This ExtensionId FunctionId NumArgs Args w).sameUpToSite
      (SbiVendorCall ExtensionId FunctionId NumArgs Args w) := by
  rcases NumArgs with _ | _ | _ | _ | _ | _ | _ | n
  all_goals
    exact bind_same _ _ _ _ w w (ASSERT_same .PeiOpenSbiVendorCall_ExtensionId .SbiVendorCall_ExtensionId rfl _ w w
        (sameUpToSite_world_refl w))
      (fun _ v1 v2 hv => by
        first
          | exact call_translate_same _ _ _ _ _ _ _ _ v1 v2 hv
          | exact ⟨rfl, hv⟩)

theorem sameUpToSite_observable {α : Type} (o1 o2 : Outcome α) (h : o1.sameUpToSite o2) :
    o1.value = o2.value ∧ o1.world.trace = o2.world.trace ∧ o1.world.heap = o2.world.heap := by
  cases o1 with
  | ret a w1 =>
    cases o2 with
    | ret b w2 =>
      obtain ⟨rfl, _, _, ht, hh, _⟩ := h
      exact ⟨rfl, ht, hh⟩
    | halt why w2 => exact h.elim
  | halt why w1 =>
    cases o2 with
    | ret b w2 => exact h.elim
    | halt why2 w2 =>
      obtain ⟨_, _, _, ht, hh, _⟩ := h
      exact ⟨rfl, ht, hh⟩

theorem PeiTranslateError_known_run (w : World) (k : Int) (hk : k ∈ KnownSbiErrors) :
    Ppi.TranslateError (toUINTN k) w = TranslateError (toUINTN k) w := by
  simp only [KnownSbiErrors, List.mem_cons, List.mem_singleton, List.not_mem_nil,
    or_false] at hk
  rcases hk with rfl | rfl | rfl | rfl | rfl | rfl | rfl <;> rfl

theorem PeiTranslateError_unknown_run (SbiError : Nat) (w : World)
    (h : ∀ k ∈ KnownSbiErrors, SbiError ≠ toUINTN k) :
    Ppi.TranslateError SbiError w =
      if w.AssertAborts then .halt .assertFailed (w.violated .PeiTranslateError_FALSE)
      else .ret EFI_UNSUPPORTED (w.violated .PeiTranslateError_FALSE) := by
  simp only [KnownSbiErrors, List.forall_mem_cons, List.not_mem_nil, false_imp_iff,
    implies_true, and_true] at h
  obtain ⟨h0, h1, h2, h3, h4, h5, h6⟩ := h
  simp only [Ppi.TranslateError, if_neg h0, if_neg h1, if_neg h2, if_neg h3, if_neg h4,
    if_neg h5, if_neg h6]
  rw [bind_run]
  unfold ASSERT
  cases w.AssertAborts <;> rfl

/-! ### Signed and unsigned error words -/

theorem toLong_toUINTN (e : Int) (hlo : -(2 : Int) ^ (XLEN - 1) ≤ e)
    (hhi : e < (2 : Int) ^ (XLEN - 1)) : toLong (toUINTN e) = e := by
  unfold toLong toUINTN XLEN at *
  norm_num at *
  have hn : ((e % 18446744073709551616).toNat : Int) = e % 18446744073709551616 :=
    Int.toNat_of_nonneg (Int.emod_nonneg _ (by norm_num))
  generalize (e % 18446744073709551616).toNat = n at *
  split <;> omega

theorem KnownSbiErrors_range (k : Int) (hk : k ∈ KnownSbiErrors) :
    -(2 : Int) ^ (XLEN - 1) ≤ k ∧ k < (2 : Int) ^ (XLEN - 1) ∧ -6 ≤ k ∧ k ≤ 0 := by
  simp only [KnownSbiErrors, List.mem_cons, List.mem_singleton, List.not_mem_nil,
    or_false] at hk
  rcases hk with rfl | rfl | rfl | rfl | rfl | rfl | rfl <;> decide

theorem toUINTN_eq_known (e : Int) (hlo : -(2 : Int) ^ (XLEN - 1) ≤ e)
    (hhi : e < (2 : Int) ^ (XLEN - 1)) (k : Int) (hk : k ∈ KnownSbiErrors)
    (h : toUINTN e = toUINTN k) : e = k := by
  obtain ⟨klo, khi, _, _⟩ := KnownSbiErrors_range k hk
  rw [← toLong_toUINTN e hlo hhi, ← toLong_toUINTN k klo khi, h]

theorem TranslateError_known_listed (w : World) (k : Int) (hk : k ∈ KnownSbiErrors) :
    ∃ Status, listedStatus k = some Status ∧ TranslateError (toUINTN k) w = .ret Status w := by
  simp only [KnownSbiErrors, List.mem_cons, List.mem_singleton, List.not_mem_nil,
    or_false] at hk
  rcases hk with rfl | rfl | rfl | rfl | rfl | rfl | rfl <;> exact ⟨_, rfl, rfl⟩

theorem listedStatus_injective : ∀ k1 ∈ KnownSbiErrors, ∀ k2 ∈ KnownSbiErrors,
    listedStatus k1 = listedStatus k2 → k1 = k2 := by
  decide

theorem listedStatus_eq_none (e : Int) (h : e ∉ KnownSbiErrors) : listedStatus e = none := by
  simp only [KnownSbiErrors, List.mem_cons, List.mem_singleton, List.not_mem_nil, or_false,
    not_or] at h
  obtain ⟨h0, h1, h2, h3, h4, h5, h6⟩ := h
  simp only [listedStatus, if_neg h0, if_neg h1, if_neg h2, if_neg h3, if_neg h4, if_neg h5,
    if_neg h6]

theorem TranslateError_unknown_status (SbiError : Nat) (w : World)
    (h : ∀ k ∈ KnownSbiErrors, SbiError ≠ toUINTN k) (Status : EFI_STATUS) (w1 : World)
    (hret : TranslateError SbiError w = .ret Status w1) : Status = EFI_UNSUPPORTED := by
  rw [TranslateError_unknown_run SbiError w h] at hret
  cases ha : w.AssertAborts
  · rw [ha] at hret
    cases hret
    rfl
  · rw [ha] at hret
    cases hret

/-! ## The claims -/

/-- C1: `TranslateError` maps each of the seven known lower-layer codes to exactly its
listed status, `SBI_SUCCESS` to `EFI_SUCCESS`, `SBI_ERR_FAILED` to `EFI_DEVICE_ERROR`,
`SBI_ERR_NOT_SUPPORTED` to `EFI_UNSUPPORTED`, `SBI_ERR_INVALID_PARAM` to
`EFI_INVALID_PARAMETER`, `SBI_ERR_DENIED` to `EFI_ACCESS_DENIED`, `SBI_ERR_INVALID_ADDRESS`
to `EFI_LOAD_ERROR` and `SBI_ERR_ALREADY_AVAILABLE` to `EFI_ALREADY_STARTED`; it returns in
the world it was called in. -/
theorem TranslateError_maps_known_codes (w : World) :
    TranslateError (toUINTN SBI_SUCCESS) w = .ret EFI_SUCCESS w ∧
    TranslateError (toUINTN SBI_ERR_FAILED) w = .ret EFI_DEVICE_ERROR w ∧
    TranslateError (toUINTN SBI_ERR_NOT_SUPPORTED) w = .ret EFI_UNSUPPORTED w ∧
    TranslateError (toUINTN SBI_ERR_INVALID_PARAM) w = .ret EFI_INVALID_PARAMETER w ∧
    TranslateError (toUINTN SBI_ERR_DENIED) w = .ret EFI_ACCESS_DENIED w ∧
    TranslateError (toUINTN SBI_ERR_INVALID_ADDRESS) w = .ret EFI_LOAD_ERROR w ∧
    TranslateError (toUINTN SBI_ERR_ALREADY_AVAILABLE) w = .ret EFI_ALREADY_STARTED w :=
  TranslateError_known_run w

/-- C2: for every code that is not one of the seven known codes, `TranslateError` reaches
its `ASSERT (FALSE)` (the violation is recorded) and, when the assertion does not abort,
returns `EFI_UNSUPPORTED`; when it aborts the run halts there.  For each of the seven known
codes the assertion is not reached: the run ends in the unchanged world. -/
theorem TranslateError_unknown_code_asserts (w : World) (SbiError : Nat)
    (hunknown : ∀ k ∈ KnownSbiErrors, SbiError ≠ toUINTN k) :
    (TranslateError SbiError w).world = w.violated .TranslateError_FALSE ∧
    (w.AssertAborts = false →
      TranslateError SbiError w = .ret EFI_UNSUPPORTED (w.violated .TranslateError_FALSE)) ∧
    (w.AssertAborts = true →
      TranslateError SbiError w = .halt .assertFailed (w.violated .TranslateError_FALSE)) ∧
    (∀ k ∈ KnownSbiErrors, (TranslateError (toUINTN k) w).world = w ∧
      ∃ Status, TranslateError (toUINTN k) w = .ret Status w) := by
  have hrun := TranslateError_unknown_run SbiError w hunknown
  refine ⟨?_, ?_, ?_, ?_⟩
  · rw [hrun]; cases w.AssertAborts <;> rfl
  · intro ha; rw [hrun, ha]; rfl
  · intro ha; rw [hrun, ha]; rfl
  · intro k hk
    obtain ⟨Status, hs⟩ := TranslateError_known_of_mem (toUINTN k) w ⟨k, hk, rfl⟩
    exact ⟨by rw [hs]; rfl, Status, hs⟩

/-- Witness of C2 at the code `1` (a positive word, not a known code) with assertions that
do not abort. -/
theorem TranslateError_unknown_code_asserts_witness :
    (∀ k ∈ KnownSbiErrors, (1 : Nat) ≠ toUINTN k) ∧
    TranslateError 1 (startWorld 0 0 false) =
      .ret EFI_UNSUPPORTED ((startWorld 0 0 false).violated .TranslateError_FALSE) :=
  ⟨by decide,
    (TranslateError_unknown_code_asserts (startWorld 0 0 false) 1 (by decide)).2.1 rfl⟩

/-- C3: for every status-returning wrapper that performs a transition (`SbiHartStart`,
`SbiHartStop`, `SbiHartGetStatus`, `SbiSendIpi`, the seven `SbiRemote*` fences and
`SbiVendorCall` with `NumArgs ≤ 6`) and every pair `(e, v)` the lower layer answers to that
transition, the run of the wrapper is the run of `TranslateError` on the error word `e` in
the world after the transition: the status depends on `e` only, never on `v`, and nothing
is substituted.  For `SbiVendorCall` the call is reached when the extension id is in the
vendor range, or when it is not and assertions do not abort, and the transition is
`VendorTransition`, the registers in the order the call commits them. -/
theorem status_is_TranslateError_of_error (w : World) (e v : Nat) :
    (∀ HartId StartAddr Priv,
      w.answer ⟨HartId, StartAddr, Priv, 0, 0, 0, SBI_HART_START_FUNC, SBI_HSM_EXT⟩
        = some (e, v) →
      SbiHartStart HartId StartAddr Priv w = TranslateError (toUINTN (toLong e))
        (w.after ⟨HartId, StartAddr, Priv, 0, 0, 0, SBI_HART_START_FUNC, SBI_HSM_EXT⟩)) ∧
    (w.answer ⟨0, 0, 0, 0, 0, 0, SBI_HART_STOP_FUNC, SBI_HSM_EXT⟩ = some (e, v) →
      SbiHartStop w = TranslateError (toUINTN (toLong e))
        (w.after ⟨0, 0, 0, 0, 0, 0, SBI_HART_STOP_FUNC, SBI_HSM_EXT⟩)) ∧
    (∀ HartId HartStatus,
      w.answer ⟨HartId, 0, 0, 0, 0, 0, SBI_HART_GET_STATUS_FUNC, SBI_HSM_EXT⟩ = some (e, v) →
      (SbiHartGetStatus HartId HartStatus w).map Prod.fst = TranslateError (toUINTN (toLong e))
        (w.after ⟨HartId, 0, 0, 0, 0, 0, SBI_HART_GET_STATUS_FUNC, SBI_HSM_EXT⟩)) ∧
    (∀ HartMask HartMaskBase,
      w.answer ⟨HartMask, HartMaskBase, 0, 0, 0, 0, 0, SBI_IPI_EXT⟩ = some (e, v) →
      SbiSendIpi HartMask HartMaskBase w = TranslateError (toUINTN (toLong e))
        (w.after ⟨HartMask, HartMaskBase, 0, 0, 0, 0, 0, SBI_IPI_EXT⟩)) ∧
    (∀ HartMask HartMaskBase,
      w.answer ⟨HartMask, HartMaskBase, 0, 0, 0, 0, 0, SBI_RFNC_EXT⟩ = some (e, v) →
      SbiRemoteFenceI HartMask HartMaskBase w = TranslateError (toUINTN (toLong e))
        (w.after ⟨HartMask, HartMaskBase, 0, 0, 0, 0, 0, SBI_RFNC_EXT⟩)) ∧
    (∀ HartMask HartMaskBase StartAddr Size,
      w.answer ⟨HartMask, HartMaskBase, StartAddr, Size, 0, 0, 1, SBI_RFNC_EXT⟩ = some (e, v) →
      SbiRemoteSfenceVma HartMask HartMaskBase StartAddr Size w =
        TranslateError (toUINTN (toLong e))
          (w.after ⟨HartMask, HartMaskBase, StartAddr, Size, 0, 0, 1, SBI_RFNC_EXT⟩)) ∧
    (∀ HartMask HartMaskBase StartAddr Size Asid,
      w.answer ⟨HartMask, HartMaskBase, StartAddr, Size, Asid, 0, 2, SBI_RFNC_EXT⟩
        = some (e, v) →
      SbiRemoteSfenceVmaAsid HartMask HartMaskBase StartAddr Size Asid w =
        TranslateError (toUINTN (toLong e))
          (w.after ⟨HartMask, HartMaskBase, StartAddr, Size, Asid, 0, 2, SBI_RFNC_EXT⟩)) ∧
    (∀ HartMask HartMaskBase StartAddr Size Vmid,
      w.answer ⟨HartMask, HartMaskBase, StartAddr, Size, Vmid, 0, 3, SBI_RFNC_EXT⟩
        = some (e, v) →
      SbiRemoteHFenceGvmaVmid HartMask HartMaskBase StartAddr Size Vmid w =
        TranslateError (toUINTN (toLong e))
          (w.after ⟨HartMask, HartMaskBase, StartAddr, Size, Vmid, 0, 3, SBI_RFNC_EXT⟩)) ∧
    (∀ HartMask HartMaskBase StartAddr Size,
      w.answer ⟨HartMask, HartMaskBase, StartAddr, Size, 0, 0, 4, SBI_RFNC_EXT⟩ = some (e, v) →
      SbiRemoteHFenceGvma HartMask HartMaskBase StartAddr Size w =
        TranslateError (toUINTN (toLong e))
          (w.after ⟨HartMask, HartMaskBase, StartAddr, Size, 0, 0, 4, SBI_RFNC_EXT⟩)) ∧
    (∀ HartMask HartMaskBase StartAddr Size Asid,
      w.answer ⟨HartMask, HartMaskBase, StartAddr, Size, Asid, 0, 5, SBI_RFNC_EXT⟩
        = some (e, v) →
      SbiRemoteHFenceVvmaAsid HartMask HartMaskBase StartAddr Size Asid w =
        TranslateError (toUINTN (toLong e))
          (w.after ⟨HartMask, HartMaskBase, StartAddr, Size, Asid, 0, 5, SBI_RFNC_EXT⟩)) ∧
    (∀ HartMask HartMaskBase StartAddr Size,
      w.answer ⟨HartMask, HartMaskBase, StartAddr, Size, 0, 0, 6, SBI_RFNC_EXT⟩ = some (e, v) →
      SbiRemoteHFenceVvma HartMask HartMaskBase StartAddr Size w =
        TranslateError (toUINTN (toLong e))
          (w.after ⟨HartMask, HartMaskBase, StartAddr, Size, 0, 0, 6, SBI_RFNC_EXT⟩)) ∧
    (∀ ExtensionId FunctionId NumArgs Args, NumArgs ≤ 6 →
      0x09000000 ≤ ExtensionId ∧ ExtensionId ≤ 0x09FFFFFF →
      w.answer (VendorTransition ExtensionId FunctionId NumArgs Args) = some (e, v) →
      SbiVendorCall ExtensionId FunctionId NumArgs Args w =
        TranslateError (toUINTN (toLong e))
          (w.after (VendorTransition ExtensionId FunctionId NumArgs Args))) ∧
    (∀ ExtensionId FunctionId NumArgs Args, NumArgs ≤ 6 →
      ¬ (0x09000000 ≤ ExtensionId ∧ ExtensionId ≤ 0x09FFFFFF) → w.AssertAborts = false →
      w.answer (VendorTransition ExtensionId FunctionId NumArgs Args) = some (e, v) →
      SbiVendorCall ExtensionId FunctionId NumArgs Args w =
        TranslateError (toUINTN (toLong e))
          ((w.violated .SbiVendorCall_ExtensionId).after
            (VendorTransition ExtensionId FunctionId NumArgs Args))) := by
  refine ⟨?_, ?_, ?_, ?_, ?_, ?_, ?_, ?_, ?_, ?_, ?_, ?_, ?_⟩
  · intro a b c h
    rw [SbiHartStart_eq]; exact callThenTranslate_of_answer _ w e v h
  · intro h
    rw [SbiHartStop_eq]; exact callThenTranslate_of_answer _ w e v h
  · intro a b h
    rw [SbiHartGetStatus_status]; exact callThenTranslate_of_answer _ w e v h
  · intro a b h
    rw [SbiSendIpi_eq]; exact callThenTranslate_of_answer _ w e v h
  · intro a b h
    rw [SbiRemoteFenceI_eq]; exact callThenTranslate_of_answer _ w e v h
  · intro a b c d h
    rw [SbiRemoteSfenceVma_eq]; exact callThenTranslate_of_answer _ w e v h
  · intro a b c d x h
    rw [SbiRemoteSfenceVmaAsid_eq]; exact callThenTranslate_of_answer _ w e v h
  · intro a b c d x h
    rw [SbiRemoteHFenceGvmaVmid_eq]; exact callThenTranslate_of_answer _ w e v h
  · intro a b c d h
    rw [SbiRemoteHFenceGvma_eq]; exact callThenTranslate_of_answer _ w e v h
  · intro a b c d x h
    rw [SbiRemoteHFenceVvmaAsid_eq]; exact callThenTranslate_of_answer _ w e v h
  · intro a b c d h
    rw [SbiRemoteHFenceVvma_eq]; exact callThenTranslate_of_answer _ w e v h
  · intro E F n Args hn hr h
    rw [SbiVendorCall_in_range E F n Args w hr.1 hr.2, if_pos hn]
    exact callThenTranslate_of_answer _ w e v h
  · intro E F n Args hn hr ha h
    rw [SbiVendorCall_out_of_range E F n Args w hr, ha, if_pos hn]
    exact callThenTranslate_of_answer _ (w.violated .SbiVendorCall_ExtensionId) e v h

/-- Witness of C3: the lower layer answers `SBI_ERR_INVALID_PARAM` with value word `7` to a
hart start, and `SbiHartStart` returns `EFI_INVALID_PARAMETER`; it answers the same to the
transition of a vendor call with the arguments `11, 12, 13`, which commits `13, 12, 11`,
and `SbiVendorCall` returns `TranslateError` of that error word. -/
theorem status_is_TranslateError_of_error_witness :
    (startWorld (2 ^ 64 - 3) 7 false).answer
        ⟨1, 2, 3, 0, 0, 0, SBI_HART_START_FUNC, SBI_HSM_EXT⟩ = some (2 ^ 64 - 3, 7) ∧
    SbiHartStart 1 2 3 (startWorld (2 ^ 64 - 3) 7 false) =
      TranslateError (toUINTN (toLong (2 ^ 64 - 3)))
        ((startWorld (2 ^ 64 - 3) 7 false).after
          ⟨1, 2, 3, 0, 0, 0, SBI_HART_START_FUNC, SBI_HSM_EXT⟩) ∧
    TranslateError (toUINTN (toLong (2 ^ 64 - 3)))
        ((startWorld (2 ^ 64 - 3) 7 false).after
          ⟨1, 2, 3, 0, 0, 0, SBI_HART_START_FUNC, SBI_HSM_EXT⟩) =
      .ret EFI_INVALID_PARAMETER ((startWorld (2 ^ 64 - 3) 7 false).after
          ⟨1, 2, 3, 0, 0, 0, SBI_HART_START_FUNC, SBI_HSM_EXT⟩) ∧
    (3 ≤ 6 ∧ 0x09000000 ≤ 0x09000001 ∧ 0x09000001 ≤ 0x09FFFFFF) ∧
    VendorTransition 0x09000001 4 3 [11, 12, 13] = ⟨13, 12, 11, 0, 0, 0, 4, 0x09000001⟩ ∧
    SbiVendorCall 0x09000001 4 3 [11, 12, 13] (startWorld (2 ^ 64 - 3) 7 false) =
      TranslateError (toUINTN (toLong (2 ^ 64 - 3)))
        ((startWorld (2 ^ 64 - 3) 7 false).after ⟨13, 12, 11, 0, 0, 0, 4, 0x09000001⟩) :=
  ⟨rfl,
    (status_is_TranslateError_of_error (startWorld (2 ^ 64 - 3) 7 false) (2 ^ 64 - 3) 7).1
      1 2 3 rfl,
    rfl, by decide, rfl,
    (status_is_TranslateError_of_error (startWorld (2 ^ 64 - 3) 7 false)
      (2 ^ 64 - 3) 7).2.2.2.2.2.2.2.2.2.2.2.1
      0x09000001 4 3 [11, 12, 13] (by decide) (by decide) rfl⟩

/-- C4, as amended: modelling the call primitive as an operation that appends to the trace
of transitions, every wrapper of the Base, Timer, IPI, Remote-Fence, HSM and
Firmware-Scratch groups appends exactly one transition per invocation, whatever the lower
layer answers (also when it does not return); `SbiVendorCall` with `NumArgs ≤ 6` appends
exactly one when its extension id is in the vendor range or assertions do not abort, and
none when the range assertion aborts the call. -/
theorem one_transition_per_invocation (w : World) :
    (∀ x, (SbiGetSpecVersion x w).world.trace =
      w.trace ++ [⟨0, 0, 0, 0, 0, 0, SBI_GET_SPEC_VERSION_FUNC, SBI_BASE_EXT⟩]) ∧
    (∀ x, (SbiGetImplId x w).world.trace =
      w.trace ++ [⟨0, 0, 0, 0, 0, 0, SBI_GET_IMPL_ID_FUNC, SBI_BASE_EXT⟩]) ∧
    (∀ x, (SbiGetImplVersion x w).world.trace =
      w.trace ++ [⟨0, 0, 0, 0, 0, 0, SBI_GET_IMPL_VERSION_FUNC, SBI_BASE_EXT⟩]) ∧
    (∀ ExtensionId x, (SbiProbeExtension ExtensionId x w).world.trace =
      w.trace ++ [⟨0, 0, 0, 0, 0, 0, SBI_PROBE_EXTENSION_FUNC, SBI_BASE_EXT⟩]) ∧
    (∀ x, (SbiGetMvendorId x w).world.trace =
      w.trace ++ [⟨0, 0, 0, 0, 0, 0, SBI_GET_MVENDORID_FUNC, SBI_BASE_EXT⟩]) ∧
    (∀ x, (SbiGetMarchId x w).world.trace =
      w.trace ++ [⟨0, 0, 0, 0, 0, 0, SBI_GET_MARCHID_FUNC, SBI_BASE_EXT⟩]) ∧
    (∀ x, (SbiGetMimpId x w).world.trace =
      w.trace ++ [⟨0, 0, 0, 0, 0, 0, SBI_GET_MIMPID_FUNC, SBI_BASE_EXT⟩]) ∧
    (∀ StimeValue, (SbiSetTimer StimeValue w).world.trace =
      w.trace ++ [⟨StimeValue, 0, 0, 0, 0, 0, 0, SBI_TIME_EXT⟩]) ∧
    (∀ HartMask HartMaskBase, (SbiSendIpi HartMask HartMaskBase w).world.trace =
      w.trace ++ [⟨HartMask, HartMaskBase, 0, 0, 0, 0, 0, SBI_IPI_EXT⟩]) ∧
    (∀ HartMask HartMaskBase, (SbiRemoteFenceI HartMask HartMaskBase w).world.trace =
      w.trace ++ [⟨HartMask, HartMaskBase, 0, 0, 0, 0, 0, SBI_RFNC_EXT⟩]) ∧
    (∀ HartMask HartMaskBase StartAddr Size,
      (SbiRemoteSfenceVma HartMask HartMaskBase StartAddr Size w).world.trace =
        w.trace ++ [⟨HartMask, HartMaskBase, StartAddr, Size, 0, 0, 1, SBI_RFNC_EXT⟩]) ∧
    (∀ HartMask HartMaskBase StartAddr Size Asid,
      (SbiRemoteSfenceVmaAsid HartMask HartMaskBase StartAddr Size Asid w).world.trace =
        w.trace ++ [⟨HartMask, HartMaskBase, StartAddr, Size, Asid, 0, 2, SBI_RFNC_EXT⟩]) ∧
    (∀ HartMask HartMaskBase StartAddr Size Vmid,
      (SbiRemoteHFenceGvmaVmid HartMask HartMaskBase StartAddr Size Vmid w).world.trace =
        w.trace ++ [⟨HartMask, HartMaskBase, StartAddr, Size, Vmid, 0, 3, SBI_RFNC_EXT⟩]) ∧
    (∀ HartMask HartMaskBase StartAddr Size,
      (SbiRemoteHFenceGvma HartMask HartMaskBase StartAddr Size w).world.trace =
        w.trace ++ [⟨HartMask, HartMaskBase, StartAddr, Size, 0, 0, 4, SBI_RFNC_EXT⟩]) ∧
    (∀ HartMask HartMaskBase StartAddr Size Asid,
      (SbiRemoteHFenceVvmaAsid HartMask HartMaskBase StartAddr Size Asid w).world.trace =
        w.trace ++ [⟨HartMask, HartMaskBase, StartAddr, Size, Asid, 0, 5, SBI_RFNC_EXT⟩]) ∧
    (∀ HartMask HartMaskBase StartAddr Size,
      (SbiRemoteHFenceVvma HartMask HartMaskBase StartAddr Size w).world.trace =
        w.trace ++ [⟨HartMask, HartMaskBase, StartAddr, Size, 0, 0, 6, SBI_RFNC_EXT⟩]) ∧
    (∀ HartId StartAddr Priv, (SbiHartStart HartId StartAddr Priv w).world.trace =
      w.trace ++ [⟨HartId, StartAddr, Priv, 0, 0, 0, SBI_HART_START_FUNC, SBI_HSM_EXT⟩]) ∧
    ((SbiHartStop w).world.trace =
      w.trace ++ [⟨0, 0, 0, 0, 0, 0, SBI_HART_STOP_FUNC, SBI_HSM_EXT⟩]) ∧
    (∀ HartId x, (SbiHartGetStatus HartId x w).world.trace =
      w.trace ++ [⟨HartId, 0, 0, 0, 0, 0, SBI_HART_GET_STATUS_FUNC, SBI_HSM_EXT⟩]) ∧
    (∀ x, (SbiGetMscratch x w).world.trace =
      w.trace ++ [⟨0, 0, 0, 0, 0, 0, SBI_EXT_FW_MSCRATCH_FUNC, SBI_FW_EXT⟩]) ∧
    (∀ HartId x, (SbiGetMscratchHartid HartId x w).world.trace =
      w.trace ++ [⟨HartId, 0, 0, 0, 0, 0, SBI_EXT_FW_MSCRATCH_HARTID_FUNC, SBI_FW_EXT⟩]) ∧
    (∀ x, (SbiGetFirmwareContext x w).world.trace =
      w.trace ++ [⟨0, 0, 0, 0, 0, 0, SBI_EXT_FW_MSCRATCH_FUNC, SBI_FW_EXT⟩]) ∧
    (∀ FirmwareContext, (SbiSetFirmwareContext FirmwareContext w).world.trace =
      w.trace ++ [⟨0, 0, 0, 0, 0, 0, SBI_EXT_FW_MSCRATCH_FUNC, SBI_FW_EXT⟩]) ∧
    (∀ ExtensionId FunctionId NumArgs Args, NumArgs ≤ 6 →
      (0x09000000 ≤ ExtensionId ∧ ExtensionId ≤ 0x09FFFFFF) ∨ w.AssertAborts = false →
      (SbiVendorCall ExtensionId FunctionId NumArgs Args w).world.trace =
        w.trace ++ [VendorTransition ExtensionId FunctionId NumArgs Args]) ∧
    (∀ ExtensionId FunctionId NumArgs Args,
      ¬ (0x09000000 ≤ ExtensionId ∧ ExtensionId ≤ 0x09FFFFFF) → w.AssertAborts = true →
      (SbiVendorCall ExtensionId FunctionId NumArgs Args w).world.trace = w.trace) := by
  refine ⟨fun x => SbiGetSpecVersion_trace x w, fun x => SbiGetImplId_trace x w,
    fun x => SbiGetImplVersion_trace x w, fun E x => SbiProbeExtension_trace E x w,
    fun x => SbiGetMvendorId_trace x w, fun x => SbiGetMarchId_trace x w,
    fun x => SbiGetMimpId_trace x w, fun x => SbiSetTimer_trace x w,
    ?_, ?_, ?_, ?_, ?_, ?_, ?_, ?_, ?_, ?_,
    fun h x => SbiHartGetStatus_trace h x w, fun x => SbiGetMscratch_trace x w,
    fun h x => SbiGetMscratchHartid_trace h x w, fun x => SbiGetFirmwareContext_trace x w,
    fun x => SbiSetFirmwareContext_trace x w, ?_, ?_⟩
  · intro a b; rw [SbiSendIpi_eq]; exact callThenTranslate_trace _ w
  · intro a b; rw [SbiRemoteFenceI_eq]; exact callThenTranslate_trace _ w
  · intro a b c d; rw [SbiRemoteSfenceVma_eq]; exact callThenTranslate_trace _ w
  · intro a b c d x; rw [SbiRemoteSfenceVmaAsid_eq]; exact callThenTranslate_trace _ w
  · intro a b c d x; rw [SbiRemoteHFenceGvmaVmid_eq]; exact callThenTranslate_trace _ w
  · intro a b c d; rw [SbiRemoteHFenceGvma_eq]; exact callThenTranslate_trace _ w
  · intro a b c d x; rw [SbiRemoteHFenceVvmaAsid_eq]; exact callThenTranslate_trace _ w
  · intro a b c d; rw [SbiRemoteHFenceVvma_eq]; exact callThenTranslate_trace _ w
  · intro a b c; rw [SbiHartStart_eq]; exact callThenTranslate_trace _ w
  · rw [SbiHartStop_eq]; exact callThenTranslate_trace _ w
  · intro E F n Args hn h
    by_cases hr : 0x09000000 ≤ E ∧ E ≤ 0x09FFFFFF
    · rw [SbiVendorCall_in_range E F n Args w hr.1 hr.2, if_pos hn]
      exact callThenTranslate_trace _ w
    · have ha : w.AssertAborts = false := h.resolve_left hr
      rw [SbiVendorCall_out_of_range E F n Args w hr, ha, if_pos hn]
      exact callThenTranslate_trace _ (w.violated .SbiVendorCall_ExtensionId)
  · intro E F n Args hr ha
    rw [SbiVendorCall_out_of_range E F n Args w hr, ha]
    rfl

/-- Witness of C4: a vendor call with the two arguments `11, 12` and an extension id in the
vendor range appends one transition, the one that carries them (`12` in slot `a0` and
`11` in slot `a1`). -/
theorem one_transition_per_invocation_witness :
    (2 : Nat) ≤ 6 ∧
    ((0x09000000 ≤ 0x09000000 ∧ 0x09000000 ≤ 0x09FFFFFF) ∨
      (startWorld 0 0 true).AssertAborts = false) ∧
    (SbiVendorCall 0x09000000 5 2 [11, 12] (startWorld 0 0 true)).world.trace =
      (startWorld 0 0 true).trace ++ [⟨12, 11, 0, 0, 0, 0, 5, 0x09000000⟩] :=
  ⟨by decide, Or.inl (by decide),
    (one_transition_per_invocation (startWorld 0 0 true)).2.2.2.2.2.2.2.2.2.2.2.2.2.2.2.2.2.2.2.2.2.2.2.1
      0x09000000 5 2 [11, 12] (by decide) (Or.inl (by decide))⟩

/-- Counterexample to C4 as stated: with assertions that abort, `SbiVendorCall` with the
extension id `0x08FFFFFF` and `NumArgs = 0` halts at its range assertion and appends no
transition at all. -/
theorem vendor_call_without_transition :
    SbiVendorCall 0x08FFFFFF 0 0 [] (startWorld 0 0 true) =
      .halt .assertFailed ((startWorld 0 0 true).violated .SbiVendorCall_ExtensionId) ∧
    (SbiVendorCall 0x08FFFFFF 0 0 [] (startWorld 0 0 true)).world.trace = [] ∧
    ¬ ∃ t, (SbiVendorCall 0x08FFFFFF 0 0 [] (startWorld 0 0 true)).world.trace =
      (startWorld 0 0 true).trace ++ [t] :=
  ⟨rfl, rfl, fun ⟨_, h⟩ => by
    have h2 : ([] : List Transition) = [] ++ [_] := h
    simp at h2⟩

/-- C5: for every extension id in `[0x09000000, 0x09FFFFFF]`, every function id and every
`NumArgs` greater than 6, `SbiVendorCall` returns `EFI_INVALID_PARAMETER` in the unchanged
world: no transition is performed and no violation is recorded. -/
theorem SbiVendorCall_too_many_args (w : World) (ExtensionId FunctionId NumArgs : Nat)
    (Args : VA_LIST) (hlo : 0x09000000 ≤ ExtensionId) (hhi : ExtensionId ≤ 0x09FFFFFF)
    (hn : 6 < NumArgs) :
    SbiVendorCall ExtensionId FunctionId NumArgs Args w = .ret EFI_INVALID_PARAMETER w ∧
    (SbiVendorCall ExtensionId FunctionId NumArgs Args w).world.trace = w.trace := by
  have h := SbiVendorCall_in_range ExtensionId FunctionId NumArgs Args w hlo hhi
  rw [if_neg (by omega)] at h
  rw [h]
  exact ⟨rfl, rfl⟩

/-- Witness of C5 at `NumArgs = 7` with seven arguments passed. -/
theorem SbiVendorCall_too_many_args_witness :
    (0x09000000 ≤ 0x09000000) ∧ (0x09000000 ≤ 0x09FFFFFF) ∧ (6 < 7) ∧
    SbiVendorCall 0x09000000 0 7 [1, 2, 3, 4, 5, 6, 7] (startWorld 0 0 true) =
      .ret EFI_INVALID_PARAMETER (startWorld 0 0 true) :=
  ⟨by decide, by decide, by decide,
    (SbiVendorCall_too_many_args (startWorld 0 0 true) 0x09000000 0 7 [1, 2, 3, 4, 5, 6, 7]
      (by decide) (by decide) (by decide)).1⟩

/-- C6: the range assertion of `SbiVendorCall` holds (no violation of it is recorded) if
and only if `0x09000000 ≤ ExtensionId ≤ 0x09FFFFFF`, and it fails exactly once otherwise,
for every function id, `NumArgs` and argument list; it fails for `0x08FFFFFF` and
`0x0A000000` and holds for `0x09000000` and `0x09FFFFFF`. -/
theorem SbiVendorCall_range_assertion (w : World) (FunctionId NumArgs : Nat) (Args : VA_LIST) :
    (∀ ExtensionId,
      ((SbiVendorCall ExtensionId FunctionId NumArgs Args w).world.violations.count
          .SbiVendorCall_ExtensionId = w.violations.count .SbiVendorCall_ExtensionId ↔
        (0x09000000 ≤ ExtensionId ∧ ExtensionId ≤ 0x09FFFFFF)) ∧
      ((SbiVendorCall ExtensionId FunctionId NumArgs Args w).world.violations.count
          .SbiVendorCall_ExtensionId = w.violations.count .SbiVendorCall_ExtensionId + 1 ↔
        ¬ (0x09000000 ≤ ExtensionId ∧ ExtensionId ≤ 0x09FFFFFF))) ∧
    (SbiVendorCall 0x08FFFFFF FunctionId NumArgs Args w).world.violations.count
      .SbiVendorCall_ExtensionId = w.violations.count .SbiVendorCall_ExtensionId + 1 ∧
    (SbiVendorCall 0x0A000000 FunctionId NumArgs Args w).world.violations.count
      .SbiVendorCall_ExtensionId = w.violations.count .SbiVendorCall_ExtensionId + 1 ∧
    (SbiVendorCall 0x09000000 FunctionId NumArgs Args w).world.violations.count
      .SbiVendorCall_ExtensionId = w.violations.count .SbiVendorCall_ExtensionId ∧
    (SbiVendorCall 0x09FFFFFF FunctionId NumArgs Args w).world.violations.count
      .SbiVendorCall_ExtensionId = w.violations.count .SbiVendorCall_ExtensionId := by
  have hin : ∀ E, (0x09000000 ≤ E ∧ E ≤ 0x09FFFFFF) →
      (SbiVendorCall E FunctionId NumArgs Args w).world.violations.count
        .SbiVendorCall_ExtensionId = w.violations.count .SbiVendorCall_ExtensionId := by
    intro E hr
    rw [SbiVendorCall_in_range E FunctionId NumArgs Args w hr.1 hr.2]
    split
    · exact callThenTranslate_vendor_violations _ w
    · rfl
  have hout : ∀ E, ¬ (0x09000000 ≤ E ∧ E ≤ 0x09FFFFFF) →
      (SbiVendorCall E FunctionId NumArgs Args w).world.violations.count
        .SbiVendorCall_ExtensionId = w.violations.count .SbiVendorCall_ExtensionId + 1 := by
    intro E hr
    have hv : (w.violated .SbiVendorCall_ExtensionId).violations.count
        .SbiVendorCall_ExtensionId = w.violations.count .SbiVendorCall_ExtensionId + 1 := by
      simp [World.violated]
    rw [SbiVendorCall_out_of_range E FunctionId NumArgs Args w hr]
    split
    · exact hv
    · split
      · rw [callThenTranslate_vendor_violations]
        exact hv
      · exact hv
  refine ⟨fun E => ⟨⟨fun h => ?_, hin E⟩, ⟨fun h => ?_, hout E⟩⟩,
    hout _ (by omega), hout _ (by omega), hin _ (by omega), hin _ (by omega)⟩
  · by_contra hr
    have := hout E hr
    omega
  · intro hr
    have := hin E hr
    omega

/-- C7, what the code does: `SbiVendorCall` commits the variadic arguments in reversed order.
For every `NumArgs` in `0 .. 6`, every in-range extension id and every argument list that
passes at least `NumArgs` arguments, the call performs one transition `t` whose extension
id is `ExtensionId`, whose function id is `FunctionId`, whose slots `NumArgs .. 5` hold
zero and whose slot `i` holds argument `NumArgs - 1 - i` for every `i < NumArgs`, where
C7 has argument `i`; it returns `TranslateError` of the error word the lower layer answers
to `t`, and it does not return when the lower layer does not. -/
theorem SbiVendorCall_reverses_arguments (w : World) (ExtensionId FunctionId NumArgs : Nat)
    (Args : VA_LIST) (hlo : 0x09000000 ≤ ExtensionId) (hhi : ExtensionId ≤ 0x09FFFFFF)
    (hn : NumArgs ≤ 6) (hlen : NumArgs ≤ Args.length) :
    ∃ t : Transition,
      t.a7 = ExtensionId ∧ t.a6 = FunctionId ∧
      (∀ i, i < NumArgs → Args[NumArgs - 1 - i]? = some (t.arg i)) ∧
      (∀ i, NumArgs ≤ i → i < 6 → t.arg i = 0) ∧
      (SbiVendorCall ExtensionId FunctionId NumArgs Args w).world.trace = w.trace ++ [t] ∧
      (∀ e v, w.answer t = some (e, v) →
        SbiVendorCall ExtensionId FunctionId NumArgs Args w =
          TranslateError (toUINTN (toLong e)) (w.after t)) ∧
      (w.answer t = none →
        SbiVendorCall ExtensionId FunctionId NumArgs Args w = .halt .noReturn (w.after t)) := by
  have hrun := SbiVendorCall_in_range ExtensionId FunctionId NumArgs Args w hlo hhi
  rw [if_pos hn] at hrun
  refine ⟨VendorTransition ExtensionId FunctionId NumArgs Args, rfl, rfl, ?_, ?_, ?_, ?_, ?_⟩
  · intro i hi
    have hb : NumArgs - 1 - i < Args.length := by omega
    rw [VendorTransition_arg, if_pos ⟨hi, by omega⟩, List.getElem?_eq_getElem hb,
      List.getD_eq_getElem Args 0 hb]
  · intro i hi _
    rw [VendorTransition_arg, if_neg (by omega)]
  · rw [hrun]; exact callThenTranslate_trace _ w
  · intro e v h
    rw [hrun]; exact callThenTranslate_of_answer _ w e v h
  · intro h
    rw [hrun]; exact callThenTranslate_of_noReturn _ w h

/-- The failing input of C7: the vendor call with the three arguments `11, 12, 13` performs
the transition whose slots `a0, a1, a2` hold `13, 12, 11`. -/
theorem SbiVendorCall_reverses_arguments_witness :
    (0x09000000 ≤ 0x09000001) ∧ (0x09000001 ≤ 0x09FFFFFF) ∧ (3 ≤ 6) ∧
    (3 ≤ [11, 12, 13].length) ∧
    (∃ t : Transition,
      t.a7 = 0x09000001 ∧ t.a6 = 4 ∧
      (∀ i, i < 3 → [11, 12, 13][3 - 1 - i]? = some (t.arg i)) ∧
      (∀ i, 3 ≤ i → i < 6 → t.arg i = 0) ∧
      (SbiVendorCall 0x09000001 4 3 [11, 12, 13] (startWorld 0 0 true)).world.trace =
        (startWorld 0 0 true).trace ++ [t] ∧
      (∀ e v, (startWorld 0 0 true).answer t = some (e, v) →
        SbiVendorCall 0x09000001 4 3 [11, 12, 13] (startWorld 0 0 true) =
          TranslateError (toUINTN (toLong e)) ((startWorld 0 0 true).after t)) ∧
      ((startWorld 0 0 true).answer t = none →
        SbiVendorCall 0x09000001 4 3 [11, 12, 13] (startWorld 0 0 true) =
          .halt .noReturn ((startWorld 0 0 true).after t))) ∧
    (SbiVendorCall 0x09000001 4 3 [11, 12, 13] (startWorld 0 0 true)).world.trace =
      [⟨13, 12, 11, 0, 0, 0, 4, 0x09000001⟩] :=
  ⟨by decide, by decide, by decide, by decide,
    SbiVendorCall_reverses_arguments (startWorld 0 0 true) 0x09000001 4 3 [11, 12, 13]
      (by decide) (by decide) (by decide) (by decide),
    rfl⟩

/-- C8, what the code does: `SbiProbeExtension` calls `sbi_call_0`, so slot `a0` of its
probe transition is `0` whatever `ExtensionId` is and its run does not depend on
`ExtensionId`.  With a lower layer in which exactly the HSM extension is present (answer
`1` for that id), probing `SBI_HSM_EXT` stores `0`. -/
theorem SbiProbeExtension_drops_ExtensionId :
    (∀ (w : World) (ExtensionId Other ProbeResult : Int),
      SbiProbeExtension ExtensionId ProbeResult w = SbiProbeExtension Other ProbeResult w) ∧
    (∀ (w : World) (ExtensionId ProbeResult : Int),
      (SbiProbeExtension ExtensionId ProbeResult w).world.trace =
        w.trace ++ [⟨0, 0, 0, 0, 0, 0, SBI_PROBE_EXTENSION_FUNC, SBI_BASE_EXT⟩]) ∧
    hsmOnlyFirmware [] zeroHeap
      ⟨SBI_HSM_EXT, 0, 0, 0, 0, 0, SBI_PROBE_EXTENSION_FUNC, SBI_BASE_EXT⟩ = some (0, 1) ∧
    SbiProbeExtension (SBI_HSM_EXT : Nat) 5 ⟨hsmOnlyFirmware, false, [], zeroHeap, []⟩ =
      .ret 0 ⟨hsmOnlyFirmware, false,
        [⟨0, 0, 0, 0, 0, 0, SBI_PROBE_EXTENSION_FUNC, SBI_BASE_EXT⟩], zeroHeap, []⟩ :=
  ⟨fun _ _ _ _ => rfl, fun w E p => SbiProbeExtension_trace E p w, rfl, rfl⟩

/-- C9, what the code does: when the lower layer returns control to `SbiHartStop` with the
error word `0`, `SbiHartStop` returns `EFI_SUCCESS`, which is no failure status, although
the header of the function says of `EFI_SUCCESS` that it never occurs. -/
theorem SbiHartStop_returns_success :
    (startWorld 0 0 false).answer ⟨0, 0, 0, 0, 0, 0, SBI_HART_STOP_FUNC, SBI_HSM_EXT⟩ =
      some (0, 0) ∧
    SbiHartStop (startWorld 0 0 false) =
      .ret EFI_SUCCESS
        ((startWorld 0 0 false).after ⟨0, 0, 0, 0, 0, 0, SBI_HART_STOP_FUNC, SBI_HSM_EXT⟩) ∧
    EFI_ERROR EFI_SUCCESS = false :=
  ⟨rfl, rfl, by decide⟩

/-- The status of `SbiHartStop` by the error word: `EFI_SUCCESS` when the lower layer
returns control with the error word `0`; for every result `(e, v)` with a nonzero error
word every status `SbiHartStop` returns is a failure status, and it does return one when
assertions do not abort. -/
theorem SbiHartStop_failure_on_nonzero_error (w : World) (e v : Nat)
    (h : w.answer ⟨0, 0, 0, 0, 0, 0, SBI_HART_STOP_FUNC, SBI_HSM_EXT⟩ = some (e, v)) :
    (e % 2 ^ XLEN = 0 →
      SbiHartStop w =
        .ret EFI_SUCCESS (w.after ⟨0, 0, 0, 0, 0, 0, SBI_HART_STOP_FUNC, SBI_HSM_EXT⟩)) ∧
    (e % 2 ^ XLEN ≠ 0 →
      (∀ Status w1, SbiHartStop w = .ret Status w1 → EFI_ERROR Status = true) ∧
      (w.AssertAborts = false →
        ∃ Status w1, SbiHartStop w = .ret Status w1 ∧ EFI_ERROR Status = true)) := by
  have hrun : SbiHartStop w = TranslateError (e % 2 ^ XLEN)
      (w.after ⟨0, 0, 0, 0, 0, 0, SBI_HART_STOP_FUNC, SBI_HSM_EXT⟩) := by
    rw [SbiHartStop_eq, callThenTranslate_of_answer _ w e v h, toUINTN_toLong]
  constructor
  · intro he
    rw [hrun, he]
    exact (TranslateError_known_run _).1
  · intro he
    constructor
    · intro Status w1 hret
      rw [hrun] at hret
      exact TranslateError_failure _ _ he Status w1 hret
    · intro ha
      obtain ⟨Status, w1, hs⟩ := TranslateError_returns (e % 2 ^ XLEN)
        (w.after ⟨0, 0, 0, 0, 0, 0, SBI_HART_STOP_FUNC, SBI_HSM_EXT⟩) ha
      refine ⟨Status, w1, by rw [hrun]; exact hs, ?_⟩
      exact TranslateError_failure _ _ he Status w1 hs

/-- The lower layer returns control to `SbiHartStop` with `SBI_ERR_FAILED`. -/
theorem SbiHartStop_failure_on_nonzero_error_witness :
    (startWorld (2 ^ 64 - 1) 0 false).answer
        ⟨0, 0, 0, 0, 0, 0, SBI_HART_STOP_FUNC, SBI_HSM_EXT⟩ = some (2 ^ 64 - 1, 0) ∧
    (2 ^ 64 - 1) % 2 ^ XLEN ≠ 0 ∧
    ∃ Status w1, SbiHartStop (startWorld (2 ^ 64 - 1) 0 false) = .ret Status w1 ∧
      EFI_ERROR Status = true :=
  ⟨rfl, by decide,
    ((SbiHartStop_failure_on_nonzero_error (startWorld (2 ^ 64 - 1) 0 false) (2 ^ 64 - 1) 0
      rfl).2 (by decide)).2 rfl⟩

/-- C10: for every `HartId`, `StartAddr` and `Priv`, `SbiHartStart` performs the transition
(HSM extension, hart-start function) with `HartId`, `StartAddr`, `Priv` unmodified in
slots 0, 1, 2 and zero in slots 3 .. 5, and it returns `EFI_ALREADY_STARTED` when the lower
layer reports `SBI_ERR_ALREADY_AVAILABLE`, `EFI_INVALID_PARAMETER` when it reports
`SBI_ERR_INVALID_PARAM`, `EFI_LOAD_ERROR` when it reports `SBI_ERR_INVALID_ADDRESS` and
`EFI_SUCCESS` when it reports `SBI_SUCCESS`. -/
theorem SbiHartStart_transition_and_status (w : World) (HartId StartAddr Priv e v : Nat)
    (h : w.answer ⟨HartId, StartAddr, Priv, 0, 0, 0, SBI_HART_START_FUNC, SBI_HSM_EXT⟩ =
      some (e, v)) :
    (SbiHartStart HartId StartAddr Priv w).world.trace =
      w.trace ++ [⟨HartId, StartAddr, Priv, 0, 0, 0, SBI_HART_START_FUNC, SBI_HSM_EXT⟩] ∧
    (toLong e = SBI_ERR_ALREADY_AVAILABLE →
      SbiHartStart HartId StartAddr Priv w = .ret EFI_ALREADY_STARTED
        (w.after ⟨HartId, StartAddr, Priv, 0, 0, 0, SBI_HART_START_FUNC, SBI_HSM_EXT⟩)) ∧
    (toLong e = SBI_ERR_INVALID_PARAM →
      SbiHartStart HartId StartAddr Priv w = .ret EFI_INVALID_PARAMETER
        (w.after ⟨HartId, StartAddr, Priv, 0, 0, 0, SBI_HART_START_FUNC, SBI_HSM_EXT⟩)) ∧
    (toLong e = SBI_ERR_INVALID_ADDRESS →
      SbiHartStart HartId StartAddr Priv w = .ret EFI_LOAD_ERROR
        (w.after ⟨HartId, StartAddr, Priv, 0, 0, 0, SBI_HART_START_FUNC, SBI_HSM_EXT⟩)) ∧
    (toLong e = SBI_SUCCESS →
      SbiHartStart HartId StartAddr Priv w = .ret EFI_SUCCESS
        (w.after ⟨HartId, StartAddr, Priv, 0, 0, 0, SBI_HART_START_FUNC, SBI_HSM_EXT⟩)) := by
  have hrun : SbiHartStart HartId StartAddr Priv w = TranslateError (toUINTN (toLong e))
      (w.after ⟨HartId, StartAddr, Priv, 0, 0, 0, SBI_HART_START_FUNC, SBI_HSM_EXT⟩) := by
    rw [SbiHartStart_eq]; exact callThenTranslate_of_answer _ w e v h
  refine ⟨?_, ?_, ?_, ?_, ?_⟩
  · rw [SbiHartStart_eq]; exact callThenTranslate_trace _ w
  · intro hc; rw [hrun, hc]; exact (TranslateError_known_run _).2.2.2.2.2.2
  · intro hc; rw [hrun, hc]; exact (TranslateError_known_run _).2.2.2.1
  · intro hc; rw [hrun, hc]; exact (TranslateError_known_run _).2.2.2.2.2.1
  · intro hc; rw [hrun, hc]; exact (TranslateError_known_run _).1

/-- Witness of C10: starting hart `1` when the lower layer reports that it already runs
(`SBI_ERR_ALREADY_AVAILABLE`, the word `2 ^ 64 - 6`). -/
theorem SbiHartStart_transition_and_status_witness :
    (startWorld (2 ^ 64 - 6) 0 true).answer
        ⟨1, 0x80200000, 9, 0, 0, 0, SBI_HART_START_FUNC, SBI_HSM_EXT⟩ =
      some (2 ^ 64 - 6, 0) ∧
    toLong (2 ^ 64 - 6) = SBI_ERR_ALREADY_AVAILABLE ∧
    SbiHartStart 1 0x80200000 9 (startWorld (2 ^ 64 - 6) 0 true) =
      .ret EFI_ALREADY_STARTED ((startWorld (2 ^ 64 - 6) 0 true).after
        ⟨1, 0x80200000, 9, 0, 0, 0, SBI_HART_START_FUNC, SBI_HSM_EXT⟩) :=
  ⟨rfl, by decide,
    (SbiHartStart_transition_and_status (startWorld (2 ^ 64 - 6) 0 true) 1 0x80200000 9
      (2 ^ 64 - 6) 0 rfl).2.1 (by decide)⟩

/-- C11, what the code does: for every `HartId`, when the lower layer answers `(e, v)` to
the status query and the error word is `0`, `SbiHartGetStatus` returns `EFI_SUCCESS` and
stores `ret.value`, which is the `arg1 = 0` of its `sbi_call_1`, in `HartStatus`, whatever
the value word `v` is; if the error word is nonzero it returns `TranslateError` of the error
word (`EFI_INVALID_PARAMETER` for `SBI_ERR_INVALID_PARAM`, an unknown hart id) and the
content of `HartStatus` is the one the caller had. -/
theorem SbiHartGetStatus_stores_arg1 (w : World) (HartId HartStatus e v : Nat)
    (h : w.answer ⟨HartId, 0, 0, 0, 0, 0, SBI_HART_GET_STATUS_FUNC, SBI_HSM_EXT⟩ = some (e, v)) :
    (toLong e = 0 →
      SbiHartGetStatus HartId HartStatus w = .ret (EFI_SUCCESS, 0)
        (w.after ⟨HartId, 0, 0, 0, 0, 0, SBI_HART_GET_STATUS_FUNC, SBI_HSM_EXT⟩)) ∧
    (toLong e ≠ 0 →
      SbiHartGetStatus HartId HartStatus w =
        (TranslateError (toUINTN (toLong e))
          (w.after ⟨HartId, 0, 0, 0, 0, 0, SBI_HART_GET_STATUS_FUNC, SBI_HSM_EXT⟩)).map
          (fun Status => (Status, HartStatus))) ∧
    (toLong e = SBI_ERR_INVALID_PARAM →
      SbiHartGetStatus HartId HartStatus w = .ret (EFI_INVALID_PARAMETER, HartStatus)
        (w.after ⟨HartId, 0, 0, 0, 0, 0, SBI_HART_GET_STATUS_FUNC, SBI_HSM_EXT⟩)) := by
  have hrun := SbiHartGetStatus_run HartId HartStatus w e v h
  refine ⟨?_, ?_, ?_⟩
  · intro he
    rw [hrun, he, if_pos rfl]
    rfl
  · intro he
    rw [hrun, if_neg he]
  · intro he
    rw [hrun, he, if_neg (by decide), (TranslateError_known_run _).2.2.2.1]
    rfl

/-- The failing input of C11: the lower layer answers error `0` and the status `1`
(stopped) for hart `3`; `SbiHartGetStatus` stores `0` (started). -/
theorem SbiHartGetStatus_stores_arg1_witness :
    (startWorld 0 1 true).answer
        ⟨3, 0, 0, 0, 0, 0, SBI_HART_GET_STATUS_FUNC, SBI_HSM_EXT⟩ = some (0, 1) ∧
    toLong 0 = 0 ∧
    SbiHartGetStatus 3 77 (startWorld 0 1 true) = .ret (EFI_SUCCESS, 0)
      ((startWorld 0 1 true).after ⟨3, 0, 0, 0, 0, 0, SBI_HART_GET_STATUS_FUNC, SBI_HSM_EXT⟩) :=
  ⟨rfl, by decide,
    (SbiHartGetStatus_stores_arg1 (startWorld 0 1 true) 3 77 0 1 rfl).1 (by decide)⟩

/-- Counterexample to C12 as stated: the lower layer answers the scratch query with error
`0` and the scratch pointer `0x1000`, and nothing is mapped where the two firmware-context
functions dereference; both fault behind the transition and return no status at all. -/
theorem firmware_context_access_faults :
    (worldOver emptyHeap 0 0x1000).answer
        ⟨0, 0, 0, 0, 0, 0, SBI_EXT_FW_MSCRATCH_FUNC, SBI_FW_EXT⟩ = some (0, 0x1000) ∧
    SbiSetFirmwareContext 0xDEADBEEF (worldOver emptyHeap 0 0x1000) =
      .halt .fault ((worldOver emptyHeap 0 0x1000).after
        ⟨0, 0, 0, 0, 0, 0, SBI_EXT_FW_MSCRATCH_FUNC, SBI_FW_EXT⟩) ∧
    SbiGetFirmwareContext 5 (worldOver emptyHeap 0 0x1000) =
      .halt .fault ((worldOver emptyHeap 0 0x1000).after
        ⟨0, 0, 0, 0, 0, 0, SBI_EXT_FW_MSCRATCH_FUNC, SBI_FW_EXT⟩) ∧
    ¬ ∃ w1, SbiSetFirmwareContext 0xDEADBEEF (worldOver emptyHeap 0 0x1000) =
      .ret EFI_SUCCESS w1 := by
  have hset : SbiSetFirmwareContext 0xDEADBEEF (worldOver emptyHeap 0 0x1000) =
      .halt .fault ((worldOver emptyHeap 0 0x1000).after
        ⟨0, 0, 0, 0, 0, 0, SBI_EXT_FW_MSCRATCH_FUNC, SBI_FW_EXT⟩) := by
    rw [SbiSetFirmwareContext_run 0xDEADBEEF (worldOver emptyHeap 0 0x1000) 0 0x1000 rfl,
      if_pos (by decide), firmware_context_write_run]
    rfl
  refine ⟨rfl, hset, ?_, ?_⟩
  · rw [SbiGetFirmwareContext_run 5 (worldOver emptyHeap 0 0x1000) 0 0x1000 rfl,
      if_pos (by decide), firmware_context_read_run]
    rfl
  · rintro ⟨w1, h1⟩
    rw [hset] at h1
    cases h1

/-- C12, as amended: `SbiGetMscratch` and `SbiGetMscratchHartid` return `EFI_SUCCESS` for
every result `(e, v)` of the lower layer, and `SbiGetFirmwareContext` and
`SbiSetFirmwareContext` for every result with a nonzero error word; with the error word `0`
these two dereference the scratch pointer and either return `EFI_SUCCESS` or fault there.
No run of any of the four returns another status than `EFI_SUCCESS`. -/
theorem firmware_scratch_no_failure_status (w : World) :
    (∀ e v, w.answer ⟨0, 0, 0, 0, 0, 0, SBI_EXT_FW_MSCRATCH_FUNC, SBI_FW_EXT⟩ = some (e, v) →
      (∀ x, ∃ out, SbiGetMscratch x w = .ret (EFI_SUCCESS, out)
        (w.after ⟨0, 0, 0, 0, 0, 0, SBI_EXT_FW_MSCRATCH_FUNC, SBI_FW_EXT⟩)) ∧
      (toLong e ≠ 0 →
        (∀ x, SbiGetFirmwareContext x w = .ret (EFI_SUCCESS, x)
          (w.after ⟨0, 0, 0, 0, 0, 0, SBI_EXT_FW_MSCRATCH_FUNC, SBI_FW_EXT⟩)) ∧
        (∀ p, SbiSetFirmwareContext p w = .ret EFI_SUCCESS
          (w.after ⟨0, 0, 0, 0, 0, 0, SBI_EXT_FW_MSCRATCH_FUNC, SBI_FW_EXT⟩))) ∧
      (toLong e = 0 →
        (∀ x, (∃ out w1, SbiGetFirmwareContext x w = .ret (EFI_SUCCESS, out) w1) ∨
          SbiGetFirmwareContext x w = .halt .fault
            (w.after ⟨0, 0, 0, 0, 0, 0, SBI_EXT_FW_MSCRATCH_FUNC, SBI_FW_EXT⟩)) ∧
        (∀ p, (∃ w1, SbiSetFirmwareContext p w = .ret EFI_SUCCESS w1) ∨
          SbiSetFirmwareContext p w = .halt .fault
            (w.after ⟨0, 0, 0, 0, 0, 0, SBI_EXT_FW_MSCRATCH_FUNC, SBI_FW_EXT⟩)))) ∧
    (∀ HartId e v,
      w.answer ⟨HartId, 0, 0, 0, 0, 0, SBI_EXT_FW_MSCRATCH_HARTID_FUNC, SBI_FW_EXT⟩ =
        some (e, v) →
      ∀ x, ∃ out, SbiGetMscratchHartid HartId x w = .ret (EFI_SUCCESS, out)
        (w.after ⟨HartId, 0, 0, 0, 0, 0, SBI_EXT_FW_MSCRATCH_HARTID_FUNC, SBI_FW_EXT⟩)) ∧
    (∀ x Status out w1, SbiGetMscratch x w = .ret (Status, out) w1 → Status = EFI_SUCCESS) ∧
    (∀ HartId x Status out w1,
      SbiGetMscratchHartid HartId x w = .ret (Status, out) w1 → Status = EFI_SUCCESS) ∧
    (∀ x Status out w1,
      SbiGetFirmwareContext x w = .ret (Status, out) w1 → Status = EFI_SUCCESS) ∧
    (∀ p Status w1, SbiSetFirmwareContext p w = .ret Status w1 → Status = EFI_SUCCESS) := by
  refine ⟨?_, ?_, ?_, ?_, ?_, ?_⟩
  · intro e v h
    refine ⟨fun x => ⟨_, SbiGetMscratch_run x w e v h⟩, ?_, ?_⟩
    · intro he
      exact ⟨fun x => by rw [SbiGetFirmwareContext_run x w e v h, if_neg he],
        fun p => by rw [SbiSetFirmwareContext_run p w e v h, if_neg he]⟩
    · intro he
      constructor
      · intro x
        rw [SbiGetFirmwareContext_run x w e v h, if_pos he, firmware_context_read_run]
        cases (w.after ⟨0, 0, 0, 0, 0, 0, SBI_EXT_FW_MSCRATCH_FUNC, SBI_FW_EXT⟩).heap.mem
            (fieldAddress 0 SBI_SCRATCH_PLATFORM_ADDR_OFFSET) with
        | none => exact Or.inr rfl
        | some SbiPlatform =>
          dsimp only
          cases (w.after ⟨0, 0, 0, 0, 0, 0, SBI_EXT_FW_MSCRATCH_FUNC, SBI_FW_EXT⟩).heap.mem
              (fieldAddress SbiPlatform SBI_PLATFORM_FIRMWARE_CONTEXT_OFFSET) with
          | none => exact Or.inr rfl
          | some Context => exact Or.inl ⟨_, _, rfl⟩
      · intro p
        rw [SbiSetFirmwareContext_run p w e v h, if_pos he, firmware_context_write_run]
        cases (w.after ⟨0, 0, 0, 0, 0, 0, SBI_EXT_FW_MSCRATCH_FUNC, SBI_FW_EXT⟩).heap.mem
            (fieldAddress 0 SBI_SCRATCH_PLATFORM_ADDR_OFFSET) with
        | none => exact Or.inr rfl
        | some SbiPlatform =>
          dsimp only
          cases (w.after ⟨0, 0, 0, 0, 0, 0, SBI_EXT_FW_MSCRATCH_FUNC, SBI_FW_EXT⟩).heap.mem
              (fieldAddress SbiPlatform SBI_PLATFORM_FIRMWARE_CONTEXT_OFFSET) with
          | none => exact Or.inr rfl
          | some Context => exact Or.inl ⟨_, rfl⟩
  · intro HartId e v h x
    exact ⟨_, SbiGetMscratchHartid_run HartId x w e v h⟩
  · intro x Status out w1 hret
    rcases hA : w.answer ⟨0, 0, 0, 0, 0, 0, SBI_EXT_FW_MSCRATCH_FUNC, SBI_FW_EXT⟩
      with _ | ⟨e, v⟩
    · unfold SbiGetMscratch sbi_call_0 at hret
      rw [sbi_call_bind_of_noReturn _ _ _ _ _ _ _ _ _ w hA] at hret
      cases hret
    · rw [SbiGetMscratch_run x w e v hA] at hret
      cases hret
      rfl
  · intro HartId x Status out w1 hret
    rcases hA : w.answer ⟨HartId, 0, 0, 0, 0, 0, SBI_EXT_FW_MSCRATCH_HARTID_FUNC, SBI_FW_EXT⟩
      with _ | ⟨e, v⟩
    · unfold SbiGetMscratchHartid sbi_call_1 at hret
      rw [sbi_call_bind_of_noReturn _ _ _ _ _ _ _ _ _ w hA] at hret
      cases hret
    · rw [SbiGetMscratchHartid_run HartId x w e v hA] at hret
      cases hret
      rfl
  · intro x Status out w1 hret
    rcases hA : w.answer ⟨0, 0, 0, 0, 0, 0, SBI_EXT_FW_MSCRATCH_FUNC, SBI_FW_EXT⟩
      with _ | ⟨e, v⟩
    · unfold SbiGetFirmwareContext sbi_call_0 at hret
      rw [sbi_call_bind_of_noReturn _ _ _ _ _ _ _ _ _ w hA] at hret
      cases hret
    · rw [SbiGetFirmwareContext_run x w e v hA] at hret
      by_cases he : toLong e = 0
      · rw [if_pos he] at hret
        exact firmware_context_read_status _ _ _ _ hret
      · rw [if_neg he] at hret
        cases hret
        rfl
  · intro p Status w1 hret
    rcases hA : w.answer ⟨0, 0, 0, 0, 0, 0, SBI_EXT_FW_MSCRATCH_FUNC, SBI_FW_EXT⟩
      with _ | ⟨e, v⟩
    · unfold SbiSetFirmwareContext sbi_call_0 at hret
      rw [sbi_call_bind_of_noReturn _ _ _ _ _ _ _ _ _ w hA] at hret
      cases hret
    · rw [SbiSetFirmwareContext_run p w e v hA] at hret
      by_cases he : toLong e = 0
      · rw [if_pos he] at hret
        exact firmware_context_write_status _ _ _ _ _ hret
      · rw [if_neg he] at hret
        cases hret
        rfl

/-- Witness of C12 as amended: the lower layer answers the scratch query with
`SBI_ERR_FAILED`, and `SbiSetFirmwareContext` still returns `EFI_SUCCESS`. -/
theorem firmware_scratch_no_failure_status_witness :
    (startWorld (2 ^ 64 - 1) 0 true).answer
        ⟨0, 0, 0, 0, 0, 0, SBI_EXT_FW_MSCRATCH_FUNC, SBI_FW_EXT⟩ = some (2 ^ 64 - 1, 0) ∧
    toLong (2 ^ 64 - 1) ≠ 0 ∧
    SbiSetFirmwareContext 9 (startWorld (2 ^ 64 - 1) 0 true) = .ret EFI_SUCCESS
      ((startWorld (2 ^ 64 - 1) 0 true).after
        ⟨0, 0, 0, 0, 0, 0, SBI_EXT_FW_MSCRATCH_FUNC, SBI_FW_EXT⟩) :=
  ⟨rfl, by decide,
    (((firmware_scratch_no_failure_status (startWorld (2 ^ 64 - 1) 0 true)).1
      (2 ^ 64 - 1) 0 rfl).2.1 (by decide)).2 9⟩

/-- C13, what the code does: the scratch pointer the two firmware-context functions
dereference is `ret.value`, the `arg1 = 0` of their `sbi_call_0`, not the scratch space
the lower layer answers.  The lower layer answers `(0, 0x1000)` to both scratch queries,
the scratch space at `0x1000` and its platform descriptor are mapped and nothing is
mapped at address `0`: `SbiSetFirmwareContext (0xDEADBEEF)` faults at the read of
`platform_addr` behind the null pointer, memory is as it was, and the sequence of set and
get yields no pointer. -/
theorem firmware_context_round_trip_faults :
    (worldOver scratchHeap 0 0x1000).answer
        ⟨0, 0, 0, 0, 0, 0, SBI_EXT_FW_MSCRATCH_FUNC, SBI_FW_EXT⟩ = some (0, 0x1000) ∧
    scratchHeap.mem (fieldAddress 0x1000 SBI_SCRATCH_PLATFORM_ADDR_OFFSET) = some 0x2000 ∧
    scratchHeap.mem (fieldAddress 0x2000 SBI_PLATFORM_FIRMWARE_CONTEXT_OFFSET) = some 0x11 ∧
    scratchHeap.mem (fieldAddress 0 SBI_SCRATCH_PLATFORM_ADDR_OFFSET) = none ∧
    SbiSetFirmwareContext 0xDEADBEEF (worldOver scratchHeap 0 0x1000) =
      .halt .fault ((worldOver scratchHeap 0 0x1000).after
        ⟨0, 0, 0, 0, 0, 0, SBI_EXT_FW_MSCRATCH_FUNC, SBI_FW_EXT⟩) ∧
    (SbiSetFirmwareContext 0xDEADBEEF >>= fun _ => SbiGetFirmwareContext 5)
        (worldOver scratchHeap 0 0x1000) =
      .halt .fault ((worldOver scratchHeap 0 0x1000).after
        ⟨0, 0, 0, 0, 0, 0, SBI_EXT_FW_MSCRATCH_FUNC, SBI_FW_EXT⟩) := by
  have hset : SbiSetFirmwareContext 0xDEADBEEF (worldOver scratchHeap 0 0x1000) =
      .halt .fault ((worldOver scratchHeap 0 0x1000).after
        ⟨0, 0, 0, 0, 0, 0, SBI_EXT_FW_MSCRATCH_FUNC, SBI_FW_EXT⟩) := by
    rw [SbiSetFirmwareContext_run 0xDEADBEEF (worldOver scratchHeap 0 0x1000) 0 0x1000 rfl,
      if_pos (by decide), firmware_context_write_run]
    rfl
  refine ⟨rfl, by decide, by decide, by decide, hset, ?_⟩
  rw [bind_run, hset]

/-- C14: for each of the six ranged remote fences and for every `StartAddr` and `Size`, the
one transition of the call carries `StartAddr` in argument slot 2 and `Size` in argument
slot 3 as they were passed (`Scope` is the `Asid` or `Vmid` of the scoped variants); in
particular `(0, 0)` and `(0, 2 ^ XLEN - 1)` both reach the lower layer unchanged. -/
theorem remote_fence_range_unmodified (w : World)
    (HartMask HartMaskBase StartAddr Size Scope : Nat) :
    (∃ t, (SbiRemoteSfenceVma HartMask HartMaskBase StartAddr Size w).world.trace = w.trace ++ [t] ∧
      t.a2 = StartAddr ∧ t.a3 = Size) ∧
    (∃ t, (SbiRemoteSfenceVmaAsid HartMask HartMaskBase StartAddr Size Scope w).world.trace = w.trace ++ [t] ∧
      t.a2 = StartAddr ∧ t.a3 = Size) ∧
    (∃ t, (SbiRemoteHFenceGvmaVmid HartMask HartMaskBase StartAddr Size Scope w).world.trace = w.trace ++ [t] ∧
      t.a2 = StartAddr ∧ t.a3 = Size) ∧
    (∃ t, (SbiRemoteHFenceGvma HartMask HartMaskBase StartAddr Size w).world.trace = w.trace ++ [t] ∧
      t.a2 = StartAddr ∧ t.a3 = Size) ∧
    (∃ t, (SbiRemoteHFenceVvmaAsid HartMask HartMaskBase StartAddr Size Scope w).world.trace = w.trace ++ [t] ∧
      t.a2 = StartAddr ∧ t.a3 = Size) ∧
    (∃ t, (SbiRemoteHFenceVvma HartMask HartMaskBase StartAddr Size w).world.trace = w.trace ++ [t] ∧
      t.a2 = StartAddr ∧ t.a3 = Size) ∧
    (∃ t, (SbiRemoteSfenceVma HartMask HartMaskBase 0 0 w).world.trace = w.trace ++ [t] ∧
      t.a2 = 0 ∧ t.a3 = 0) ∧
    (∃ t, (SbiRemoteSfenceVmaAsid HartMask HartMaskBase 0 0 Scope w).world.trace = w.trace ++ [t] ∧
      t.a2 = 0 ∧ t.a3 = 0) ∧
    (∃ t, (SbiRemoteHFenceGvmaVmid HartMask HartMaskBase 0 0 Scope w).world.trace = w.trace ++ [t] ∧
      t.a2 = 0 ∧ t.a3 = 0) ∧
    (∃ t, (SbiRemoteHFenceGvma HartMask HartMaskBase 0 0 w).world.trace = w.trace ++ [t] ∧
      t.a2 = 0 ∧ t.a3 = 0) ∧
    (∃ t, (SbiRemoteHFenceVvmaAsid HartMask HartMaskBase 0 0 Scope w).world.trace = w.trace ++ [t] ∧
      t.a2 = 0 ∧ t.a3 = 0) ∧
    (∃ t, (SbiRemoteHFenceVvma HartMask HartMaskBase 0 0 w).world.trace = w.trace ++ [t] ∧
      t.a2 = 0 ∧ t.a3 = 0) ∧
    (∃ t, (SbiRemoteSfenceVma HartMask HartMaskBase 0 (2 ^ XLEN - 1) w).world.trace = w.trace ++ [t] ∧
      t.a2 = 0 ∧ t.a3 = 2 ^ XLEN - 1) ∧
    (∃ t, (SbiRemoteSfenceVmaAsid HartMask HartMaskBase 0 (2 ^ XLEN - 1) Scope w).world.trace = w.trace ++ [t] ∧
      t.a2 = 0 ∧ t.a3 = 2 ^ XLEN - 1) ∧
    (∃ t, (SbiRemoteHFenceGvmaVmid HartMask HartMaskBase 0 (2 ^ XLEN - 1) Scope w).world.trace = w.trace ++ [t] ∧
      t.a2 = 0 ∧ t.a3 = 2 ^ XLEN - 1) ∧
    (∃ t, (SbiRemoteHFenceGvma HartMask HartMaskBase 0 (2 ^ XLEN - 1) w).world.trace = w.trace ++ [t] ∧
      t.a2 = 0 ∧ t.a3 = 2 ^ XLEN - 1) ∧
    (∃ t, (SbiRemoteHFenceVvmaAsid HartMask HartMaskBase 0 (2 ^ XLEN - 1) Scope w).world.trace = w.trace ++ [t] ∧
      t.a2 = 0 ∧ t.a3 = 2 ^ XLEN - 1) ∧
    (∃ t, (SbiRemoteHFenceVvma HartMask HartMaskBase 0 (2 ^ XLEN - 1) w).world.trace = w.trace ++ [t] ∧
      t.a2 = 0 ∧ t.a3 = 2 ^ XLEN - 1) :=
  ⟨⟨_, by rw [SbiRemoteSfenceVma_eq]; exact callThenTranslate_trace _ w, rfl, rfl⟩,
    ⟨_, by rw [SbiRemoteSfenceVmaAsid_eq]; exact callThenTranslate_trace _ w, rfl, rfl⟩,
    ⟨_, by rw [SbiRemoteHFenceGvmaVmid_eq]; exact callThenTranslate_trace _ w, rfl, rfl⟩,
    ⟨_, by rw [SbiRemoteHFenceGvma_eq]; exact callThenTranslate_trace _ w, rfl, rfl⟩,
    ⟨_, by rw [SbiRemoteHFenceVvmaAsid_eq]; exact callThenTranslate_trace _ w, rfl, rfl⟩,
    ⟨_, by rw [SbiRemoteHFenceVvma_eq]; exact callThenTranslate_trace _ w, rfl, rfl⟩,
    ⟨_, by rw [SbiRemoteSfenceVma_eq]; exact callThenTranslate_trace _ w, rfl, rfl⟩,
    ⟨_, by rw [SbiRemoteSfenceVmaAsid_eq]; exact callThenTranslate_trace _ w, rfl, rfl⟩,
    ⟨_, by rw [SbiRemoteHFenceGvmaVmid_eq]; exact callThenTranslate_trace _ w, rfl, rfl⟩,
    ⟨_, by rw [SbiRemoteHFenceGvma_eq]; exact callThenTranslate_trace _ w, rfl, rfl⟩,
    ⟨_, by rw [SbiRemoteHFenceVvmaAsid_eq]; exact callThenTranslate_trace _ w, rfl, rfl⟩,
    ⟨_, by rw [SbiRemoteHFenceVvma_eq]; exact callThenTranslate_trace _ w, rfl, rfl⟩,
    ⟨_, by rw [SbiRemoteSfenceVma_eq]; exact callThenTranslate_trace _ w, rfl, rfl⟩,
    ⟨_, by rw [SbiRemoteSfenceVmaAsid_eq]; exact callThenTranslate_trace _ w, rfl, rfl⟩,
    ⟨_, by rw [SbiRemoteHFenceGvmaVmid_eq]; exact callThenTranslate_trace _ w, rfl, rfl⟩,
    ⟨_, by rw [SbiRemoteHFenceGvma_eq]; exact callThenTranslate_trace _ w, rfl, rfl⟩,
    ⟨_, by rw [SbiRemoteHFenceVvmaAsid_eq]; exact callThenTranslate_trace _ w, rfl, rfl⟩,
    ⟨_, by rw [SbiRemoteHFenceVvma_eq]; exact callThenTranslate_trace _ w, rfl, rfl⟩⟩

/-- C15: for every `HartMask` pointer value (null included) and every `HartMaskBase`,
`SbiSendIpi` and `SbiRemoteFenceI` pass the address of the mask in argument slot 0 and
`HartMaskBase` in argument slot 1 as they were given; in particular the null pointer with
`HartMaskBase` all bits one reaches the lower layer as `0` and `2 ^ XLEN - 1`; and the call
returns `EFI_SUCCESS` whenever the lower layer reports `SBI_SUCCESS`. -/
theorem hart_mask_passed_through (w : World) (HartMask HartMaskBase : Nat) :
    (∃ t, (SbiSendIpi HartMask HartMaskBase w).world.trace = w.trace ++ [t] ∧
      t.a7 = SBI_IPI_EXT ∧ t.a0 = HartMask ∧ t.a1 = HartMaskBase ∧
      ∀ e v, w.answer t = some (e, v) → toLong e = SBI_SUCCESS →
        SbiSendIpi HartMask HartMaskBase w = .ret EFI_SUCCESS (w.after t)) ∧
    (∃ t, (SbiRemoteFenceI HartMask HartMaskBase w).world.trace = w.trace ++ [t] ∧
      t.a7 = SBI_RFNC_EXT ∧ t.a0 = HartMask ∧ t.a1 = HartMaskBase ∧
      ∀ e v, w.answer t = some (e, v) → toLong e = SBI_SUCCESS →
        SbiRemoteFenceI HartMask HartMaskBase w = .ret EFI_SUCCESS (w.after t)) ∧
    (∃ t, (SbiSendIpi 0 (2 ^ XLEN - 1) w).world.trace = w.trace ++ [t] ∧
      t.a7 = SBI_IPI_EXT ∧ t.a0 = 0 ∧ t.a1 = 2 ^ XLEN - 1 ∧
      ∀ e v, w.answer t = some (e, v) → toLong e = SBI_SUCCESS →
        SbiSendIpi 0 (2 ^ XLEN - 1) w = .ret EFI_SUCCESS (w.after t)) ∧
    (∃ t, (SbiRemoteFenceI 0 (2 ^ XLEN - 1) w).world.trace = w.trace ++ [t] ∧
      t.a7 = SBI_RFNC_EXT ∧ t.a0 = 0 ∧ t.a1 = 2 ^ XLEN - 1 ∧
      ∀ e v, w.answer t = some (e, v) → toLong e = SBI_SUCCESS →
        SbiRemoteFenceI 0 (2 ^ XLEN - 1) w = .ret EFI_SUCCESS (w.after t)) := by
  have ipi : ∀ m b, ∃ t, (SbiSendIpi m b w).world.trace = w.trace ++ [t] ∧
      t.a7 = SBI_IPI_EXT ∧ t.a0 = m ∧ t.a1 = b ∧
      ∀ e v, w.answer t = some (e, v) → toLong e = SBI_SUCCESS →
        SbiSendIpi m b w = .ret EFI_SUCCESS (w.after t) := by
    intro m b
    refine ⟨_, by rw [SbiSendIpi_eq]; exact callThenTranslate_trace _ w, rfl, rfl, rfl, ?_⟩
    intro e v h he
    rw [SbiSendIpi_eq, callThenTranslate_of_answer _ w e v h, he]
    exact (TranslateError_known_run _).1
  have fence : ∀ m b, ∃ t, (SbiRemoteFenceI m b w).world.trace = w.trace ++ [t] ∧
      t.a7 = SBI_RFNC_EXT ∧ t.a0 = m ∧ t.a1 = b ∧
      ∀ e v, w.answer t = some (e, v) → toLong e = SBI_SUCCESS →
        SbiRemoteFenceI m b w = .ret EFI_SUCCESS (w.after t) := by
    intro m b
    refine ⟨_, by rw [SbiRemoteFenceI_eq]; exact callThenTranslate_trace _ w, rfl, rfl, rfl, ?_⟩
    intro e v h he
    rw [SbiRemoteFenceI_eq, callThenTranslate_of_answer _ w e v h, he]
    exact (TranslateError_known_run _).1
  exact ⟨ipi _ _, fence _ _, ipi _ _, fence _ _⟩

/-- Witness of C15: the null mask with `HartMaskBase` all bits one, answered with
`SBI_SUCCESS`. -/
theorem hart_mask_passed_through_witness :
    (startWorld 0 0 true).answer ⟨0, 2 ^ XLEN - 1, 0, 0, 0, 0, 0, SBI_IPI_EXT⟩ = some (0, 0) ∧
    toLong 0 = SBI_SUCCESS ∧
    ∃ t, (SbiSendIpi 0 (2 ^ XLEN - 1) (startWorld 0 0 true)).world.trace =
        (startWorld 0 0 true).trace ++ [t] ∧
      t.a7 = SBI_IPI_EXT ∧ t.a0 = 0 ∧ t.a1 = 2 ^ XLEN - 1 ∧
      ∀ e v, (startWorld 0 0 true).answer t = some (e, v) → toLong e = SBI_SUCCESS →
        SbiSendIpi 0 (2 ^ XLEN - 1) (startWorld 0 0 true) =
          .ret EFI_SUCCESS ((startWorld 0 0 true).after t) :=
  ⟨rfl, by decide, (hart_mask_passed_through (startWorld 0 0 true) 0 (2 ^ XLEN - 1)).1⟩

/-- C16: the seven remote-fence wrappers all target the Remote-Fence extension id and use
the function ids `0 .. 6` in the order `SbiRemoteFenceI`, `SbiRemoteSfenceVma`,
`SbiRemoteSfenceVmaAsid`, `SbiRemoteHFenceGvmaVmid`, `SbiRemoteHFenceGvma`,
`SbiRemoteHFenceVvmaAsid`, `SbiRemoteHFenceVvma`, so pairwise distinct ones; the scoped
variants carry their `Asid` or `Vmid` (`Scope`) in argument slot 4 and the unscoped ones
carry zero there. -/
theorem remote_fence_function_ids (w : World)
    (HartMask HartMaskBase StartAddr Size Scope : Nat) :
    (∃ t, (SbiRemoteFenceI HartMask HartMaskBase w).world.trace = w.trace ++ [t] ∧
      t.a7 = SBI_RFNC_EXT ∧ t.a6 = 0 ∧ t.a4 = 0) ∧
    (∃ t, (SbiRemoteSfenceVma HartMask HartMaskBase StartAddr Size w).world.trace = w.trace ++ [t] ∧
      t.a7 = SBI_RFNC_EXT ∧ t.a6 = 1 ∧ t.a4 = 0) ∧
    (∃ t, (SbiRemoteSfenceVmaAsid HartMask HartMaskBase StartAddr Size Scope w).world.trace = w.trace ++ [t] ∧
      t.a7 = SBI_RFNC_EXT ∧ t.a6 = 2 ∧ t.a4 = Scope) ∧
    (∃ t, (SbiRemoteHFenceGvmaVmid HartMask HartMaskBase StartAddr Size Scope w).world.trace = w.trace ++ [t] ∧
      t.a7 = SBI_RFNC_EXT ∧ t.a6 = 3 ∧ t.a4 = Scope) ∧
    (∃ t, (SbiRemoteHFenceGvma HartMask HartMaskBase StartAddr Size w).world.trace = w.trace ++ [t] ∧
      t.a7 = SBI_RFNC_EXT ∧ t.a6 = 4 ∧ t.a4 = 0) ∧
    (∃ t, (SbiRemoteHFenceVvmaAsid HartMask HartMaskBase StartAddr Size Scope w).world.trace = w.trace ++ [t] ∧
      t.a7 = SBI_RFNC_EXT ∧ t.a6 = 5 ∧ t.a4 = Scope) ∧
    (∃ t, (SbiRemoteHFenceVvma HartMask HartMaskBase StartAddr Size w).world.trace = w.trace ++ [t] ∧
      t.a7 = SBI_RFNC_EXT ∧ t.a6 = 6 ∧ t.a4 = 0) ∧
    [(SbiRemoteFenceI HartMask HartMaskBase w).world.trace.getLast?.map Transition.a6,
      (SbiRemoteSfenceVma HartMask HartMaskBase StartAddr Size w).world.trace.getLast?.map Transition.a6,
      (SbiRemoteSfenceVmaAsid HartMask HartMaskBase StartAddr Size Scope w).world.trace.getLast?.map Transition.a6,
      (SbiRemoteHFenceGvmaVmid HartMask HartMaskBase StartAddr Size Scope w).world.trace.getLast?.map Transition.a6,
      (SbiRemoteHFenceGvma HartMask HartMaskBase StartAddr Size w).world.trace.getLast?.map Transition.a6,
      (SbiRemoteHFenceVvmaAsid HartMask HartMaskBase StartAddr Size Scope w).world.trace.getLast?.map Transition.a6,
      (SbiRemoteHFenceVvma HartMask HartMaskBase StartAddr Size w).world.trace.getLast?.map Transition.a6] =
      [some 0, some 1, some 2, some 3, some 4, some 5, some 6] := by
  have h0 : (SbiRemoteFenceI HartMask HartMaskBase w).world.trace =
      w.trace ++ [⟨HartMask, HartMaskBase, 0, 0, 0, 0, 0, SBI_RFNC_EXT⟩] := by
    rw [SbiRemoteFenceI_eq]; exact callThenTranslate_trace _ w
  have h1 : (SbiRemoteSfenceVma HartMask HartMaskBase StartAddr Size w).world.trace =
      w.trace ++ [⟨HartMask, HartMaskBase, StartAddr, Size, 0, 0, 1, SBI_RFNC_EXT⟩] := by
    rw [SbiRemoteSfenceVma_eq]; exact callThenTranslate_trace _ w
  have h2 : (SbiRemoteSfenceVmaAsid HartMask HartMaskBase StartAddr Size Scope w).world.trace =
      w.trace ++ [⟨HartMask, HartMaskBase, StartAddr, Size, Scope, 0, 2, SBI_RFNC_EXT⟩] := by
    rw [SbiRemoteSfenceVmaAsid_eq]; exact callThenTranslate_trace _ w
  have h3 : (SbiRemoteHFenceGvmaVmid HartMask HartMaskBase StartAddr Size Scope w).world.trace =
      w.trace ++ [⟨HartMask, HartMaskBase, StartAddr, Size, Scope, 0, 3, SBI_RFNC_EXT⟩] := by
    rw [SbiRemoteHFenceGvmaVmid_eq]; exact callThenTranslate_trace _ w
  have h4 : (SbiRemoteHFenceGvma HartMask HartMaskBase StartAddr Size w).world.trace =
      w.trace ++ [⟨HartMask, HartMaskBase, StartAddr, Size, 0, 0, 4, SBI_RFNC_EXT⟩] := by
    rw [SbiRemoteHFenceGvma_eq]; exact callThenTranslate_trace _ w
  have h5 : (SbiRemoteHFenceVvmaAsid HartMask HartMaskBase StartAddr Size Scope w).world.trace =
      w.trace ++ [⟨HartMask, HartMaskBase, StartAddr, Size, Scope, 0, 5, SBI_RFNC_EXT⟩] := by
    rw [SbiRemoteHFenceVvmaAsid_eq]; exact callThenTranslate_trace _ w
  have h6 : (SbiRemoteHFenceVvma HartMask HartMaskBase StartAddr Size w).world.trace =
      w.trace ++ [⟨HartMask, HartMaskBase, StartAddr, Size, 0, 0, 6, SBI_RFNC_EXT⟩] := by
    rw [SbiRemoteHFenceVvma_eq]; exact callThenTranslate_trace _ w
  refine ⟨⟨_, by rw [SbiRemoteFenceI_eq]; exact callThenTranslate_trace _ w, rfl, rfl, rfl⟩,
    ⟨_, by rw [SbiRemoteSfenceVma_eq]; exact callThenTranslate_trace _ w, rfl, rfl, rfl⟩,
    ⟨_, by rw [SbiRemoteSfenceVmaAsid_eq]; exact callThenTranslate_trace _ w, rfl, rfl, rfl⟩,
    ⟨_, by rw [SbiRemoteHFenceGvmaVmid_eq]; exact callThenTranslate_trace _ w, rfl, rfl, rfl⟩,
    ⟨_, by rw [SbiRemoteHFenceGvma_eq]; exact callThenTranslate_trace _ w, rfl, rfl, rfl⟩,
    ⟨_, by rw [SbiRemoteHFenceVvmaAsid_eq]; exact callThenTranslate_trace _ w, rfl, rfl, rfl⟩,
    ⟨_, by rw [SbiRemoteHFenceVvma_eq]; exact callThenTranslate_trace _ w, rfl, rfl, rfl⟩,
    ?_⟩
  rw [h0, h1, h2, h3, h4, h5, h6]
  simp only [List.getLast?_concat, Option.map]

/-- C17, what the code does: for every value word `v` the lower layer returns with error
`0`, the raw spec-version words `(major << 24) | minor` included, the word
`SbiGetSpecVersion` stores is `ret.value`, the `arg1 = 0` of its `sbi_call_0`: it stores
`0`, which decodes to major `0`, minor `0`. -/
theorem SbiGetSpecVersion_stores_arg1 (w : World) (SpecVersion e v : Nat)
    (h : w.answer ⟨0, 0, 0, 0, 0, 0, SBI_GET_SPEC_VERSION_FUNC, SBI_BASE_EXT⟩ = some (e, v))
    (he : toLong e = 0) :
    ∃ stored,
      SbiGetSpecVersion SpecVersion w =
        .ret stored (w.after ⟨0, 0, 0, 0, 0, 0, SBI_GET_SPEC_VERSION_FUNC, SBI_BASE_EXT⟩) ∧
      stored = 0 ∧ (stored >>> 24) &&& 0x7F = 0 ∧ stored &&& 0xFFFFFF = 0 := by
  refine ⟨0, ?_, rfl, by decide, by decide⟩
  rw [SbiGetSpecVersion_run SpecVersion w e v h, if_pos he]

/-- The failing input of C17: the lower layer returns error `0` and the raw word for major
`2`, minor `1`; the stored word is `0` and its major field is not `2`. -/
theorem SbiGetSpecVersion_stores_arg1_witness :
    (startWorld 0 (2 <<< 24 ||| 1) true).answer
        ⟨0, 0, 0, 0, 0, 0, SBI_GET_SPEC_VERSION_FUNC, SBI_BASE_EXT⟩ = some (0, 2 <<< 24 ||| 1) ∧
    toLong 0 = 0 ∧
    (∃ stored,
      SbiGetSpecVersion 0x55 (startWorld 0 (2 <<< 24 ||| 1) true) =
        .ret stored ((startWorld 0 (2 <<< 24 ||| 1) true).after
          ⟨0, 0, 0, 0, 0, 0, SBI_GET_SPEC_VERSION_FUNC, SBI_BASE_EXT⟩) ∧
      stored = 0 ∧ (stored >>> 24) &&& 0x7F = 0 ∧ stored &&& 0xFFFFFF = 0) ∧
    ((2 <<< 24 ||| 1) >>> 24) &&& 0x7F = 2 ∧ (2 <<< 24 ||| 1) &&& 0xFFFFFF = 1 :=
  ⟨rfl, by decide,
    SbiGetSpecVersion_stores_arg1 (startWorld 0 (2 <<< 24 ||| 1) true) 0x55 0 (2 <<< 24 ||| 1)
      rfl (by decide),
    by decide, by decide⟩

/-- Counterexample to C18 as stated: when the lower layer answers the spec-version query
with `SBI_ERR_FAILED` and the value word `7`, `SbiGetSpecVersion` leaves the content `5`
of the output location as it was; the value word is not written. -/
theorem SbiGetSpecVersion_not_written_on_error :
    (startWorld (2 ^ 64 - 1) 7 true).answer
        ⟨0, 0, 0, 0, 0, 0, SBI_GET_SPEC_VERSION_FUNC, SBI_BASE_EXT⟩ = some (2 ^ 64 - 1, 7) ∧
    SbiGetSpecVersion 5 (startWorld (2 ^ 64 - 1) 7 true) =
      .ret 5 ((startWorld (2 ^ 64 - 1) 7 true).after
        ⟨0, 0, 0, 0, 0, 0, SBI_GET_SPEC_VERSION_FUNC, SBI_BASE_EXT⟩) ∧
    (5 : Nat) ≠ 7 % 2 ^ XLEN :=
  ⟨rfl, rfl, by decide⟩

/-- C18, as amended: `SbiGetImplId`, `SbiGetImplVersion`, `SbiProbeExtension`,
`SbiGetMvendorId`, `SbiGetMarchId` and `SbiGetMimpId` report no failure: for every result
`(e, v)`, nonzero `e` included, they return normally and write their output, one word
whatever the output location held.  `SbiGetSpecVersion` reports no failure either; it
writes its output when the error word is `0` and leaves the output location as it was
otherwise. -/
theorem base_queries_output (w : World) (e v : Nat) :
    (w.answer ⟨0, 0, 0, 0, 0, 0, SBI_GET_IMPL_ID_FUNC, SBI_BASE_EXT⟩ = some (e, v) →
      ∃ out, ∀ x, SbiGetImplId x w = .ret out
        (w.after ⟨0, 0, 0, 0, 0, 0, SBI_GET_IMPL_ID_FUNC, SBI_BASE_EXT⟩)) ∧
    (w.answer ⟨0, 0, 0, 0, 0, 0, SBI_GET_IMPL_VERSION_FUNC, SBI_BASE_EXT⟩ = some (e, v) →
      ∃ out, ∀ x, SbiGetImplVersion x w = .ret out
        (w.after ⟨0, 0, 0, 0, 0, 0, SBI_GET_IMPL_VERSION_FUNC, SBI_BASE_EXT⟩)) ∧
    (w.answer ⟨0, 0, 0, 0, 0, 0, SBI_PROBE_EXTENSION_FUNC, SBI_BASE_EXT⟩ = some (e, v) →
      ∃ out, ∀ ExtensionId x, SbiProbeExtension ExtensionId x w = .ret out
        (w.after ⟨0, 0, 0, 0, 0, 0, SBI_PROBE_EXTENSION_FUNC, SBI_BASE_EXT⟩)) ∧
    (w.answer ⟨0, 0, 0, 0, 0, 0, SBI_GET_MVENDORID_FUNC, SBI_BASE_EXT⟩ = some (e, v) →
      ∃ out, ∀ x, SbiGetMvendorId x w = .ret out
        (w.after ⟨0, 0, 0, 0, 0, 0, SBI_GET_MVENDORID_FUNC, SBI_BASE_EXT⟩)) ∧
    (w.answer ⟨0, 0, 0, 0, 0, 0, SBI_GET_MARCHID_FUNC, SBI_BASE_EXT⟩ = some (e, v) →
      ∃ out, ∀ x, SbiGetMarchId x w = .ret out
        (w.after ⟨0, 0, 0, 0, 0, 0, SBI_GET_MARCHID_FUNC, SBI_BASE_EXT⟩)) ∧
    (w.answer ⟨0, 0, 0, 0, 0, 0, SBI_GET_MIMPID_FUNC, SBI_BASE_EXT⟩ = some (e, v) →
      ∃ out, ∀ x, SbiGetMimpId x w = .ret out
        (w.after ⟨0, 0, 0, 0, 0, 0, SBI_GET_MIMPID_FUNC, SBI_BASE_EXT⟩)) ∧
    (w.answer ⟨0, 0, 0, 0, 0, 0, SBI_GET_SPEC_VERSION_FUNC, SBI_BASE_EXT⟩ = some (e, v) →
      (toLong e ≠ 0 → ∀ x, SbiGetSpecVersion x w = .ret x
        (w.after ⟨0, 0, 0, 0, 0, 0, SBI_GET_SPEC_VERSION_FUNC, SBI_BASE_EXT⟩)) ∧
      (toLong e = 0 → ∃ out, ∀ x, SbiGetSpecVersion x w = .ret out
        (w.after ⟨0, 0, 0, 0, 0, 0, SBI_GET_SPEC_VERSION_FUNC, SBI_BASE_EXT⟩))) := by
  refine ⟨?_, ?_, ?_, ?_, ?_, ?_, ?_⟩
  · intro h; exact ⟨0, fun x => SbiGetImplId_run x w e v h⟩
  · intro h; exact ⟨0, fun x => SbiGetImplVersion_run x w e v h⟩
  · intro h; exact ⟨0, fun E x => SbiProbeExtension_run E x w e v h⟩
  · intro h; exact ⟨0, fun x => SbiGetMvendorId_run x w e v h⟩
  · intro h; exact ⟨0, fun x => SbiGetMarchId_run x w e v h⟩
  · intro h; exact ⟨0, fun x => SbiGetMimpId_run x w e v h⟩
  · intro h
    constructor
    · intro he x; rw [SbiGetSpecVersion_run x w e v h, if_neg he]
    · intro he; exact ⟨0, fun x => by rw [SbiGetSpecVersion_run x w e v h, if_pos he]⟩

/-- Witness of C18 as amended: `SbiGetImplId` returns normally and writes its output
although the lower layer answers with `SBI_ERR_FAILED`. -/
theorem base_queries_output_witness :
    (startWorld (2 ^ 64 - 1) 7 true).answer
        ⟨0, 0, 0, 0, 0, 0, SBI_GET_IMPL_ID_FUNC, SBI_BASE_EXT⟩ = some (2 ^ 64 - 1, 7) ∧
    ∃ out, ∀ x, SbiGetImplId x (startWorld (2 ^ 64 - 1) 7 true) =
      .ret out ((startWorld (2 ^ 64 - 1) 7 true).after
        ⟨0, 0, 0, 0, 0, 0, SBI_GET_IMPL_ID_FUNC, SBI_BASE_EXT⟩) :=
  ⟨rfl, (base_queries_output (startWorld (2 ^ 64 - 1) 7 true) (2 ^ 64 - 1) 7).1 rfl⟩

/-- C19, what the code does: the three CPU-identity queries perform the transitions with
the function ids `SBI_GET_MVENDORID_FUNC`, `SBI_GET_MARCHID_FUNC` and `SBI_GET_MIMPID_FUNC`
of the Base extension, each its own, but what each of them returns is `ret.value`, the
`arg1 = 0` of its `sbi_call_0`, whatever value word the lower layer answers: all three
return the word `0`.  Answered with the registers `0x489`, `0x8000000000000007` and
`0x20181004`, each of the three queries returns `0`. -/
theorem cpu_identity_queries_return_arg1 :
    (∀ w x, (SbiGetMvendorId x w).world.trace =
      w.trace ++ [⟨0, 0, 0, 0, 0, 0, SBI_GET_MVENDORID_FUNC, SBI_BASE_EXT⟩]) ∧
    (∀ w x, (SbiGetMarchId x w).world.trace =
      w.trace ++ [⟨0, 0, 0, 0, 0, 0, SBI_GET_MARCHID_FUNC, SBI_BASE_EXT⟩]) ∧
    (∀ w x, (SbiGetMimpId x w).world.trace =
      w.trace ++ [⟨0, 0, 0, 0, 0, 0, SBI_GET_MIMPID_FUNC, SBI_BASE_EXT⟩]) ∧
    (∀ (w : World) x e v,
      w.answer ⟨0, 0, 0, 0, 0, 0, SBI_GET_MVENDORID_FUNC, SBI_BASE_EXT⟩ = some (e, v) →
      SbiGetMvendorId x w = .ret 0
        (w.after ⟨0, 0, 0, 0, 0, 0, SBI_GET_MVENDORID_FUNC, SBI_BASE_EXT⟩)) ∧
    (∀ (w : World) x e v,
      w.answer ⟨0, 0, 0, 0, 0, 0, SBI_GET_MARCHID_FUNC, SBI_BASE_EXT⟩ = some (e, v) →
      SbiGetMarchId x w = .ret 0
        (w.after ⟨0, 0, 0, 0, 0, 0, SBI_GET_MARCHID_FUNC, SBI_BASE_EXT⟩)) ∧
    (∀ (w : World) x e v,
      w.answer ⟨0, 0, 0, 0, 0, 0, SBI_GET_MIMPID_FUNC, SBI_BASE_EXT⟩ = some (e, v) →
      SbiGetMimpId x w = .ret 0
        (w.after ⟨0, 0, 0, 0, 0, 0, SBI_GET_MIMPID_FUNC, SBI_BASE_EXT⟩)) ∧
    (SbiGetMvendorId 5 (startWorld 0 0x489 true)).value = some 0 ∧
    (SbiGetMarchId 5 (startWorld 0 0x8000000000000007 true)).value = some 0 ∧
    (SbiGetMimpId 5 (startWorld 0 0x20181004 true)).value = some 0 :=
  ⟨fun w x => SbiGetMvendorId_trace x w, fun w x => SbiGetMarchId_trace x w,
    fun w x => SbiGetMimpId_trace x w,
    fun w x e v h => SbiGetMvendorId_run x w e v h,
    fun w x e v h => SbiGetMarchId_run x w e v h,
    fun w x e v h => SbiGetMimpId_run x w e v h,
    by rw [SbiGetMvendorId_run 5 (startWorld 0 0x489 true) 0 0x489 rfl]; rfl,
    by rw [SbiGetMarchId_run 5 (startWorld 0 0x8000000000000007 true) 0 0x8000000000000007 rfl]
       rfl,
    by rw [SbiGetMimpId_run 5 (startWorld 0 0x20181004 true) 0 0x20181004 rfl]; rfl⟩

/-- C20: for every `StimeValue`, `SbiSetTimer` performs one transition to the Timer
extension with function id `0`, `StimeValue` unmodified in argument slot 0 and zero in
slots 1 .. 5, and whatever `(e, v)` the lower layer answers the caller gets the same
result: the unit value in the world after the transition. -/
theorem SbiSetTimer_fire_and_forget (w : World) (StimeValue : Nat) :
    (SbiSetTimer StimeValue w).world.trace =
      w.trace ++ [⟨StimeValue, 0, 0, 0, 0, 0, 0, SBI_TIME_EXT⟩] ∧
    (∀ e v, w.answer ⟨StimeValue, 0, 0, 0, 0, 0, 0, SBI_TIME_EXT⟩ = some (e, v) →
      SbiSetTimer StimeValue w =
        .ret () (w.after ⟨StimeValue, 0, 0, 0, 0, 0, 0, SBI_TIME_EXT⟩)) ∧
    (w.answer ⟨StimeValue, 0, 0, 0, 0, 0, 0, SBI_TIME_EXT⟩ = none →
      SbiSetTimer StimeValue w =
        .halt .noReturn (w.after ⟨StimeValue, 0, 0, 0, 0, 0, 0, SBI_TIME_EXT⟩)) :=
  ⟨SbiSetTimer_trace StimeValue w, fun e v h => SbiSetTimer_run StimeValue w e v h,
    fun h => sbi_call_bind_of_noReturn _ _ _ _ _ _ _ _ _ w h⟩

/-- Witness of C20: the largest 64-bit time value, answered with an error and a value the
caller never sees. -/
theorem SbiSetTimer_fire_and_forget_witness :
    (startWorld (2 ^ 64 - 2) 99 true).answer
        ⟨2 ^ 64 - 1, 0, 0, 0, 0, 0, 0, SBI_TIME_EXT⟩ = some (2 ^ 64 - 2, 99) ∧
    SbiSetTimer (2 ^ 64 - 1) (startWorld (2 ^ 64 - 2) 99 true) =
      .ret () ((startWorld (2 ^ 64 - 2) 99 true).after
        ⟨2 ^ 64 - 1, 0, 0, 0, 0, 0, 0, SBI_TIME_EXT⟩) :=
  ⟨rfl, (SbiSetTimer_fire_and_forget (startWorld (2 ^ 64 - 2) 99 true) (2 ^ 64 - 1)).2.1
    (2 ^ 64 - 2) 99 rfl⟩

/-- C22: taking `sbi_call_new_k` to perform the same transition as `sbi_call_k`, every
`PeiOpenSbi*` wrapper of the Base, Timer, Firmware, HSM, IPI, Remote-Fence and Vendor groups
behaves as its `Sbi*` counterpart on the same non-context arguments.  The wrappers that do
not translate an error are equal as runs; for the others the two runs return the same
status (or halt for the same reason) after the same transitions with the same memory, the
only difference being the file in which a failed assertion stands; and no run depends on
`PeiServices` or `This`. -/
theorem PeiOpenSbi_wrappers_refine (w : World) (PeiServices This OtherServices OtherThis : Nat) :
    (∀ x, Ppi.PeiOpenSbiGetSpecVersion PeiServices This x w = SbiGetSpecVersion x w) ∧
    (∀ x, Ppi.PeiOpenSbiGetImplId PeiServices This x w = SbiGetImplId x w) ∧
    (∀ x, Ppi.PeiOpenSbiGetImplVersion PeiServices This x w = SbiGetImplVersion x w) ∧
    (∀ ExtensionId x, Ppi.PeiOpenSbiProbeExtension PeiServices This ExtensionId x w = SbiProbeExtension ExtensionId x w) ∧
    (∀ x, Ppi.PeiOpenSbiGetMvendorId PeiServices This x w = SbiGetMvendorId x w) ∧
    (∀ x, Ppi.PeiOpenSbiGetMarchId PeiServices This x w = SbiGetMarchId x w) ∧
    (∀ x, Ppi.PeiOpenSbiGetMimpId PeiServices This x w = SbiGetMimpId x w) ∧
    (∀ StimeValue, Ppi.PeiOpenSbiSetTimer PeiServices This StimeValue w = SbiSetTimer StimeValue w) ∧
    (∀ x, Ppi.PeiOpenSbiGetMscratch PeiServices This x w = SbiGetMscratch x w) ∧
    (∀ HartId x, Ppi.PeiOpenSbiGetMscratchHartid PeiServices This HartId x w = SbiGetMscratchHartid HartId x w) ∧
    (∀ HartId StartAddr Priv, (Ppi.PeiOpenSbiHartStart PeiServices This HartId StartAddr Priv w).sameUpToSite (SbiHartStart HartId StartAddr Priv w) ∧
      (Ppi.PeiOpenSbiHartStart PeiServices This HartId StartAddr Priv w).value = (SbiHartStart HartId StartAddr Priv w).value ∧
      (Ppi.PeiOpenSbiHartStart PeiServices This HartId StartAddr Priv w).world.trace = (SbiHartStart HartId StartAddr Priv w).world.trace ∧
      Ppi.PeiOpenSbiHartStart PeiServices This HartId StartAddr Priv w =
        Ppi.PeiOpenSbiHartStart OtherServices OtherThis HartId StartAddr Priv w) ∧
    ((Ppi.PeiOpenSbiHartStop PeiServices This w).sameUpToSite (SbiHartStop w) ∧
      (Ppi.PeiOpenSbiHartStop PeiServices This w).value = (SbiHartStop w).value ∧
      (Ppi.PeiOpenSbiHartStop PeiServices This w).world.trace = (SbiHartStop w).world.trace ∧
      Ppi.PeiOpenSbiHartStop PeiServices This w =
        Ppi.PeiOpenSbiHartStop OtherServices OtherThis w) ∧
    (∀ HartId x, (Ppi.PeiOpenSbiHartGetStatus PeiServices This HartId x w).sameUpToSite (SbiHartGetStatus HartId x w) ∧
      (Ppi.PeiOpenSbiHartGetStatus PeiServices This HartId x w).value = (SbiHartGetStatus HartId x w).value ∧
      (Ppi.PeiOpenSbiHartGetStatus PeiServices This HartId x w).world.trace = (SbiHartGetStatus HartId x w).world.trace ∧
      Ppi.PeiOpenSbiHartGetStatus PeiServices This HartId x w =
        Ppi.PeiOpenSbiHartGetStatus OtherServices OtherThis HartId x w) ∧
    (∀ HartMask HartMaskBase, (Ppi.PeiOpenSbiSendIpi PeiServices This HartMask HartMaskBase w).sameUpToSite (SbiSendIpi HartMask HartMaskBase w) ∧
      (Ppi.PeiOpenSbiSendIpi PeiServices This HartMask HartMaskBase w).value = (SbiSendIpi HartMask HartMaskBase w).value ∧
      (Ppi.PeiOpenSbiSendIpi PeiServices This HartMask HartMaskBase w).world.trace = (SbiSendIpi HartMask HartMaskBase w).world.trace ∧
      Ppi.PeiOpenSbiSendIpi PeiServices This HartMask HartMaskBase w =
        Ppi.PeiOpenSbiSendIpi OtherServices OtherThis HartMask HartMaskBase w) ∧
    (∀ HartMask HartMaskBase, (Ppi.PeiOpenSbiRemoteFenceI PeiServices This HartMask HartMaskBase w).sameUpToSite (SbiRemoteFenceI HartMask HartMaskBase w) ∧
      (Ppi.PeiOpenSbiRemoteFenceI PeiServices This HartMask HartMaskBase w).value = (SbiRemoteFenceI HartMask HartMaskBase w).value ∧
      (Ppi.PeiOpenSbiRemoteFenceI PeiServices This HartMask HartMaskBase w).world.trace = (SbiRemoteFenceI HartMask HartMaskBase w).world.trace ∧
      Ppi.PeiOpenSbiRemoteFenceI PeiServices This HartMask HartMaskBase w =
        Ppi.PeiOpenSbiRemoteFenceI OtherServices OtherThis HartMask HartMaskBase w) ∧
    (∀ HartMask HartMaskBase StartAddr Size, (Ppi.PeiOpenSbiRemoteSfenceVma PeiServices This HartMask HartMaskBase StartAddr Size w).sameUpToSite (SbiRemoteSfenceVma HartMask HartMaskBase StartAddr Size w) ∧
      (Ppi.PeiOpenSbiRemoteSfenceVma PeiServices This HartMask HartMaskBase StartAddr Size w).value = (SbiRemoteSfenceVma HartMask HartMaskBase StartAddr Size w).value ∧
      (Ppi.PeiOpenSbiRemoteSfenceVma PeiServices This HartMask HartMaskBase StartAddr Size w).world.trace = (SbiRemoteSfenceVma HartMask HartMaskBase StartAddr Size w).world.trace ∧
      Ppi.PeiOpenSbiRemoteSfenceVma PeiServices This HartMask HartMaskBase StartAddr Size w =
        Ppi.PeiOpenSbiRemoteSfenceVma OtherServices OtherThis HartMask HartMaskBase StartAddr Size w) ∧
    (∀ HartMask HartMaskBase StartAddr Size Asid, (Ppi.PeiOpenSbiRemoteSfenceVmaAsid PeiServices This HartMask HartMaskBase StartAddr Size Asid w).sameUpToSite (SbiRemoteSfenceVmaAsid HartMask HartMaskBase StartAddr Size Asid w) ∧
      (Ppi.PeiOpenSbiRemoteSfenceVmaAsid PeiServices This HartMask HartMaskBase StartAddr Size Asid w).value = (SbiRemoteSfenceVmaAsid HartMask HartMaskBase StartAddr Size Asid w).value ∧
      (Ppi.PeiOpenSbiRemoteSfenceVmaAsid PeiServices This HartMask HartMaskBase StartAddr Size Asid w).world.trace = (SbiRemoteSfenceVmaAsid HartMask HartMaskBase StartAddr Size Asid w).world.trace ∧
      Ppi.PeiOpenSbiRemoteSfenceVmaAsid PeiServices This HartMask HartMaskBase StartAddr Size Asid w =
        Ppi.PeiOpenSbiRemoteSfenceVmaAsid OtherServices OtherThis HartMask HartMaskBase StartAddr Size Asid w) ∧
    (∀ HartMask HartMaskBase StartAddr Size Vmid, (Ppi.PeiOpenSbiRemoteHFenceGvmaVmid PeiServices This HartMask HartMaskBase StartAddr Size Vmid w).sameUpToSite (SbiRemoteHFenceGvmaVmid HartMask HartMaskBase StartAddr Size Vmid w) ∧
      (Ppi.PeiOpenSbiRemoteHFenceGvmaVmid PeiServices This HartMask HartMaskBase StartAddr Size Vmid w).value = (SbiRemoteHFenceGvmaVmid HartMask HartMaskBase StartAddr Size Vmid w).value ∧
      (Ppi.PeiOpenSbiRemoteHFenceGvmaVmid PeiServices This HartMask HartMaskBase StartAddr Size Vmid w).world.trace = (SbiRemoteHFenceGvmaVmid HartMask HartMaskBase StartAddr Size Vmid w).world.trace ∧
      Ppi.PeiOpenSbiRemoteHFenceGvmaVmid PeiServices This HartMask HartMaskBase StartAddr Size Vmid w =
        Ppi.PeiOpenSbiRemoteHFenceGvmaVmid OtherServices OtherThis HartMask HartMaskBase StartAddr Size Vmid w) ∧
    (∀ HartMask HartMaskBase StartAddr Size, (Ppi.PeiOpenSbiRemoteHFenceGvma PeiServices This HartMask HartMaskBase StartAddr Size w).sameUpToSite (SbiRemoteHFenceGvma HartMask HartMaskBase StartAddr Size w) ∧
      (Ppi.PeiOpenSbiRemoteHFenceGvma PeiServices This HartMask HartMaskBase StartAddr Size w).value = (SbiRemoteHFenceGvma HartMask HartMaskBase StartAddr Size w).value ∧
      (Ppi.PeiOpenSbiRemoteHFenceGvma PeiServices This HartMask HartMaskBase StartAddr Size w).world.trace = (SbiRemoteHFenceGvma HartMask HartMaskBase StartAddr Size w).world.trace ∧
      Ppi.PeiOpenSbiRemoteHFenceGvma PeiServices This HartMask HartMaskBase StartAddr Size w =
        Ppi.PeiOpenSbiRemoteHFenceGvma OtherServices OtherThis HartMask HartMaskBase StartAddr Size w) ∧
    (∀ HartMask HartMaskBase StartAddr Size Asid, (Ppi.PeiOpenSbiRemoteHFenceVvmaAsid PeiServices This HartMask HartMaskBase StartAddr Size Asid w).sameUpToSite (SbiRemoteHFenceVvmaAsid HartMask HartMaskBase StartAddr Size Asid w) ∧
      (Ppi.PeiOpenSbiRemoteHFenceVvmaAsid PeiServices This HartMask HartMaskBase StartAddr Size Asid w).value = (SbiRemoteHFenceVvmaAsid HartMask HartMaskBase StartAddr Size Asid w).value ∧
      (Ppi.PeiOpenSbiRemoteHFenceVvmaAsid PeiServices This HartMask HartMaskBase StartAddr Size Asid w).world.trace = (SbiRemoteHFenceVvmaAsid HartMask HartMaskBase StartAddr Size Asid w).world.trace ∧
      Ppi.PeiOpenSbiRemoteHFenceVvmaAsid PeiServices This HartMask HartMaskBase StartAddr Size Asid w =
        Ppi.PeiOpenSbiRemoteHFenceVvmaAsid OtherServices OtherThis HartMask HartMaskBase StartAddr Size Asid w) ∧
    (∀ HartMask HartMaskBase StartAddr Size, (Ppi.PeiOpenSbiRemoteHFenceVvma PeiServices This HartMask HartMaskBase StartAddr Size w).sameUpToSite (SbiRemoteHFenceVvma HartMask HartMaskBase StartAddr Size w) ∧
      (Ppi.PeiOpenSbiRemoteHFenceVvma PeiServices This HartMask HartMaskBase StartAddr Size w).value = (SbiRemoteHFenceVvma HartMask HartMaskBase StartAddr Size w).value ∧
      (Ppi.PeiOpenSbiRemoteHFenceVvma PeiServices This HartMask HartMaskBase StartAddr Size w).world.trace = (SbiRemoteHFenceVvma HartMask HartMaskBase StartAddr Size w).world.trace ∧
      Ppi.PeiOpenSbiRemoteHFenceVvma PeiServices This HartMask HartMaskBase StartAddr Size w =
        Ppi.PeiOpenSbiRemoteHFenceVvma OtherServices OtherThis HartMask HartMaskBase StartAddr Size w) ∧
    (∀ ExtensionId FunctionId NumArgs Args, (Ppi.PeiOpenSbiVendorCall PeiServices This ExtensionId FunctionId NumArgs Args w).sameUpToSite (SbiVendorCall ExtensionId FunctionId NumArgs Args w) ∧
      (Ppi.PeiOpenSbiVendorCall PeiServices This ExtensionId FunctionId NumArgs Args w).value = (SbiVendorCall ExtensionId FunctionId NumArgs Args w).value ∧
      (Ppi.PeiOpenSbiVendorCall PeiServices This ExtensionId FunctionId NumArgs Args w).world.trace = (SbiVendorCall ExtensionId FunctionId NumArgs Args w).world.trace ∧
      Ppi.PeiOpenSbiVendorCall PeiServices This ExtensionId FunctionId NumArgs Args w =
        Ppi.PeiOpenSbiVendorCall OtherServices OtherThis ExtensionId FunctionId NumArgs Args w) :=
  ⟨fun _ => rfl,
    fun _ => rfl,
    fun _ => rfl,
    fun _ _ => rfl,
    fun _ => rfl,
    fun _ => rfl,
    fun _ => rfl,
    fun _ => rfl,
    fun _ => rfl,
    fun _ _ => rfl,
    fun _ _ _ =>
      ⟨call_translate_same _ _ _ _ _ _ _ _ w w (sameUpToSite_world_refl w),
      (sameUpToSite_observable _ _ (call_translate_same _ _ _ _ _ _ _ _ w w (sameUpToSite_world_refl w))).1,
      (sameUpToSite_observable _ _ (call_translate_same _ _ _ _ _ _ _ _ w w (sameUpToSite_world_refl w))).2.1, rfl⟩,
    ⟨call_translate_same _ _ _ _ _ _ _ _ w w (sameUpToSite_world_refl w),
      (sameUpToSite_observable _ _ (call_translate_same _ _ _ _ _ _ _ _ w w (sameUpToSite_world_refl w))).1,
      (sameUpToSite_observable _ _ (call_translate_same _ _ _ _ _ _ _ _ w w (sameUpToSite_world_refl w))).2.1, rfl⟩,
    fun _ _ =>
      ⟨PeiOpenSbiHartGetStatus_same PeiServices This _ _ w,
      (sameUpToSite_observable _ _ (PeiOpenSbiHartGetStatus_same PeiServices This _ _ w)).1,
      (sameUpToSite_observable _ _ (PeiOpenSbiHartGetStatus_same PeiServices This _ _ w)).2.1, rfl⟩,
    fun _ _ =>
      ⟨call_translate_same _ _ _ _ _ _ _ _ w w (sameUpToSite_world_refl w),
      (sameUpToSite_observable _ _ (call_translate_same _ _ _ _ _ _ _ _ w w (sameUpToSite_world_refl w))).1,
      (sameUpToSite_observable _ _ (call_translate_same _ _ _ _ _ _ _ _ w w (sameUpToSite_world_refl w))).2.1, rfl⟩,
    fun _ _ =>
      ⟨call_translate_same _ _ _ _ _ _ _ _ w w (sameUpToSite_world_refl w),
      (sameUpToSite_observable _ _ (call_translate_same _ _ _ _ _ _ _ _ w w (sameUpToSite_world_refl w))).1,
      (sameUpToSite_observable _ _ (call_translate_same _ _ _ _ _ _ _ _ w w (sameUpToSite_world_refl w))).2.1, rfl⟩,
    fun _ _ _ _ =>
      ⟨call_translate_same _ _ _ _ _ _ _ _ w w (sameUpToSite_world_refl w),
      (sameUpToSite_observable _ _ (call_translate_same _ _ _ _ _ _ _ _ w w (sameUpToSite_world_refl w))).1,
      (sameUpToSite_observable _ _ (call_translate_same _ _ _ _ _ _ _ _ w w (sameUpToSite_world_refl w))).2.1, rfl⟩,
    fun _ _ _ _ _ =>
      ⟨call_translate_same _ _ _ _ _ _ _ _ w w (sameUpToSite_world_refl w),
      (sameUpToSite_observable _ _ (call_translate_same _ _ _ _ _ _ _ _ w w (sameUpToSite_world_refl w))).1,
      (sameUpToSite_observable _ _ (call_translate_same _ _ _ _ _ _ _ _ w w (sameUpToSite_world_refl w))).2.1, rfl⟩,
    fun _ _ _ _ _ =>
      ⟨call_translate_same _ _ _ _ _ _ _ _ w w (sameUpToSite_world_refl w),
      (sameUpToSite_observable _ _ (call_translate_same _ _ _ _ _ _ _ _ w w (sameUpToSite_world_refl w))).1,
      (sameUpToSite_observable _ _ (call_translate_same _ _ _ _ _ _ _ _ w w (sameUpToSite_world_refl w))).2.1, rfl⟩,
    fun _ _ _ _ =>
      ⟨call_translate_same _ _ _ _ _ _ _ _ w w (sameUpToSite_world_refl w),
      (sameUpToSite_observable _ _ (call_translate_same _ _ _ _ _ _ _ _ w w (sameUpToSite_world_refl w))).1,
      (sameUpToSite_observable _ _ (call_translate_same _ _ _ _ _ _ _ _ w w (sameUpToSite_world_refl w))).2.1, rfl⟩,
    fun _ _ _ _ _ =>
      ⟨call_translate_same _ _ _ _ _ _ _ _ w w (sameUpToSite_world_refl w),
      (sameUpToSite_observable _ _ (call_translate_same _ _ _ _ _ _ _ _ w w (sameUpToSite_world_refl w))).1,
      (sameUpToSite_observable _ _ (call_translate_same _ _ _ _ _ _ _ _ w w (sameUpToSite_world_refl w))).2.1, rfl⟩,
    fun _ _ _ _ =>
      ⟨call_translate_same _ _ _ _ _ _ _ _ w w (sameUpToSite_world_refl w),
      (sameUpToSite_observable _ _ (call_translate_same _ _ _ _ _ _ _ _ w w (sameUpToSite_world_refl w))).1,
      (sameUpToSite_observable _ _ (call_translate_same _ _ _ _ _ _ _ _ w w (sameUpToSite_world_refl w))).2.1, rfl⟩,
    fun _ _ _ _ =>
      ⟨PeiOpenSbiVendorCall_same PeiServices This _ _ _ _ w,
      (sameUpToSite_observable _ _ (PeiOpenSbiVendorCall_same PeiServices This _ _ _ _ w)).1,
      (sameUpToSite_observable _ _ (PeiOpenSbiVendorCall_same PeiServices This _ _ _ _ w)).2.1, rfl⟩⟩

/-- C21, what the code does: `sbi_call` commits `arg0 .. arg5` to the argument slots
`a0 .. a5`, `func_id` to slot `a6` and `ext_id` to slot `a7` in one transition, and returns
`error` as slot `a0` is after the transition (read as a signed word, which loses nothing of
a word); `value` however is `arg1`, the word that was committed to slot `a1`, not the word
the lower layer leaves in it, because `a1` is no output operand of the `asm` statement.
Each `sbi_call_k` is `sbi_call` with its `k` arguments in slots `0 .. k - 1` and zero in
every remaining slot. -/
theorem sbi_call_value_is_arg1 (w : World)
    (ext_id func_id arg0 arg1 arg2 arg3 arg4 arg5 : Nat) :
    (∃ t : Transition,
      t.a0 = arg0 ∧ t.a1 = arg1 ∧ t.a2 = arg2 ∧ t.a3 = arg3 ∧ t.a4 = arg4 ∧ t.a5 = arg5 ∧
      t.a6 = func_id ∧ t.a7 = ext_id ∧
      (sbi_call ext_id func_id arg0 arg1 arg2 arg3 arg4 arg5 w).world.trace = w.trace ++ [t] ∧
      (∀ e v, w.answer t = some (e, v) →
        sbi_call ext_id func_id arg0 arg1 arg2 arg3 arg4 arg5 w =
          .ret ⟨toLong e, toLong arg1⟩ (w.after t) ∧
        toUINTN (toLong e) = e % 2 ^ XLEN ∧ toUINTN (toLong arg1) = arg1 % 2 ^ XLEN) ∧
      (w.answer t = none →
        sbi_call ext_id func_id arg0 arg1 arg2 arg3 arg4 arg5 w =
          .halt .noReturn (w.after t))) ∧
    sbi_call_0 ext_id func_id = sbi_call ext_id func_id 0 0 0 0 0 0 ∧
    sbi_call_1 ext_id func_id arg0 = sbi_call ext_id func_id arg0 0 0 0 0 0 ∧
    sbi_call_2 ext_id func_id arg0 arg1 = sbi_call ext_id func_id arg0 arg1 0 0 0 0 ∧
    sbi_call_3 ext_id func_id arg0 arg1 arg2 = sbi_call ext_id func_id arg0 arg1 arg2 0 0 0 ∧
    sbi_call_4 ext_id func_id arg0 arg1 arg2 arg3 =
      sbi_call ext_id func_id arg0 arg1 arg2 arg3 0 0 ∧
    sbi_call_5 ext_id func_id arg0 arg1 arg2 arg3 arg4 =
      sbi_call ext_id func_id arg0 arg1 arg2 arg3 arg4 0 ∧
    sbi_call_6 ext_id func_id arg0 arg1 arg2 arg3 arg4 arg5 =
      sbi_call ext_id func_id arg0 arg1 arg2 arg3 arg4 arg5 := by
  refine ⟨⟨⟨arg0, arg1, arg2, arg3, arg4, arg5, func_id, ext_id⟩, rfl, rfl, rfl, rfl, rfl, rfl,
    rfl, rfl, ?_, ?_, ?_⟩, rfl, rfl, rfl, rfl, rfl, rfl, rfl⟩
  · rw [sbi_call_run]
    rcases w.answer ⟨arg0, arg1, arg2, arg3, arg4, arg5, func_id, ext_id⟩ with _ | r <;> rfl
  · intro e v h
    rw [sbi_call_run, h]
    exact ⟨rfl, toUINTN_toLong e, toUINTN_toLong arg1⟩
  · intro h
    rw [sbi_call_run, h]

/-- The failing input of C21: the call with the arguments `1 .. 6` is answered with the
registers `(5, 9)`; it returns the error `5` and as value the `2` it passed in slot `a1`,
not the `9` the lower layer left there. -/
theorem sbi_call_value_is_arg1_witness :
    (startWorld 5 9 true).answer ⟨1, 2, 3, 4, 5, 6, 7, 8⟩ = some (5, 9) ∧
    sbi_call 8 7 1 2 3 4 5 6 (startWorld 5 9 true) =
      .ret ⟨5, 2⟩ ((startWorld 5 9 true).after ⟨1, 2, 3, 4, 5, 6, 7, 8⟩) := by
  obtain ⟨t, h0, h1, h2, h3, h4, h5, h6, h7, _, hret, _⟩ :=
    (sbi_call_value_is_arg1 (startWorld 5 9 true) 8 7 1 2 3 4 5 6).1
  have ht : t = ⟨1, 2, 3, 4, 5, 6, 7, 8⟩ := by
    cases t
    simp only [Transition.mk.injEq]
    exact ⟨h0, h1, h2, h3, h4, h5, h6, h7⟩
  subst ht
  exact ⟨rfl, (hret 5 9 rfl).1⟩

/-- C23, what the code does: the body of `PeiOpenSbiLegacySetTimer` is empty (a `TODO`
comment), so for every `StimeValue` it returns in the unchanged world and issues no
transition, while `PeiOpenSbiSetTimer` issues the set-timer transition that carries
`StimeValue`. -/
theorem PeiOpenSbiLegacySetTimer_is_a_stub (w : World) (PeiServices This StimeValue : Nat) :
    Ppi.PeiOpenSbiLegacySetTimer PeiServices This StimeValue w = .ret () w ∧
    (Ppi.PeiOpenSbiLegacySetTimer PeiServices This StimeValue w).world.trace = w.trace ∧
    (¬ ∃ t, (Ppi.PeiOpenSbiLegacySetTimer PeiServices This StimeValue w).world.trace =
      w.trace ++ [t]) ∧
    (Ppi.PeiOpenSbiSetTimer PeiServices This StimeValue w).world.trace =
      w.trace ++ [⟨StimeValue, 0, 0, 0, 0, 0, 0, SBI_TIME_EXT⟩] := by
  refine ⟨rfl, rfl, ?_, SbiSetTimer_trace StimeValue w⟩
  rintro ⟨t, ht⟩
  have hlen := congrArg List.length ht
  simp [Ppi.PeiOpenSbiLegacySetTimer, pure_run, Outcome.world] at hlen

/-- C29: `SbiVendorCall` evaluates its range assertion before it looks at `NumArgs`.  For
an extension id outside `[0x09000000, 0x09FFFFFF]` and every `NumArgs`: when assertions
abort the run halts at the assertion (it does not return `EFI_INVALID_PARAMETER`); when
they do not, the violation is recorded and then `NumArgs > 6` returns
`EFI_INVALID_PARAMETER`, while `NumArgs ≤ 6` forwards the call to the lower layer with the
out-of-range extension id unchanged in slot `a7` and returns the translated error. -/
theorem SbiVendorCall_asserts_before_NumArgs (w : World) (ExtensionId FunctionId NumArgs : Nat)
    (Args : VA_LIST) (hout : ¬ (0x09000000 ≤ ExtensionId ∧ ExtensionId ≤ 0x09FFFFFF)) :
    (w.AssertAborts = true →
      SbiVendorCall ExtensionId FunctionId NumArgs Args w =
        .halt .assertFailed (w.violated .SbiVendorCall_ExtensionId)) ∧
    (w.AssertAborts = false → 6 < NumArgs →
      SbiVendorCall ExtensionId FunctionId NumArgs Args w =
        .ret EFI_INVALID_PARAMETER (w.violated .SbiVendorCall_ExtensionId)) ∧
    (w.AssertAborts = false → NumArgs ≤ 6 →
      ∃ t : Transition, t.a7 = ExtensionId ∧ t.a6 = FunctionId ∧
        (SbiVendorCall ExtensionId FunctionId NumArgs Args w).world.trace = w.trace ++ [t] ∧
        (∀ e v, w.answer t = some (e, v) →
          SbiVendorCall ExtensionId FunctionId NumArgs Args w =
            TranslateError (toUINTN (toLong e))
              ((w.violated .SbiVendorCall_ExtensionId).after t))) ∧
    (SbiVendorCall ExtensionId FunctionId NumArgs Args w).world.violations.count
      .SbiVendorCall_ExtensionId = w.violations.count .SbiVendorCall_ExtensionId + 1 := by
  have hrun := SbiVendorCall_out_of_range ExtensionId FunctionId NumArgs Args w hout
  have hv : (w.violated .SbiVendorCall_ExtensionId).violations.count
      .SbiVendorCall_ExtensionId = w.violations.count .SbiVendorCall_ExtensionId + 1 := by
    simp [World.violated]
  refine ⟨?_, ?_, ?_, ?_⟩
  · intro ha
    rw [hrun, ha]; rfl
  · intro ha hn
    rw [hrun, ha]
    exact if_neg (show ¬ NumArgs ≤ 6 by omega)
  · intro ha hn
    rw [ha, if_pos hn] at hrun
    refine ⟨VendorTransition ExtensionId FunctionId NumArgs Args, rfl, rfl, ?_, ?_⟩
    · rw [hrun]
      exact callThenTranslate_trace _ (w.violated .SbiVendorCall_ExtensionId)
    · intro e v h
      rw [hrun]
      exact callThenTranslate_of_answer _ (w.violated .SbiVendorCall_ExtensionId) e v h
  · rw [hrun]
    split
    · exact hv
    · split
      · rw [callThenTranslate_vendor_violations]
        exact hv
      · exact hv

/-- Witness of C29: the id `0x08FFFFFF` with seven arguments and aborting assertions halts
at the assertion. -/
theorem SbiVendorCall_asserts_before_NumArgs_witness :
    ¬ (0x09000000 ≤ 0x08FFFFFF ∧ 0x08FFFFFF ≤ 0x09FFFFFF) ∧
    (startWorld 0 0 true).AssertAborts = true ∧
    SbiVendorCall 0x08FFFFFF 0 7 [1, 2, 3, 4, 5, 6, 7] (startWorld 0 0 true) =
      .halt .assertFailed ((startWorld 0 0 true).violated .SbiVendorCall_ExtensionId) :=
  ⟨by decide, rfl,
    (SbiVendorCall_asserts_before_NumArgs (startWorld 0 0 true) 0x08FFFFFF 0 7
      [1, 2, 3, 4, 5, 6, 7] (by decide)).1 rfl⟩

/-- C30: the two copies of `TranslateError` are the same function: for every code the copy
in `RiscVOpenSbiPpi.c` returns the same status as the copy in `RiscVOpenSbiLib.c` (or halts
as it does), the two are equal on the seven known codes, and on every other code each
reaches its own `ASSERT (FALSE)`, so they record as many violations. -/
theorem TranslateError_copies_agree (w : World) (SbiError : Nat) :
    (Ppi.TranslateError SbiError w).sameUpToSite (TranslateError SbiError w) ∧
    (Ppi.TranslateError SbiError w).value = (TranslateError SbiError w).value ∧
    (Ppi.TranslateError SbiError w).world.violations.length =
      (TranslateError SbiError w).world.violations.length ∧
    ((∃ k ∈ KnownSbiErrors, SbiError = toUINTN k) →
      Ppi.TranslateError SbiError w = TranslateError SbiError w) ∧
    ((∀ k ∈ KnownSbiErrors, SbiError ≠ toUINTN k) →
      (Ppi.TranslateError SbiError w).world = w.violated .PeiTranslateError_FALSE ∧
      (TranslateError SbiError w).world = w.violated .TranslateError_FALSE) := by
  have hsame := TranslateError_same SbiError w w (sameUpToSite_world_refl w)
  refine ⟨hsame, (sameUpToSite_observable _ _ hsame).1, ?_, ?_, ?_⟩
  · have hmap : (Ppi.TranslateError SbiError w).world.violations.map AssertSite.inLib =
        (TranslateError SbiError w).world.violations.map AssertSite.inLib := by
      cases h1 : Ppi.TranslateError SbiError w with
      | ret a w1 =>
        cases h2 : TranslateError SbiError w with
        | ret b w2 => rw [h1, h2] at hsame; exact hsame.2.2.2.2.2
        | halt why w2 => rw [h1, h2] at hsame; exact hsame.elim
      | halt why w1 =>
        cases h2 : TranslateError SbiError w with
        | ret b w2 => rw [h1, h2] at hsame; exact hsame.elim
        | halt why2 w2 => rw [h1, h2] at hsame; exact hsame.2.2.2.2.2
    have hlen := congrArg List.length hmap
    rw [List.length_map, List.length_map] at hlen
    exact hlen
  · rintro ⟨k, hk, rfl⟩
    exact PeiTranslateError_known_run w k hk
  · intro hunknown
    rw [PeiTranslateError_unknown_run SbiError w hunknown,
      TranslateError_unknown_run SbiError w hunknown]
    cases w.AssertAborts <;> exact ⟨rfl, rfl⟩

/-- Witness of C30: the code `7` is unknown to both copies. -/
theorem TranslateError_copies_agree_witness :
    (∀ k ∈ KnownSbiErrors, (7 : Nat) ≠ toUINTN k) ∧
    (Ppi.TranslateError 7 (startWorld 0 0 false)).world =
      (startWorld 0 0 false).violated .PeiTranslateError_FALSE ∧
    (TranslateError 7 (startWorld 0 0 false)).world =
      (startWorld 0 0 false).violated .TranslateError_FALSE :=
  ⟨by decide, (TranslateError_copies_agree (startWorld 0 0 false) 7).2.2.2.2 (by decide)⟩

/-- C24: `TranslateError` returns `EFI_SUCCESS` if and only if its argument is
`SBI_SUCCESS`, the word `0`; it is injective on the seven known codes; and a status that
two different codes translate to is `EFI_UNSUPPORTED`. -/
theorem TranslateError_success_and_injective (w : World) :
    (∀ SbiError Status w1, TranslateError SbiError w = .ret Status w1 →
      (Status = EFI_SUCCESS ↔ SbiError = 0)) ∧
    TranslateError 0 w = .ret EFI_SUCCESS w ∧
    toUINTN SBI_SUCCESS = 0 ∧
    (∀ k1 ∈ KnownSbiErrors, ∀ k2 ∈ KnownSbiErrors,
      (TranslateError (toUINTN k1) w).value = (TranslateError (toUINTN k2) w).value →
      k1 = k2) ∧
    (∀ c1 c2 Status w1 w2, c1 ≠ c2 → TranslateError c1 w = .ret Status w1 →
      TranslateError c2 w = .ret Status w2 → Status = EFI_UNSUPPORTED) := by
  have hinj : ∀ k1 ∈ KnownSbiErrors, ∀ k2 ∈ KnownSbiErrors,
      (TranslateError (toUINTN k1) w).value = (TranslateError (toUINTN k2) w).value →
      k1 = k2 := by
    intro k1 hk1 k2 hk2 h
    obtain ⟨s1, hl1, hr1⟩ := TranslateError_known_listed w k1 hk1
    obtain ⟨s2, hl2, hr2⟩ := TranslateError_known_listed w k2 hk2
    rw [hr1, hr2] at h
    have hs : s1 = s2 := Option.some.inj h
    exact listedStatus_injective k1 hk1 k2 hk2 (by rw [hl1, hl2, hs])
  refine ⟨?_, rfl, by decide, hinj, ?_⟩
  · intro c Status w1 hret
    constructor
    · intro hs
      by_contra hc
      have herr := TranslateError_failure c w hc Status w1 hret
      rw [hs] at herr
      exact absurd herr (by decide)
    · intro hc
      rw [hc] at hret
      have h0 : TranslateError 0 w = .ret EFI_SUCCESS w := rfl
      rw [h0] at hret
      cases hret
      rfl
  · intro c1 c2 Status w1 w2 hne h1 h2
    by_cases hk1 : ∃ k ∈ KnownSbiErrors, c1 = toUINTN k
    · by_cases hk2 : ∃ k ∈ KnownSbiErrors, c2 = toUINTN k
      · obtain ⟨k1, hm1, rfl⟩ := hk1
        obtain ⟨k2, hm2, rfl⟩ := hk2
        exact absurd (congrArg toUINTN (hinj k1 hm1 k2 hm2 (by rw [h1, h2]; rfl))) hne
      · exact TranslateError_unknown_status c2 w (fun k hk hc => hk2 ⟨k, hk, hc⟩) Status w2 h2
    · exact TranslateError_unknown_status c1 w (fun k hk hc => hk1 ⟨k, hk, hc⟩) Status w1 h1

/-- Witness of C24: `SBI_ERR_NOT_SUPPORTED` and the unknown code `1` are two different codes
with the same status, `EFI_UNSUPPORTED`. -/
theorem TranslateError_success_and_injective_witness :
    toUINTN SBI_ERR_NOT_SUPPORTED ≠ 1 ∧
    TranslateError (toUINTN SBI_ERR_NOT_SUPPORTED) (startWorld 0 0 false) =
      .ret EFI_UNSUPPORTED (startWorld 0 0 false) ∧
    TranslateError 1 (startWorld 0 0 false) =
      .ret EFI_UNSUPPORTED ((startWorld 0 0 false).violated .TranslateError_FALSE) ∧
    EFI_UNSUPPORTED = EFI_UNSUPPORTED :=
  ⟨by decide, rfl, rfl,
    (TranslateError_success_and_injective (startWorld 0 0 false)).2.2.2.2
      (toUINTN SBI_ERR_NOT_SUPPORTED) 1 EFI_UNSUPPORTED (startWorld 0 0 false)
      ((startWorld 0 0 false).violated .TranslateError_FALSE) (by decide) rfl rfl⟩

/-- C25: the conversion of the signed error word to `UINTN` on the way into
`TranslateError` loses nothing.  For every signed `XLEN`-bit word `e`,
`TranslateError ((UINTN) e)` is the mapping applied to `e` as a signed number and `e` is
recovered from `(UINTN) e`; the codes `-1 .. -6` are the words `2 ^ XLEN - 1 ..
2 ^ XLEN - 6`; and a positive word or a word below `-6` is not taken for a known code. -/
theorem TranslateError_signed_conversion (e : Int) (hlo : -(2 : Int) ^ (XLEN - 1) ≤ e)
    (hhi : e < (2 : Int) ^ (XLEN - 1)) :
    TranslateError (toUINTN e) = TranslateSigned e ∧
    toLong (toUINTN e) = e ∧
    (toUINTN SBI_ERR_FAILED = 2 ^ XLEN - 1 ∧ toUINTN SBI_ERR_NOT_SUPPORTED = 2 ^ XLEN - 2 ∧
      toUINTN SBI_ERR_INVALID_PARAM = 2 ^ XLEN - 3 ∧ toUINTN SBI_ERR_DENIED = 2 ^ XLEN - 4 ∧
      toUINTN SBI_ERR_INVALID_ADDRESS = 2 ^ XLEN - 5 ∧
      toUINTN SBI_ERR_ALREADY_AVAILABLE = 2 ^ XLEN - 6) ∧
    ((e < -6 ∨ 0 < e) →
      (∀ k ∈ KnownSbiErrors, toUINTN e ≠ toUINTN k) ∧
      ∀ w, TranslateError (toUINTN e) w =
        if w.AssertAborts then .halt .assertFailed (w.violated .TranslateError_FALSE)
        else .ret EFI_UNSUPPORTED (w.violated .TranslateError_FALSE)) := by
  have hout : (e < -6 ∨ 0 < e) → ∀ k ∈ KnownSbiErrors, toUINTN e ≠ toUINTN k := by
    intro he k hk hc
    have hek := toUINTN_eq_known e hlo hhi k hk hc
    obtain ⟨_, _, h6, h0⟩ := KnownSbiErrors_range k hk
    omega
  refine ⟨?_, toLong_toUINTN e hlo hhi,
    ⟨by decide, by decide, by decide, by decide, by decide, by decide⟩,
    fun he => ⟨hout he, fun w => TranslateError_unknown_run _ w (hout he)⟩⟩
  funext w
  by_cases hk : e ∈ KnownSbiErrors
  · simp only [KnownSbiErrors, List.mem_cons, List.mem_singleton, List.not_mem_nil,
      or_false] at hk
    rcases hk with rfl | rfl | rfl | rfl | rfl | rfl | rfl <;> rfl
  · have hunknown : ∀ k ∈ KnownSbiErrors, toUINTN e ≠ toUINTN k := by
      intro k hkm hc
      exact hk (toUINTN_eq_known e hlo hhi k hkm hc ▸ hkm)
    rw [TranslateError_unknown_run _ w hunknown]
    unfold TranslateSigned
    rw [listedStatus_eq_none e hk]
    show _ = (ASSERT .TranslateError_FALSE false >>= fun _ => pure EFI_UNSUPPORTED) w
    rw [bind_run]
    unfold ASSERT
    cases w.AssertAborts <;> rfl

/-- Witness of C25 at the signed word `-3`, `SBI_ERR_INVALID_PARAM`. -/
theorem TranslateError_signed_conversion_witness :
    (-(2 : Int) ^ (XLEN - 1) ≤ -3) ∧ ((-3 : Int) < (2 : Int) ^ (XLEN - 1)) ∧
    TranslateError (toUINTN (-3)) = TranslateSigned (-3) ∧ toLong (toUINTN (-3)) = -3 :=
  ⟨by decide, by decide,
    (TranslateError_signed_conversion (-3) (by decide) (by decide)).1,
    (TranslateError_signed_conversion (-3) (by decide) (by decide)).2.1⟩

/-- C26, what the code does: `SbiGetSpecVersion` differs from the other six Base queries in
that with a nonzero error word it returns with the content of the `SpecVersion` location
of the caller as it was, while `SbiGetImplId`, `SbiGetImplVersion`, `SbiProbeExtension`,
`SbiGetMvendorId`, `SbiGetMarchId` and `SbiGetMimpId` overwrite their output for every
error word.  The word they write, and the word `SbiGetSpecVersion` writes with the error
word `0`, is `ret.value`, the `arg1 = 0` of `sbi_call_0`, not the value word `v` of the
lower layer. -/
theorem base_queries_store_arg1 (w : World) (e v : Nat) :
    (toLong e ≠ 0 → ∀ x,
      w.answer ⟨0, 0, 0, 0, 0, 0, SBI_GET_SPEC_VERSION_FUNC, SBI_BASE_EXT⟩ = some (e, v) →
      SbiGetSpecVersion x w = .ret x
        (w.after ⟨0, 0, 0, 0, 0, 0, SBI_GET_SPEC_VERSION_FUNC, SBI_BASE_EXT⟩)) ∧
    (toLong e = 0 → ∀ x,
      w.answer ⟨0, 0, 0, 0, 0, 0, SBI_GET_SPEC_VERSION_FUNC, SBI_BASE_EXT⟩ = some (e, v) →
      SbiGetSpecVersion x w = .ret 0
        (w.after ⟨0, 0, 0, 0, 0, 0, SBI_GET_SPEC_VERSION_FUNC, SBI_BASE_EXT⟩)) ∧
    (∀ x, w.answer ⟨0, 0, 0, 0, 0, 0, SBI_GET_IMPL_ID_FUNC, SBI_BASE_EXT⟩ = some (e, v) →
      SbiGetImplId x w = .ret 0
        (w.after ⟨0, 0, 0, 0, 0, 0, SBI_GET_IMPL_ID_FUNC, SBI_BASE_EXT⟩)) ∧
    (∀ x, w.answer ⟨0, 0, 0, 0, 0, 0, SBI_GET_IMPL_VERSION_FUNC, SBI_BASE_EXT⟩ = some (e, v) →
      SbiGetImplVersion x w = .ret 0
        (w.after ⟨0, 0, 0, 0, 0, 0, SBI_GET_IMPL_VERSION_FUNC, SBI_BASE_EXT⟩)) ∧
    (∀ ExtensionId x, w.answer ⟨0, 0, 0, 0, 0, 0, SBI_PROBE_EXTENSION_FUNC, SBI_BASE_EXT⟩ = some (e, v) →
      SbiProbeExtension ExtensionId x w = .ret 0
        (w.after ⟨0, 0, 0, 0, 0, 0, SBI_PROBE_EXTENSION_FUNC, SBI_BASE_EXT⟩)) ∧
    (∀ x, w.answer ⟨0, 0, 0, 0, 0, 0, SBI_GET_MVENDORID_FUNC, SBI_BASE_EXT⟩ = some (e, v) →
      SbiGetMvendorId x w = .ret 0
        (w.after ⟨0, 0, 0, 0, 0, 0, SBI_GET_MVENDORID_FUNC, SBI_BASE_EXT⟩)) ∧
    (∀ x, w.answer ⟨0, 0, 0, 0, 0, 0, SBI_GET_MARCHID_FUNC, SBI_BASE_EXT⟩ = some (e, v) →
      SbiGetMarchId x w = .ret 0
        (w.after ⟨0, 0, 0, 0, 0, 0, SBI_GET_MARCHID_FUNC, SBI_BASE_EXT⟩)) ∧
    (∀ x, w.answer ⟨0, 0, 0, 0, 0, 0, SBI_GET_MIMPID_FUNC, SBI_BASE_EXT⟩ = some (e, v) →
      SbiGetMimpId x w = .ret 0
        (w.after ⟨0, 0, 0, 0, 0, 0, SBI_GET_MIMPID_FUNC, SBI_BASE_EXT⟩)) := by
  refine ⟨?_, ?_, ?_, ?_, ?_, ?_, ?_, ?_⟩
  · intro he x h; rw [SbiGetSpecVersion_run x w e v h, if_neg he]
  · intro he x h; rw [SbiGetSpecVersion_run x w e v h, if_pos he]
  · intro x h; exact SbiGetImplId_run x w e v h
  · intro x h; exact SbiGetImplVersion_run x w e v h
  · intro E x h; exact SbiProbeExtension_run E x w e v h
  · intro x h; exact SbiGetMvendorId_run x w e v h
  · intro x h; exact SbiGetMarchId_run x w e v h
  · intro x h; exact SbiGetMimpId_run x w e v h

/-- The failing input of C26: answered `(0, 1)`, `SbiGetImplId` overwrites the old content
`5` of its output with `0`, not with the value word `1`. -/
theorem base_queries_store_arg1_witness :
    (startWorld 0 1 true).answer ⟨0, 0, 0, 0, 0, 0, SBI_GET_IMPL_ID_FUNC, SBI_BASE_EXT⟩ = some (0, 1) ∧
    SbiGetImplId 5 (startWorld 0 1 true) =
      .ret 0 ((startWorld 0 1 true).after ⟨0, 0, 0, 0, 0, 0, SBI_GET_IMPL_ID_FUNC, SBI_BASE_EXT⟩) :=
  ⟨rfl, (base_queries_store_arg1 (startWorld 0 1 true) 0 1).2.2.1 5 rfl⟩

/-- C27, what the code does: when the lower layer answers the scratch query with a nonzero
error word, the Firmware-Scratch operations change nothing although they report
`EFI_SUCCESS`: `SbiGetMscratch`, `SbiGetMscratchHartid` and `SbiGetFirmwareContext` return
the content of the output location of the caller as it was, and `SbiSetFirmwareContext`
leaves the memory as it was.  When the error word is `0`, what `SbiGetMscratch` and
`SbiGetMscratchHartid` store is `ret.value`, the `arg1 = 0` of their call, a null pointer,
not the value word `v` of the lower layer. -/
theorem firmware_scratch_stores_arg1 (w : World) (e v : Nat) :
    (toLong e ≠ 0 → ∀ x, w.answer ⟨0, 0, 0, 0, 0, 0, SBI_EXT_FW_MSCRATCH_FUNC, SBI_FW_EXT⟩ = some (e, v) →
      SbiGetMscratch x w = .ret (EFI_SUCCESS, x)
        (w.after ⟨0, 0, 0, 0, 0, 0, SBI_EXT_FW_MSCRATCH_FUNC, SBI_FW_EXT⟩)) ∧
    (toLong e ≠ 0 → ∀ HartId x,
      w.answer ⟨HartId, 0, 0, 0, 0, 0, SBI_EXT_FW_MSCRATCH_HARTID_FUNC, SBI_FW_EXT⟩ = some (e, v) →
      SbiGetMscratchHartid HartId x w = .ret (EFI_SUCCESS, x)
        (w.after ⟨HartId, 0, 0, 0, 0, 0, SBI_EXT_FW_MSCRATCH_HARTID_FUNC, SBI_FW_EXT⟩)) ∧
    (toLong e ≠ 0 → ∀ x, w.answer ⟨0, 0, 0, 0, 0, 0, SBI_EXT_FW_MSCRATCH_FUNC, SBI_FW_EXT⟩ = some (e, v) →
      SbiGetFirmwareContext x w = .ret (EFI_SUCCESS, x)
        (w.after ⟨0, 0, 0, 0, 0, 0, SBI_EXT_FW_MSCRATCH_FUNC, SBI_FW_EXT⟩)) ∧
    (toLong e ≠ 0 → ∀ p, w.answer ⟨0, 0, 0, 0, 0, 0, SBI_EXT_FW_MSCRATCH_FUNC, SBI_FW_EXT⟩ = some (e, v) →
      SbiSetFirmwareContext p w = .ret EFI_SUCCESS
        (w.after ⟨0, 0, 0, 0, 0, 0, SBI_EXT_FW_MSCRATCH_FUNC, SBI_FW_EXT⟩) ∧
      (SbiSetFirmwareContext p w).world.heap = w.heap) ∧
    (toLong e = 0 → ∀ x, w.answer ⟨0, 0, 0, 0, 0, 0, SBI_EXT_FW_MSCRATCH_FUNC, SBI_FW_EXT⟩ = some (e, v) →
      SbiGetMscratch x w = .ret (EFI_SUCCESS, 0)
        (w.after ⟨0, 0, 0, 0, 0, 0, SBI_EXT_FW_MSCRATCH_FUNC, SBI_FW_EXT⟩)) ∧
    (toLong e = 0 → ∀ HartId x,
      w.answer ⟨HartId, 0, 0, 0, 0, 0, SBI_EXT_FW_MSCRATCH_HARTID_FUNC, SBI_FW_EXT⟩ = some (e, v) →
      SbiGetMscratchHartid HartId x w = .ret (EFI_SUCCESS, 0)
        (w.after ⟨HartId, 0, 0, 0, 0, 0, SBI_EXT_FW_MSCRATCH_HARTID_FUNC, SBI_FW_EXT⟩)) := by
  refine ⟨?_, ?_, ?_, ?_, ?_, ?_⟩
  · intro he x h; rw [SbiGetMscratch_run x w e v h, if_neg he]
  · intro he HartId x h; rw [SbiGetMscratchHartid_run HartId x w e v h, if_neg he]
  · intro he x h; rw [SbiGetFirmwareContext_run x w e v h, if_neg he]
  · intro he p h
    have hrun := SbiSetFirmwareContext_run p w e v h
    rw [if_neg he] at hrun
    rw [hrun]
    exact ⟨rfl, rfl⟩
  · intro he x h; rw [SbiGetMscratch_run x w e v h, if_pos he]
  · intro he HartId x h
    rw [SbiGetMscratchHartid_run HartId x w e v h, if_pos he]

/-- The failing input of C27: answered `(0, 0x1000)`, `SbiGetMscratch` stores the null
pointer, not the scratch pointer `0x1000`. -/
theorem firmware_scratch_stores_arg1_witness :
    toLong 0 = 0 ∧
    (startWorld 0 0x1000 true).answer ⟨0, 0, 0, 0, 0, 0, SBI_EXT_FW_MSCRATCH_FUNC, SBI_FW_EXT⟩ = some (0, 0x1000) ∧
    SbiGetMscratch 5 (startWorld 0 0x1000 true) =
      .ret (EFI_SUCCESS, 0) ((startWorld 0 0x1000 true).after
        ⟨0, 0, 0, 0, 0, 0, SBI_EXT_FW_MSCRATCH_FUNC, SBI_FW_EXT⟩) :=
  ⟨by decide, rfl,
    (firmware_scratch_stores_arg1 (startWorld 0 0x1000 true) 0 0x1000).2.2.2.2.1
      (by decide) 5 rfl⟩

/-- C28, what the code does: the descriptor `SbiSetFirmwareContext` and
`SbiGetFirmwareContext` go to is the one they reach from the scratch pointer `ret.value`,
the `arg1 = 0` of their `sbi_call_0`, not the one of the scratch space the lower layer
answers.  The lower layer answers `(0, 0x1000)`; the scratch space at `0x1000` points to the
descriptor at `0x2000`, whose `firmware_context` holds `0x11`, and nothing is mapped at
address `0`.  `SbiSetFirmwareContext (0xAB)` faults and the `firmware_context` of the
descriptor at `0x2000` still holds `0x11`, not `0xAB`; `SbiGetFirmwareContext` faults as
well and returns no pointer. -/
theorem SbiSetFirmwareContext_misses_descriptor :
    (worldOver scratchHeap 0 0x1000).answer ⟨0, 0, 0, 0, 0, 0, SBI_EXT_FW_MSCRATCH_FUNC, SBI_FW_EXT⟩ = some (0, 0x1000) ∧
    scratchHeap.mem (fieldAddress 0x1000 SBI_SCRATCH_PLATFORM_ADDR_OFFSET) = some 0x2000 ∧
    scratchHeap.mem (fieldAddress 0x2000 SBI_PLATFORM_FIRMWARE_CONTEXT_OFFSET) = some 0x11 ∧
    (SbiSetFirmwareContext 0xAB (worldOver scratchHeap 0 0x1000)).value = none ∧
    (SbiSetFirmwareContext 0xAB (worldOver scratchHeap 0 0x1000)).world.heap.mem
      (fieldAddress 0x2000 SBI_PLATFORM_FIRMWARE_CONTEXT_OFFSET) = some 0x11 ∧
    (SbiSetFirmwareContext 0xAB (worldOver scratchHeap 0 0x1000)).world.heap.mem
      (fieldAddress 0x2000 SBI_PLATFORM_FIRMWARE_CONTEXT_OFFSET) ≠ some 0xAB ∧
    SbiGetFirmwareContext 5 (worldOver scratchHeap 0 0x1000) =
      .halt .fault ((worldOver scratchHeap 0 0x1000).after
        ⟨0, 0, 0, 0, 0, 0, SBI_EXT_FW_MSCRATCH_FUNC, SBI_FW_EXT⟩) := by
  have hset : SbiSetFirmwareContext 0xAB (worldOver scratchHeap 0 0x1000) =
      .halt .fault ((worldOver scratchHeap 0 0x1000).after
        ⟨0, 0, 0, 0, 0, 0, SBI_EXT_FW_MSCRATCH_FUNC, SBI_FW_EXT⟩) := by
    rw [SbiSetFirmwareContext_run 0xAB (worldOver scratchHeap 0 0x1000) 0 0x1000 rfl,
      if_pos (by decide), firmware_context_write_run]
    rfl
  refine ⟨rfl, by decide, by decide, ?_, ?_, ?_, ?_⟩
  · rw [hset]; rfl
  · rw [hset]; decide
  · rw [hset]; decide
  · rw [SbiGetFirmwareContext_run 5 (worldOver scratchHeap 0 0x1000) 0 0x1000 rfl,
      if_pos (by decide), firmware_context_read_run]
    rfl

end RiscVOpenSbi
